import Mathlib

/-!
Zen Element Revealer: the visibility engine of content.js.

This is a shallow embedding of class ZenElementRevealer (content.js).  The page is a heap
of element nodes addressed by number; the engine keeps references (numbers) to nodes, as
the script keeps object references.  Everything the browser supplies and the script only
calls (computed style, layout boxes, number parsing, selector matching, what page
listeners do when an event is dispatched) is a field of the structure Browser, so that
every general statement below holds for all browsers and all pages.

Conventions
* a JavaScript number is a rational; NaN is none.
* an inline style is the ordered list of declarations behind style.cssText, keyed by the
  property names the script uses (display, clipPath, transition, ...); the value "" is
  the absence of a declaration, as in CSSOM.
* className is the class attribute string; classList is its ordered token set, and every
  classList.add / classList.remove writes the serialised token set back to the attribute
  (DOM standard, DOMTokenList update steps), also when the token set did not change.
* strings are sequences of characters; toLowerCase and the case-insensitive pattern of
  isElementMeaningful fold ASCII letters.
* built-ins do not throw, except Element.matches on a selector the browser rejects.
-/

namespace Zen

set_option maxRecDepth 100000

/-! ## JavaScript strings -/

/-- Lower-casing as String.prototype.toLowerCase on ASCII text. -/
def toLowerCase (s : String) : String := String.mk (s.data.map Char.toLower)

/-- Does the first list start the second one. -/
def startsWithChars : List Char → List Char → Bool
  | [], _ => true
  | _ :: _, [] => false
  | a :: as, b :: bs => a == b && startsWithChars as bs

/-- Substring search on character lists. -/
def includesChars (pat : List Char) : List Char → Bool
  | [] => pat.isEmpty
  | c :: cs => startsWithChars pat (c :: cs) || includesChars pat cs

/-- String.prototype.includes. -/
def includes (s pat : String) : Bool := includesChars pat.data s.data

/-- ASCII whitespace, the separators of a class attribute. -/
def isAsciiSpace (c : Char) : Bool :=
  c == ' ' || c == '\t' || c == '\n' || c == '\x0c' || c == '\r'

/-- White space and line terminators removed by String.prototype.trim. -/
def isTrimSpace (c : Char) : Bool :=
  isAsciiSpace c || c == '\x0b' || c.val == 0xA0 || c.val == 0xFEFF || c.val == 0x2028 ||
  c.val == 0x2029 || c.val == 0x1680 || (0x2000 ≤ c.val && c.val ≤ 0x200A) ||
  c.val == 0x202F || c.val == 0x205F || c.val == 0x3000

/-- String.prototype.trim. -/
def trim (s : String) : String :=
  String.mk ((s.data.dropWhile isTrimSpace).reverse.dropWhile isTrimSpace).reverse

/-- Split a class attribute on ASCII whitespace; cur is the token being read, reversed. -/
def splitTokens : List Char → List Char → List String
  | [], cur => if cur.isEmpty then [] else [String.mk cur.reverse]
  | c :: cs, cur =>
    if isAsciiSpace c then
      (if cur.isEmpty then splitTokens cs [] else String.mk cur.reverse :: splitTokens cs [])
    else splitTokens cs (c :: cur)

/-- Keep the first occurrence of every token (an ordered set). -/
def orderedSet : List String → List String
  | [] => []
  | t :: ts => t :: (orderedSet ts).filter (fun u => u != t)

/-- The ordered set parser of the DOM standard. -/
def parseTokens (s : String) : List String := orderedSet (splitTokens s.data [])

/-- The ordered set serialiser; also Array.prototype.join with a blank. -/
def joinTokens (ts : List String) : String := String.intercalate " " ts

/-- The first number sign removed: target.replace with a string pattern. -/
def replaceFirstHash : List Char → List Char
  | [] => []
  | c :: cs => if c == '#' then cs else c :: replaceFirstHash cs

/-! ## Inline style declarations -/

/-- Read of element.style[prop]: the declared value, or the empty string. -/
def getProp : List (String × String) → String → String
  | [], _ => ""
  | (k, v) :: rest, p => if k = p then v else getProp rest p

/-- Is the property declared. -/
def hasProp (s : List (String × String)) (p : String) : Bool := s.any (fun kv => kv.1 == p)

/-- Write of element.style[prop] = value: the empty string removes the declaration, a
declared property is updated in place, a new one is appended. -/
def setProp (s : List (String × String)) (p v : String) : List (String × String) :=
  if v = "" then s.filter (fun kv => kv.1 != p)
  else if hasProp s p then s.map (fun kv => if kv.1 = p then (kv.1, v) else kv)
  else s ++ [(p, v)]

/-! ## The document -/

/-- A child of an element: a text node or a reference to an element node. -/
inductive Child where
  | text (data : String)
  | elem (node : Nat)
  deriving DecidableEq, Repr

/-- An element node: what the script reads and writes of it. -/
structure Element where
  tagName : String
  id : String
  className : String
  style : List (String × String)
  attrs : List (String × String)
  children : List Child
  parent : Option Nat
  deriving DecidableEq, Repr

/-- The node heap with the document element and the body.  The field environment stands
for the rest of the page state (style sheets, scroll position, script variables): the
script never reads or writes it; the browser may read it and page code may change it. -/
structure Document where
  nodes : Nat → Element
  size : Nat
  root : Nat
  body : Nat
  environment : Nat

/-- Replace one node of the heap. -/
def Document.update (d : Document) (n : Nat) (f : Element → Element) : Document :=
  { d with nodes := fun m => if m = n then f (d.nodes m) else d.nodes m }

/-- The element children, in order: element.children. -/
def childElements : List Child → List Nat
  | [] => []
  | Child.text _ :: cs => childElements cs
  | Child.elem n :: cs => n :: childElements cs

/-- Node n and its element descendants in document order, down to the given depth. -/
def subtree (d : Document) : Nat → Nat → List Nat
  | 0, _ => []
  | fuel + 1, n => n :: (childElements (d.nodes n).children).flatMap (subtree d fuel)

/-- The element descendants of n in document order (n itself excluded). -/
def descendants (d : Document) (n : Nat) : List Nat :=
  (childElements (d.nodes n).children).flatMap (subtree d d.size)

/-- Every element of the document in document order: querySelectorAll of the star. -/
def allElements (d : Document) : List Nat := subtree d (d.size + 1) d.root

/-- Walk up the parent references looking for the document element. -/
def reachesRoot (d : Document) : Nat → Nat → Bool
  | 0, _ => false
  | fuel + 1, n =>
    n == d.root ||
    (match (d.nodes n).parent with
     | none => false
     | some p => reachesRoot d fuel p)

/-- Reading element.isConnected. -/
def isConnected (d : Document) (n : Nat) : Bool := reachesRoot d (d.size + 1) n

/-- Reading element.classList as an array. -/
def classList (d : Document) (n : Nat) : List String := parseTokens (d.nodes n).className

/-- Writing element.className. -/
def setClassName (d : Document) (n : Nat) (c : String) : Document :=
  d.update n (fun e => { e with className := c })

/-- Call of element.classList.remove(cls). -/
def classListRemove (d : Document) (n : Nat) (cls : String) : Document :=
  setClassName d n (joinTokens ((classList d n).filter (fun t => t != cls)))

/-- Call of element.classList.add(cls). -/
def classListAdd (d : Document) (n : Nat) (cls : String) : Document :=
  setClassName d n
    (joinTokens (if (classList d n).contains cls then classList d n else classList d n ++ [cls]))

/-- Reading element.style.cssText. -/
def cssText (d : Document) (n : Nat) : List (String × String) := (d.nodes n).style

/-- Writing element.style.cssText. -/
def setCssText (d : Document) (n : Nat) (s : List (String × String)) : Document :=
  d.update n (fun e => { e with style := s })

/-- Reading element.style[prop]. -/
def styleOf (d : Document) (n : Nat) (p : String) : String := getProp (d.nodes n).style p

/-- Writing element.style[prop] = value. -/
def setStyle (d : Document) (n : Nat) (p v : String) : Document :=
  d.update n (fun e => { e with style := setProp e.style p v })

/-- Call of element.getAttribute(name); none is null. -/
def getAttribute (d : Document) (n : Nat) (name : String) : Option String :=
  ((d.nodes n).attrs.find? (fun kv => kv.1 == name)).map (fun kv => kv.2)

/-- First element below n carrying the class: element.querySelector of a class selector. -/
def querySelectorClass (d : Document) (n : Nat) (cls : String) : Option Nat :=
  (descendants d n).find? (fun m => (classList d m).contains cls)

/-- Does some element of the document carry the class: document.querySelector. -/
def documentHasClass (d : Document) (cls : String) : Bool :=
  (allElements d).any (fun m => (classList d m).contains cls)

/-! ## What the browser supplies -/

/-- The computed style properties the script reads. -/
structure ComputedStyle where
  display : String
  visibility : String
  opacity : String
  height : String
  width : String
  position : String
  left : String
  top : String
  clipPath : String
  transform : String
  overflow : String
  deriving DecidableEq, Repr

/-- The result of getBoundingClientRect. -/
structure Rect where
  left : ℚ
  top : ℚ
  width : ℚ
  height : ℚ

/-- The browser and the page around the script.  getComputedStyle is read against the
document as it is at the moment of the read, since the object it returns is live. -/
structure Browser where
  getComputedStyle : Document → Nat → ComputedStyle
  getBoundingClientRect : Document → Nat → Rect
  innerWidth : ℚ
  innerHeight : ℚ
  parseFloat : String → Option ℚ
  parseInt : String → Option ℚ
  dispatchEvent : String → Nat → Document → Document
  click : Nat → Document → Document
  selectorMatches : Document → Nat → String → Option Bool

/-- Comparison number === 0; false on NaN. -/
def isZero : Option ℚ → Bool
  | none => false
  | some q => q == 0

/-- Comparison number < bound; false on NaN. -/
def ltNum : Option ℚ → ℚ → Bool
  | none, _ => false
  | some q, b => decide (q < b)

/-- Comparison number > bound; false on NaN. -/
def gtNum : Option ℚ → ℚ → Bool
  | none, _ => false
  | some q, b => decide (b < q)

/-! ## Detection predicates -/

/-- Method isElementHidden (content.js 111-158). -/
def isElementHidden (b : Browser) (d : Document) (element : Nat) : Bool :=
  if !isConnected d element then false else
  let style := b.getComputedStyle d element
  let rect := b.getBoundingClientRect d element
  if style.display = "none" then true else
  if style.visibility = "hidden" then true else
  if isZero (b.parseFloat style.opacity) then true else
  if rect.width = 0 ∧ rect.height = 0 then true else
  if style.position = "absolute" ∧
      (ltNum (b.parseInt style.left) (-9000) || ltNum (b.parseInt style.top) (-9000)) then true else
  if rect.left < -b.innerWidth ∨ rect.top < -b.innerHeight then true else
  if style.clipPath ≠ "" ∧
      (includes style.clipPath "inset(100%)" || includes style.clipPath "polygon(0 0, 0 0, 0 0)")
    then true else
  if style.transform ≠ "" ∧
      (includes style.transform "scale(0)" || includes style.transform "scaleX(0)" ||
        includes style.transform "scaleY(0)") then true else
  if style.overflow = "hidden" ∧
      (isZero (b.parseFloat style.height) || isZero (b.parseFloat style.width)) then true else
  false

/-- Method isElementVisibleAfterReveal (content.js 423-436). -/
def isElementVisibleAfterReveal (b : Browser) (d : Document) (element : Nat) : Bool :=
  let style := b.getComputedStyle d element
  let rect := b.getBoundingClientRect d element
  decide (style.display ≠ "none") &&
  decide (style.visibility ≠ "hidden") &&
  gtNum (b.parseFloat style.opacity) 0 &&
  (decide (0 < rect.width) || decide (0 < rect.height))

/-- Is the lower-cased tag name one of the given type selectors. -/
def hasTag (d : Document) (n : Nat) (tags : List String) : Bool :=
  tags.contains (toLowerCase (d.nodes n).tagName)

/-- Attribute presence selector. -/
def hasAttr (d : Document) (n : Nat) (name : String) : Bool := (getAttribute d n name).isSome

/-- Call of element.querySelectorAll with a selector given as a test on nodes. -/
def querySelectorAll (d : Document) (n : Nat) (sel : Document → Nat → Bool) : List Nat :=
  (descendants d n).filter (sel d)

/-- Text of node n and below, down to the given depth. -/
def textOf (d : Document) : Nat → Nat → String
  | 0, _ => ""
  | fuel + 1, n =>
    String.join ((d.nodes n).children.map (fun c =>
      match c with
      | Child.text t => t
      | Child.elem m => textOf d fuel m))

/-- Reading element.textContent. -/
def textContent (d : Document) (n : Nat) : String := textOf d (d.size + 1) n

/-- Walk up from a node looking for another one. -/
def reaches (d : Document) (target : Nat) : Nat → Nat → Bool
  | 0, _ => false
  | fuel + 1, n =>
    n == target ||
    (match (d.nodes n).parent with
     | none => false
     | some p => reaches d target fuel p)

/-- Call of other.contains(element). -/
def contains (d : Document) (other element : Nat) : Bool := reaches d other (d.size + 1) element

/-- The selector of isElementMeaningful for interactive content. -/
def interactiveSelector (d : Document) (m : Nat) : Bool :=
  hasTag d m ["button", "input", "select", "textarea", "a"] || hasAttr d m "onclick" ||
  hasAttr d m "data-toggle" || getAttribute d m "role" == some "button"

/-- The tracking pattern of isElementMeaningful, matched case-insensitively. -/
def matchesTracking (s : String) : Bool :=
  ["track", "analytic", "pixel", "beacon", "gtm", "ga-"].any (fun k => includes (toLowerCase s) k)

/-- Method isElementMeaningful (content.js 160-192). -/
def isElementMeaningful (b : Browser) (d : Document) (element : Nat) : Bool :=
  if (d.nodes element).tagName = "" then false else
  if ["script", "style", "meta", "link", "title", "head", "noscript"].contains
      (toLowerCase (d.nodes element).tagName) then false else
  if matchesTracking (d.nodes element).className || matchesTracking (d.nodes element).id then false else
  let rect := b.getBoundingClientRect d element
  let hasInteractive := decide (0 < (querySelectorAll d element interactiveSelector).length)
  if rect.width < 5 ∧ rect.height < 5 ∧ hasInteractive = false then false else
  let hasText := decide (0 < (trim (textContent d element)).length)
  let hasImages :=
    decide (0 < (querySelectorAll d element (fun doc m => hasTag doc m ["img", "svg", "canvas"])).length)
  let hasStructure := decide (0 < (childElements (d.nodes element).children).length)
  let hasFormElements :=
    decide (0 < (querySelectorAll d element
      (fun doc m => hasTag doc m ["input", "select", "textarea", "button"])).length)
  hasText || hasInteractive || hasImages || hasStructure || hasFormElements

/-- Method findHiddenElements (content.js 86-109). -/
def findHiddenElements (b : Browser) (d : Document) : List Nat :=
  (allElements d).filter (fun element => isElementHidden b d element && isElementMeaningful b d element)

/-- Method filterMeaningfulElements (content.js 194-212). -/
def filterMeaningfulElements (b : Browser) (d : Document) (elements : List Nat) : List Nat :=
  elements.filter (fun element =>
    let rect := b.getBoundingClientRect d element
    if rect.width < 10 ∧ rect.height < 10 then false else
    if (trim (textContent d element)).length = 0 ∧
        (childElements (d.nodes element).children).length = 0 then false else
    if elements.any (fun other => other != element && contains d other element) then false else
    true)

/-- Method determineCategory (content.js 236-272). -/
def determineCategory (d : Document) (element : Nat) : String :=
  let text := toLowerCase (textContent d element)
  let classes := toLowerCase (d.nodes element).className
  let tagName := toLowerCase (d.nodes element).tagName
  if includes classes "nav" || includes classes "menu" ||
      includes text "navigation" || includes text "menu" then "navigation" else
  if tagName = "form" ||
      !(querySelectorAll d element (fun doc m => hasTag doc m ["input", "select", "textarea"])).isEmpty ||
      includes classes "form" || includes text "search" then "forms" else
  if includes classes "content" || includes classes "article" ||
      tagName = "article" || tagName = "section" then "content" else
  if !(querySelectorAll d element (fun doc m => hasTag doc m ["button"])).isEmpty ||
      includes classes "controls" || includes classes "settings" || includes text "settings"
    then "controls" else
  if includes classes "modal" || includes classes "popup" ||
      includes classes "overlay" || includes classes "dialog" then "modals" else
  "other"

/-- The length of a JavaScript string: UTF-16 code units, two for a character outside the
Basic Multilingual Plane. -/
def utf16Length (cs : List Char) : Nat :=
  (cs.map (fun c => if c.toNat < 65536 then 1 else 2)).sum

/-- Call of substring(0, n), counted in UTF-16 code units; when the cut falls inside a
character outside the Basic Multilingual Plane, the half of it that the script keeps is
not a character and is left out. -/
def substringUtf16 : Nat → List Char → List Char
  | 0, _ => []
  | _ + 1, [] => []
  | n + 1, c :: cs =>
    if c.toNat < 65536 then c :: substringUtf16 n cs
    else
      match n with
      | 0 => []
      | m + 1 => c :: substringUtf16 m cs

/-- Method generatePreview (content.js 274-296); lengths count UTF-16 code units. -/
def generatePreview (d : Document) (element : Nat) : String :=
  let trimmed := trim (textContent d element)
  let preview := if 100 < utf16Length trimmed.data
    then String.mk (substringUtf16 97 trimmed.data) ++ "..." else trimmed
  if preview ≠ "" then preview else
  let interactive := (querySelectorAll d element (fun doc m => hasTag doc m ["button", "input", "a"])).length
  let images := (querySelectorAll d element (fun doc m => hasTag doc m ["img", "svg"])).length
  if 0 < interactive ∧ 0 < images then
    toString interactive ++ " interactive elements, " ++ toString images ++ " images"
  else if 0 < interactive then toString interactive ++ " interactive elements"
  else if 0 < images then toString images ++ " images"
  else (d.nodes element).tagName ++ " element"

/-- Method generateSelector (content.js 298-302). -/
def generateSelector (d : Document) (element : Nat) : String :=
  if (d.nodes element).id ≠ "" then "#" ++ (d.nodes element).id
  else if (d.nodes element).className ≠ "" then
    "." ++ String.mk ((d.nodes element).className.data.takeWhile (fun c => c != ' '))
  else toLowerCase (d.nodes element).tagName

/-- Method analyzeHidingMethod (content.js 304-316). -/
def analyzeHidingMethod (b : Browser) (d : Document) (element : Nat) : String :=
  let style := b.getComputedStyle d element
  let methods : List String :=
    (if style.display = "none" then ["display:none"] else []) ++
    (if style.visibility = "hidden" then ["visibility:hidden"] else []) ++
    (if style.opacity = "0" then ["opacity:0"] else []) ++
    (if style.position = "absolute" ∧ ltNum (b.parseInt style.left) (-9000) = true
      then ["position:absolute"] else []) ++
    (if style.height = "0px" then ["height:0"] else []) ++
    (if style.clipPath ≠ "" then ["clip-path"] else [])
  if String.intercalate ", " methods ≠ "" then String.intercalate ", " methods else "unknown"

/-! ## Reveal strategies -/

/-- One guarded override of revealWithCSS: when the test holds of the document as it is
now, apply the write and record the change. -/
def cssStep (test : Document → Bool) (write : Document → Document)
    (s : Bool × Document) : Bool × Document :=
  if test s.2 then (true, write s.2) else s

/-- The display value chosen for a tag by revealWithCSS. -/
def displayFor (tagName : String) : String :=
  if ["div", "p", "section", "article", "header", "footer", "nav", "aside"].contains tagName
  then "block"
  else if ["span", "a", "strong", "em", "code"].contains tagName then "inline"
  else "block"

/-- Method revealWithCSS (content.js 438-511). -/
def revealWithCSS (b : Browser) (element : Nat) (d : Document) : Bool × Document :=
  let style := fun (doc : Document) => b.getComputedStyle doc element
  (false, d)
  |> cssStep (fun doc => (style doc).display = "none")
      (fun doc => setStyle doc element "display" (displayFor (toLowerCase (doc.nodes element).tagName)))
  |> cssStep (fun doc => (style doc).visibility = "hidden")
      (fun doc => setStyle doc element "visibility" "visible")
  |> cssStep (fun doc => isZero (b.parseFloat (style doc).opacity))
      (fun doc => setStyle doc element "opacity" "1")
  |> cssStep (fun doc => isZero (b.parseFloat (style doc).height) && (style doc).overflow = "hidden")
      (fun doc => setStyle doc element "height" "auto")
  |> cssStep (fun doc => isZero (b.parseFloat (style doc).width) && (style doc).overflow = "hidden")
      (fun doc => setStyle doc element "width" "auto")
  |> cssStep (fun doc => (style doc).position = "absolute" &&
        (ltNum (b.parseInt (style doc).left) (-9000) || ltNum (b.parseInt (style doc).top) (-9000)))
      (fun doc => setStyle (setStyle (setStyle doc element "position" "static")
        element "left" "auto") element "top" "auto")
  |> cssStep (fun doc => (style doc).clipPath ≠ "" && (style doc).clipPath ≠ "none")
      (fun doc => setStyle doc element "clipPath" "none")
  |> cssStep (fun doc => (style doc).transform ≠ "" && (style doc).transform ≠ "none" &&
        (includes (style doc).transform "scale(0)" || includes (style doc).transform "scaleX(0)" ||
          includes (style doc).transform "scaleY(0)"))
      (fun doc => setStyle doc element "transform" "none")

/-- The known hiding classes of revealWithClasses. -/
def hidingClasses : List String :=
  ["hidden", "hide", "invisible", "collapsed", "d-none", "sr-only",
   "visually-hidden", "screen-reader-only", "opacity-0", "scale-0"]

/-- The known showing classes of revealWithClasses. -/
def showingClasses : List String := ["show", "visible", "expanded", "d-block", "d-inline-block"]

/-- Body of the first forEach of revealWithClasses. -/
def removeHiding (element : Nat) (s : Bool × Document) (cls : String) : Bool × Document :=
  if (classList s.2 element).contains cls then (true, classListRemove s.2 element cls) else s

/-- Body of the second forEach of revealWithClasses. -/
def addShowing (element : Nat) (s : Bool × Document) (cls : String) : Bool × Document :=
  if documentHasClass s.2 cls && !(classList s.2 element).contains cls
  then (true, classListAdd s.2 element cls) else s

/-- Method revealWithClasses (content.js 513-546). -/
def revealWithClasses (element : Nat) (d : Document) : Bool × Document :=
  showingClasses.foldl (addShowing element) (hidingClasses.foldl (removeHiding element) (false, d))

/-- A string operand of ||: null and the empty string are falsy. -/
def truthy : Option String → Option String
  | none => none
  | some t => if t = "" then none else some t

/-- First truthy value of the three trigger attributes, as the chain of || computes it. -/
def triggerTarget (d : Document) (trigger : Nat) : Option String :=
  (truthy (getAttribute d trigger "data-target")).orElse (fun _ =>
    (truthy (getAttribute d trigger "data-toggle")).orElse (fun _ =>
      truthy (getAttribute d trigger "aria-controls")))

/-- Call of element.closest(selector): does the element or an ancestor match. -/
def closest (b : Browser) (d : Document) (sel : String) : Nat → Nat → Bool
  | 0, _ => false
  | fuel + 1, n =>
    b.selectorMatches d n sel == some true ||
    (match (d.nodes n).parent with
     | none => false
     | some p => closest b d sel fuel p)

/-- The forEach over the triggers in revealWithEvents; a selector the browser rejects
throws and ends the loop (the surrounding try swallows it). -/
def clickTriggers (b : Browser) (element : Nat) : List Nat → Bool × Document → Bool × Document
  | [], s => s
  | trigger :: rest, s =>
    match triggerTarget s.2 trigger with
    | none => clickTriggers b element rest s
    | some target =>
      match b.selectorMatches s.2 element target with
      | none => s
      | some m =>
        if m || closest b s.2 target (s.2.size + 1) element ||
            decide ((s.2.nodes element).id = String.mk (replaceFirstHash target.data))
        then clickTriggers b element rest (true, b.click trigger s.2)
        else clickTriggers b element rest s

/-- Method revealWithEvents (content.js 548-586). -/
def revealWithEvents (b : Browser) (element : Nat) (d : Document) : Bool × Document :=
  let d3 := ["mouseenter", "mouseover", "focus"].foldl (fun doc ev => b.dispatchEvent ev element doc) d
  let triggers := (allElements d3).filter (fun t =>
    (getAttribute d3 t "data-toggle").isSome || (getAttribute d3 t "data-target").isSome ||
      (getAttribute d3 t "aria-controls").isSome)
  clickTriggers b element triggers (true, d3)

/-- The while loop of revealParentChain; the first argument counts the levels left. -/
def parentChainLoop (b : Browser) : Nat → Option Nat → Bool × Document → Bool × Document
  | 0, _, s => s
  | _ + 1, none, s => s
  | left + 1, some parent, s =>
    if parent = s.2.body then s else
    if isElementHidden b s.2 parent then
      let c := revealWithCSS b parent s.2
      if c.1 then parentChainLoop b left (c.2.nodes parent).parent (true, c.2)
      else
        let k := revealWithClasses parent c.2
        parentChainLoop b left (k.2.nodes parent).parent (s.1 || k.1, k.2)
    else parentChainLoop b left (s.2.nodes parent).parent s

/-- Method revealParentChain (content.js 588-611). -/
def revealParentChain (b : Browser) (element : Nat) (d : Document) : Bool × Document :=
  parentChainLoop b 10 (d.nodes element).parent (false, d)

/-- The two rollback statements of applyRevealStrategies. -/
def rollback (d : Document) (element : Nat) (originalStyle : List (String × String))
    (originalClasses : List String) : Document :=
  setClassName (setCssText d element originalStyle) element (joinTokens originalClasses)

/-- One attempt of applyRevealStrategies: keep the outcome of a strategy when it reported a
change and the element then passes the check, otherwise go on from the document it left. -/
def attempt (b : Browser) (element : Nat) (s : Bool × Document)
    (next : Document → Bool × Document) : Bool × Document :=
  if s.1 && isElementVisibleAfterReveal b s.2 element then (true, s.2) else next s.2

/-- Method applyRevealStrategies (content.js 365-421). -/
def applyRevealStrategies (b : Browser) (element : Nat) (d : Document) : Bool × Document :=
  let originalStyle := cssText d element
  let originalClasses := classList d element
  let s1 := revealWithCSS b element d
  if s1.1 && isElementVisibleAfterReveal b s1.2 element then (true, s1.2) else
  let s2 := revealWithClasses element (rollback s1.2 element originalStyle originalClasses)
  if s2.1 && isElementVisibleAfterReveal b s2.2 element then (true, s2.2) else
  let s3 := revealParentChain b element (rollback s2.2 element originalStyle originalClasses)
  if s3.1 && isElementVisibleAfterReveal b s3.2 element then (true, s3.2) else
  let s4 := revealWithEvents b element (rollback s3.2 element originalStyle originalClasses)
  if s4.1 && isElementVisibleAfterReveal b s4.2 element then (true, s4.2) else
  (false, rollback s4.2 element originalStyle originalClasses)

/-! ## Engine state -/

/-- The size record of a discovered element. -/
structure Size where
  width : ℚ
  height : ℚ

/-- The interactivity record of a discovered element. -/
structure Interactivity where
  buttons : Nat
  inputs : Nat
  links : Nat
  clickable : Nat
  deriving DecidableEq, Repr

/-- The elementData record built by categorizeElements. -/
structure ElementData where
  id : String
  element : Nat
  category : String
  preview : String
  selector : String
  hidingMethod : String
  size : Size
  interactivity : Interactivity

/-- The record stored by saveOriginalState. -/
structure OriginalState where
  styles : List (String × String)
  className : String
  computedDisplay : String
  computedVisibility : String
  computedOpacity : String
  deriving DecidableEq, Repr

/-- The fields of a ZenElementRevealer instance; the two maps keep insertion order. -/
structure ZenElementRevealer where
  discoveredElements : List ElementData
  revealedElements : List (String × ElementData)
  originalStates : List (String × OriginalState)
  elementIdCounter : Nat

/-- The engine together with the page it lives in. -/
structure World where
  zen : ZenElementRevealer
  document : Document

/-- The state built by the constructor. -/
def ZenElementRevealer.new : ZenElementRevealer :=
  { discoveredElements := [], revealedElements := [], originalStates := [], elementIdCounter := 0 }

/-- Call of Map.prototype.get. -/
def mapGet {α : Type} : List (String × α) → String → Option α
  | [], _ => none
  | (j, v) :: rest, k => if j = k then some v else mapGet rest k

/-- Call of Map.prototype.has. -/
def mapHas {α : Type} (m : List (String × α)) (k : String) : Bool := m.any (fun kv => kv.1 == k)

/-- Call of Map.prototype.set: an existing key keeps its place. -/
def mapSet {α : Type} (m : List (String × α)) (k : String) (v : α) : List (String × α) :=
  if mapHas m k then m.map (fun kv => if kv.1 = k then (kv.1, v) else kv) else m ++ [(k, v)]

/-- Call of Map.prototype.delete. -/
def mapDelete {α : Type} (m : List (String × α)) (k : String) : List (String × α) :=
  m.filter (fun kv => kv.1 != k)

/-- Call of Map.prototype.keys, as an array. -/
def mapKeys {α : Type} (m : List (String × α)) : List String := m.map (fun kv => kv.1)

/-- The lookup discoveredElements.find(el => el.id === elementId). -/
def findElement (z : ZenElementRevealer) (elementId : String) : Option ElementData :=
  z.discoveredElements.find? (fun el => el.id == elementId)

/-- The originalState object literal of saveOriginalState. -/
def originalStateOf (b : Browser) (d : Document) (element : Nat) : OriginalState :=
  { styles :=
      [("display", styleOf d element "display"),
       ("visibility", styleOf d element "visibility"),
       ("opacity", styleOf d element "opacity"),
       ("height", styleOf d element "height"),
       ("width", styleOf d element "width"),
       ("position", styleOf d element "position"),
       ("left", styleOf d element "left"),
       ("top", styleOf d element "top"),
       ("clipPath", styleOf d element "clipPath"),
       ("transform", styleOf d element "transform"),
       ("overflow", styleOf d element "overflow")],
    className := (d.nodes element).className,
    computedDisplay := (b.getComputedStyle d element).display,
    computedVisibility := (b.getComputedStyle d element).visibility,
    computedOpacity := (b.getComputedStyle d element).opacity }

/-- Method saveOriginalState (content.js 683-718). -/
def saveOriginalState (b : Browser) (elementId : String) (element : Nat) (w : World) : World :=
  { w with zen := { w.zen with
      originalStates := mapSet w.zen.originalStates elementId (originalStateOf b w.document element) } }

/-- The badge element created by addRevealIndicator. -/
def indicatorElement (elementId : String) (parent : Nat) : Element :=
  { tagName := "DIV", id := "", className := "zen-reveal-indicator", style := [],
    attrs := [("data-zen-id", elementId)], children := [Child.text "✨ Revealed by Zen"],
    parent := some parent }

/-- Method addRevealIndicator (content.js 720-730). -/
def addRevealIndicator (element : Nat) (elementId : String) (d : Document) : Document :=
  if (querySelectorClass d element "zen-reveal-indicator").isSome then d else
  let indicator := d.size
  let d1 : Document :=
    { d with nodes := fun m => if m = indicator then indicatorElement elementId element else d.nodes m,
             size := d.size + 1 }
  let d2 := d1.update element (fun e => { e with children := e.children ++ [Child.elem indicator] })
  classListAdd d2 element "zen-revealed"

/-- Call of indicator.remove(): unlink the node from its parent. -/
def removeNode (d : Document) (n : Nat) : Document :=
  match (d.nodes n).parent with
  | none => d
  | some p =>
    (d.update p (fun e => { e with children := e.children.filter (fun c => c != Child.elem n) })).update n
      (fun e => { e with parent := none })

/-- Method removeRevealIndicator (content.js 732-738). -/
def removeRevealIndicator (element : Nat) (d : Document) : Document :=
  let d1 := match querySelectorClass d element "zen-reveal-indicator" with
    | some indicator => removeNode d indicator
    | none => d
  classListRemove d1 element "zen-revealed"

/-- The object returned by revealElement. -/
structure RevealResult where
  success : Bool
  error : Option String
  element : Option ElementData

/-- The object returned by restoreElement. -/
structure RestoreResult where
  success : Bool
  error : Option String
  deriving DecidableEq, Repr

/-- Method revealElement (content.js 340-363). -/
def revealElement (b : Browser) (elementId : String) (w : World) : RevealResult × World :=
  match findElement w.zen elementId with
  | none => ({ success := false, error := some "Element not found", element := none }, w)
  | some elementData =>
    let element := elementData.element
    let w1 := saveOriginalState b elementId element w
    let r := applyRevealStrategies b element w1.document
    if r.1 then
      let zen := { w1.zen with revealedElements := mapSet w1.zen.revealedElements elementId elementData }
      let d := setStyle (addRevealIndicator element elementId r.2) element "transition" "all 0.3s ease-in-out"
      ({ success := true, error := none, element := some elementData }, { zen := zen, document := d })
    else
      ({ success := false, error := none, element := some elementData }, { w1 with document := r.2 })

/-- Method restoreElement (content.js 652-681). -/
def restoreElement (elementId : String) (w : World) : RestoreResult × World :=
  match mapGet w.zen.originalStates elementId with
  | none => ({ success := false, error := some "No original state saved" }, w)
  | some originalState =>
    match findElement w.zen elementId with
    | none => ({ success := false, error := some "Element not found" }, w)
    | some elementData =>
      let element := elementData.element
      let d1 := originalState.styles.foldl (fun d pv => setStyle d element pv.1 pv.2) w.document
      let d2 := setClassName d1 element originalState.className
      let d3 := removeRevealIndicator element d2
      ({ success := true, error := none },
       { zen := { w.zen with originalStates := mapDelete w.zen.originalStates elementId,
                             revealedElements := mapDelete w.zen.revealedElements elementId },
         document := d3 })

/-- The summary returned by revealAll. -/
structure RevealSummary where
  total : Nat
  successful : Nat
  failed : Nat
  deriving DecidableEq, Repr

/-- The summary returned by restoreAll. -/
structure RestoreSummary where
  total : Nat
  restored : Nat
  failed : Nat
  deriving DecidableEq, Repr

/-- The for loop of revealAll: the results so far and the world. -/
def revealLoop (b : Browser) : List ElementData → List RevealResult × World → List RevealResult × World
  | [], s => s
  | elementData :: rest, s =>
    let r := revealElement b elementData.id s.2
    revealLoop b rest (s.1 ++ [r.1], r.2)

/-- Method revealAll (content.js 613-626). -/
def revealAll (b : Browser) (w : World) : RevealSummary × World :=
  let r := revealLoop b w.zen.discoveredElements ([], w)
  ({ total := r.1.length,
     successful := (r.1.filter (fun x => x.success)).length,
     failed := (r.1.filter (fun x => !x.success)).length }, r.2)

/-- The for loop of restoreAll. -/
def restoreLoop : List String → List RestoreResult × World → List RestoreResult × World
  | [], s => s
  | elementId :: rest, s =>
    let r := restoreElement elementId s.2
    restoreLoop rest (s.1 ++ [r.1], r.2)

/-- Method restoreAll (content.js 628-650). -/
def restoreAll (w : World) : RestoreSummary × World :=
  let elementsToRestore := mapKeys w.zen.revealedElements
  let r := restoreLoop elementsToRestore ([], w)
  ({ total := r.1.length,
     restored := (r.1.filter (fun x => x.success)).length,
     failed := (r.1.filter (fun x => !x.success)).length },
   { r.2 with zen := { r.2.zen with revealedElements := [] } })

/-! ## Discovery -/

/-- Method getElementSize (content.js 318-321). -/
def getElementSize (b : Browser) (d : Document) (element : Nat) : Size :=
  { width := (b.getBoundingClientRect d element).width,
    height := (b.getBoundingClientRect d element).height }

/-- Method assessInteractivity (content.js 323-330). -/
def assessInteractivity (d : Document) (element : Nat) : Interactivity :=
  { buttons := (querySelectorAll d element (fun doc m => hasTag doc m ["button"])).length,
    inputs := (querySelectorAll d element (fun doc m => hasTag doc m ["input", "select", "textarea"])).length,
    links := (querySelectorAll d element (fun doc m => hasTag doc m ["a"])).length,
    clickable := (querySelectorAll d element
      (fun doc m => hasAttr doc m "onclick" || hasAttr doc m "data-toggle")).length }

/-- Method categorizeElements (content.js 214-234): the map over the elements, taking
ids from the counter and pushing every record on discoveredElements. -/
def categorizeElements (b : Browser) (d : Document) :
    List Nat → ZenElementRevealer → List ElementData × ZenElementRevealer
  | [], z => ([], z)
  | element :: rest, z =>
    let elementData : ElementData :=
      { id := "zen-element-" ++ toString z.elementIdCounter,
        element := element,
        category := determineCategory d element,
        preview := generatePreview d element,
        selector := generateSelector d element,
        hidingMethod := analyzeHidingMethod b d element,
        size := getElementSize b d element,
        interactivity := assessInteractivity d element }
    let r := categorizeElements b d rest
      { z with elementIdCounter := z.elementIdCounter + 1,
               discoveredElements := z.discoveredElements ++ [elementData] }
    (elementData :: r.1, r.2)

/-- Method getCategorySummary (content.js 332-338): an object keyed by category. -/
def getCategorySummary (elements : List ElementData) : List (String × Nat) :=
  elements.foldl (fun summary el => mapSet summary el.category ((mapGet summary el.category).getD 0 + 1)) []

/-- The object returned by discoverHiddenElements. -/
structure Discovery where
  elements : List ElementData
  total : Nat
  categories : List (String × Nat)

/-- Method discoverHiddenElements (content.js 71-84). -/
def discoverHiddenElements (b : Browser) (w : World) : Discovery × World :=
  let z0 := { w.zen with discoveredElements := [], elementIdCounter := 0 }
  let hiddenElements := findHiddenElements b w.document
  let meaningfulElements := filterMeaningfulElements b w.document hiddenElements
  let r := categorizeElements b w.document meaningfulElements z0
  ({ elements := r.1, total := r.1.length, categories := getCategorySummary r.1 },
   { w with zen := r.2 })

/-! ## Call sequences -/

/-- A request the host can send to the engine, or a change the page makes to its own
document between two requests. -/
inductive Op where
  | discover
  | reveal (elementId : String)
  | restore (elementId : String)
  | revealAll
  | restoreAll
  | page (change : Document → Document)

/-- The world after serving one request. -/
def step (b : Browser) (w : World) : Op → World
  | Op.discover => (discoverHiddenElements b w).2
  | Op.reveal elementId => (revealElement b elementId w).2
  | Op.restore elementId => (restoreElement elementId w).2
  | Op.revealAll => (revealAll b w).2
  | Op.restoreAll => (restoreAll w).2
  | Op.page change => { w with document := change w.document }

/-- The world after serving a sequence of requests, one after the other. -/
def run (b : Browser) (ops : List Op) (w : World) : World := ops.foldl (step b) w

/-- A call that matters for the revealed set, with what it returned. -/
inductive Call where
  | revealElement (elementId : String) (success : Bool)
  | restoreElement (elementId : String) (success : Bool)
  | restoreAll
  deriving DecidableEq, Repr

/-- The revealElement calls made by the loop of revealAll, with their outcomes. -/
def revealAllCalls (b : Browser) : List ElementData → World → List Call
  | [], _ => []
  | elementData :: rest, w =>
    Call.revealElement elementData.id (revealElement b elementData.id w).1.success ::
      revealAllCalls b rest (revealElement b elementData.id w).2

/-- The calls made while serving one request. -/
def callsOf (b : Browser) (w : World) : Op → List Call
  | Op.discover => []
  | Op.reveal elementId => [Call.revealElement elementId (revealElement b elementId w).1.success]
  | Op.restore elementId => [Call.restoreElement elementId (restoreElement elementId w).1.success]
  | Op.revealAll => revealAllCalls b w.zen.discoveredElements w
  | Op.restoreAll => [Call.restoreAll]
  | Op.page _ => []

/-- The calls made while serving a sequence of requests, oldest first. -/
def history (b : Browser) : List Op → World → List Call
  | [], _ => []
  | op :: ops, w => callsOf b w op ++ history b ops (step b w op)

/-- Membership in the revealed set, computed along a call history: a successful
revealElement on the id makes it a member, a successful restoreElement on the id or any
restoreAll ends the membership, every other call leaves it as it is.  The second
argument is the membership before the history. -/
def specMember (elementId : String) : Bool → List Call → Bool
  | m, [] => m
  | m, Call.revealElement j ok :: rest =>
    specMember elementId (if j = elementId ∧ ok = true then true else m) rest
  | m, Call.restoreElement j ok :: rest =>
    specMember elementId (if j = elementId ∧ ok = true then false else m) rest
  | _, Call.restoreAll :: rest => specMember elementId false rest

/-! ## A sample browser and sample pages

A small rendering model used to evaluate the engine on concrete pages: the computed value
of a property is its inline value when there is one and the initial value otherwise; a
style sheet gives class hidden display none and class faded opacity 0, gives class locked
visibility hidden with an important rule that inline styles cannot override, and shifts
class offscreen far to the left; a box is 100 by 20 unless the element or an ancestor has
display none; the window is 1024 by 768; no listener is registered and no selector
matches; an element that is not connected has empty computed values and an empty box. -/

/-- The inline value of a property, or the given initial value. -/
def inlineOr (e : Element) (p initial : String) : String :=
  if getProp e.style p = "" then initial else getProp e.style p

/-- Computed display in the sample browser. -/
def sampleDisplay (e : Element) : String :=
  if getProp e.style "display" ≠ "" then getProp e.style "display"
  else if (parseTokens e.className).contains "hidden" then "none"
  else "block"

/-- Computed visibility in the sample browser. -/
def sampleVisibility (e : Element) : String :=
  if (parseTokens e.className).contains "locked" then "hidden"
  else inlineOr e "visibility" "visible"

/-- Computed opacity in the sample browser. -/
def sampleOpacity (e : Element) : String :=
  if getProp e.style "opacity" ≠ "" then getProp e.style "opacity"
  else if (parseTokens e.className).contains "faded" then "0"
  else "1"

/-- Is the element or one of its ancestors not displayed. -/
def sampleNotRendered (d : Document) : Nat → Nat → Bool
  | 0, _ => false
  | fuel + 1, n =>
    sampleDisplay (d.nodes n) == "none" ||
    (match (d.nodes n).parent with
     | none => false
     | some p => sampleNotRendered d fuel p)

/-- Digits read from the front of a list: their value and how many there are. -/
def readDigits : List Char → Nat → Nat → Nat × Nat × List Char
  | [], v, k => (v, k, [])
  | c :: cs, v, k =>
    if c.isDigit then readDigits cs (10 * v + (c.toNat - 48)) (k + 1) else (v, k, c :: cs)

/-- Decimal literal at the front of a string, without exponent: parseFloat on the values
the sample browser computes. -/
def sampleParseFloat (s : String) : Option ℚ :=
  let cs := s.data.dropWhile isTrimSpace
  let neg := cs.head? == some '-'
  let body := if cs.head? == some '-' || cs.head? == some '+' then cs.tail else cs
  let whole := readDigits body 0 0
  let frac := match whole.2.2 with
    | '.' :: rest => readDigits rest 0 0
    | _ => (0, 0, [])
  if whole.2.1 = 0 ∧ frac.2.1 = 0 then none
  else
    let q := mkRat (Int.ofNat (whole.1 * 10 ^ frac.2.1 + frac.1)) (10 ^ frac.2.1)
    some (if neg then -q else q)

/-- Integer literal at the front of a string: parseInt in base ten. -/
def sampleParseInt (s : String) : Option ℚ :=
  let cs := s.data.dropWhile isTrimSpace
  let neg := cs.head? == some '-'
  let body := if cs.head? == some '-' || cs.head? == some '+' then cs.tail else cs
  let whole := readDigits body 0 0
  if whole.2.1 = 0 then none
  else some (if neg then -(mkRat (Int.ofNat whole.1) 1) else mkRat (Int.ofNat whole.1) 1)

/-- The sample browser. -/
def sampleBrowser : Browser :=
  { getComputedStyle := fun d n =>
      let e := d.nodes n
      if !isConnected d n then
        { display := "", visibility := "", opacity := "", height := "", width := "",
          position := "", left := "", top := "", clipPath := "", transform := "", overflow := "" }
      else
      { display := sampleDisplay e,
        visibility := sampleVisibility e,
        opacity := sampleOpacity e,
        height := if sampleNotRendered d (d.size + 1) n then inlineOr e "height" "auto" else "20px",
        width := if sampleNotRendered d (d.size + 1) n then inlineOr e "width" "auto" else "100px",
        position := inlineOr e "position" "static",
        left := inlineOr e "left" "auto",
        top := inlineOr e "top" "auto",
        clipPath := inlineOr e "clipPath" "none",
        transform := inlineOr e "transform" "none",
        overflow := inlineOr e "overflow" "visible" },
    getBoundingClientRect := fun d n =>
      if !isConnected d n || sampleNotRendered d (d.size + 1) n then
        { left := 0, top := 0, width := 0, height := 0 }
      else { left := if (classList d n).contains "offscreen" then -5000 else 0,
             top := 0, width := 100, height := 20 },
    innerWidth := 1024,
    innerHeight := 768,
    parseFloat := sampleParseFloat,
    parseInt := sampleParseInt,
    dispatchEvent := fun _ _ d => d,
    click := fun _ d => d,
    selectorMatches := fun _ _ _ => some false }

/-- An element without attributes, style or children. -/
def blankElement : Element :=
  { tagName := "DIV", id := "", className := "", style := [], attrs := [], children := [],
    parent := none }

/-- A document from a list of nodes; node 0 is the html element and node 1 the body. -/
def mkDocument (nodes : List Element) : Document :=
  { nodes := fun n => nodes.getD n blankElement, size := nodes.length, root := 0, body := 1,
    environment := 0 }

/-- The html element of the sample pages. -/
def htmlElement : Element := { blankElement with tagName := "HTML", children := [Child.elem 1] }

/-- A body element with the given element children. -/
def bodyElement (kids : List Nat) : Element :=
  { blankElement with tagName := "BODY", parent := some 0, children := kids.map Child.elem }

/-- A div with a class string, inline style, text and parent. -/
def divElement (className : String) (style : List (String × String)) (text : String)
    (parent : Nat) : Element :=
  { blankElement with className := className, style := style, children := [Child.text text],
                      parent := some parent }

/-- A fresh engine on a page. -/
def freshWorld (d : Document) : World := { zen := ZenElementRevealer.new, document := d }

/-- Sample page: one banner made transparent by a class. -/
def pageBanner : Document :=
  mkDocument [htmlElement, bodyElement [2], divElement "faded" [] "Special offer" 1]

/-- Sample page: the banner with two blanks between its classes. -/
def pageSpaced : Document :=
  mkDocument [htmlElement, bodyElement [2], divElement "faded  promo" [] "Special offer" 1]

/-- Sample page: a banner whose hiding rule cannot be overridden. -/
def pageLocked : Document :=
  mkDocument [htmlElement, bodyElement [2], divElement "locked" [] "Members only" 1]

/-- Sample page: two transparent banners. -/
def pageTwo : Document :=
  mkDocument [htmlElement, bodyElement [2, 3], divElement "faded promo" [] "Special offer" 1,
    divElement "faded menu" [] "Main menu" 1]

/-- Sample page: three transparent banners. -/
def pageThree : Document :=
  mkDocument [htmlElement, bodyElement [2, 3, 4], divElement "faded" [] "One" 1,
    divElement "faded" [] "Two" 1, divElement "faded" [] "Three" 1]

/-- Sample page: a locked banner inside a transparent wrapper that the scan skips as a
tracking element. -/
def pageNested : Document :=
  mkDocument [htmlElement, bodyElement [2],
    { blankElement with className := "faded beacon-box", children := [Child.elem 3], parent := some 1 },
    divElement "locked" [] "Details" 2]

/-- Sample page: a transparent banner shifted out of the window. -/
def pageOffscreen : Document :=
  mkDocument [htmlElement, bodyElement [2], divElement "faded offscreen" [] "Skip to content" 1]

/-- The banner page after a scan. -/
def worldBanner : World := run sampleBrowser [Op.discover] (freshWorld pageBanner)

/-- The banner page after a scan and one reveal of the banner. -/
def worldBannerRevealed : World :=
  run sampleBrowser [Op.discover, Op.reveal "zen-element-0"] (freshWorld pageBanner)

/-- The page with the doubly spaced class attribute after a scan. -/
def worldSpaced : World := run sampleBrowser [Op.discover] (freshWorld pageSpaced)

/-- The page with the locked banner after a scan. -/
def worldLocked : World := run sampleBrowser [Op.discover] (freshWorld pageLocked)

/-- The page with three banners, scanned, all three revealed, after which the page has
removed the second banner from the document. -/
def worldThreeRemoved : World :=
  run sampleBrowser [Op.discover, Op.revealAll, Op.page (fun d => removeNode d 3)]
    (freshWorld pageThree)

/-- The page with two banners: scanned, first banner revealed, scanned again. -/
def worldRescanned : World :=
  run sampleBrowser [Op.discover, Op.reveal "zen-element-0", Op.discover] (freshWorld pageTwo)

/-- The nested page after a scan. -/
def worldNested : World := run sampleBrowser [Op.discover] (freshWorld pageNested)

/-- The page with the shifted banner after a scan. -/
def worldOffscreen : World := run sampleBrowser [Op.discover] (freshWorld pageOffscreen)

/-! ## The detector and the categories as the specification lists them -/

/-- Heuristic: computed display none. -/
def displayNone (b : Browser) (d : Document) (element : Nat) : Bool :=
  decide ((b.getComputedStyle d element).display = "none")

/-- Heuristic: computed visibility hidden. -/
def visibilityHidden (b : Browser) (d : Document) (element : Nat) : Bool :=
  decide ((b.getComputedStyle d element).visibility = "hidden")

/-- Heuristic: opacity equal to 0. -/
def opacityZero (b : Browser) (d : Document) (element : Nat) : Bool :=
  isZero (b.parseFloat (b.getComputedStyle d element).opacity)

/-- Heuristic: zero-size bounding box, width 0 and height 0. -/
def zeroSizeBox (b : Browser) (d : Document) (element : Nat) : Bool :=
  decide ((b.getBoundingClientRect d element).width = 0 ∧
    (b.getBoundingClientRect d element).height = 0)

/-- Heuristic: position absolute with left or top below -9000px. -/
def offscreenDump (b : Browser) (d : Document) (element : Nat) : Bool :=
  decide ((b.getComputedStyle d element).position = "absolute") &&
  (ltNum (b.parseInt (b.getComputedStyle d element).left) (-9000) ||
    ltNum (b.parseInt (b.getComputedStyle d element).top) (-9000))

/-- Heuristic as worded: the bounding box lies entirely outside the viewport in the
negative direction, that is, its right edge is left of the viewport or its bottom edge is
above it. -/
def boxOutsideViewport (b : Browser) (d : Document) (element : Nat) : Bool :=
  decide ((b.getBoundingClientRect d element).left + (b.getBoundingClientRect d element).width < 0 ∨
    (b.getBoundingClientRect d element).top + (b.getBoundingClientRect d element).height < 0)

/-- Heuristic as the script tests it: the left edge of the box is more than one window
width left of the window, or its top edge more than one window height above it. -/
def boxFarBeforeWindow (b : Browser) (d : Document) (element : Nat) : Bool :=
  decide ((b.getBoundingClientRect d element).left < -b.innerWidth ∨
    (b.getBoundingClientRect d element).top < -b.innerHeight)

/-- Heuristic: clip-path inset(100%) or the zero-area polygon. -/
def clipPathCollapsed (b : Browser) (d : Document) (element : Nat) : Bool :=
  decide ((b.getComputedStyle d element).clipPath ≠ "") &&
  (includes (b.getComputedStyle d element).clipPath "inset(100%)" ||
    includes (b.getComputedStyle d element).clipPath "polygon(0 0, 0 0, 0 0)")

/-- Heuristic: a transform with zero scale on an axis. -/
def zeroScale (b : Browser) (d : Document) (element : Nat) : Bool :=
  decide ((b.getComputedStyle d element).transform ≠ "") &&
  (includes (b.getComputedStyle d element).transform "scale(0)" ||
    includes (b.getComputedStyle d element).transform "scaleX(0)" ||
    includes (b.getComputedStyle d element).transform "scaleY(0)")

/-- Heuristic: overflow hidden with zero computed height or width. -/
def overflowCollapsed (b : Browser) (d : Document) (element : Nat) : Bool :=
  decide ((b.getComputedStyle d element).overflow = "hidden") &&
  (isZero (b.parseFloat (b.getComputedStyle d element).height) ||
    isZero (b.parseFloat (b.getComputedStyle d element).width))

/-- The hidden predicate as the specification words it: connected, and at least one of
the nine listed heuristics matches. -/
def hiddenAsWorded (b : Browser) (d : Document) (element : Nat) : Bool :=
  isConnected d element &&
  (displayNone b d element || visibilityHidden b d element || opacityZero b d element ||
    zeroSizeBox b d element || offscreenDump b d element || boxOutsideViewport b d element ||
    clipPathCollapsed b d element || zeroScale b d element || overflowCollapsed b d element)

/-- The hidden predicate as a disjunction with the box test the script makes. -/
def hiddenByHeuristics (b : Browser) (d : Document) (element : Nat) : Bool :=
  isConnected d element &&
  (displayNone b d element || visibilityHidden b d element || opacityZero b d element ||
    zeroSizeBox b d element || offscreenDump b d element || boxFarBeforeWindow b d element ||
    clipPathCollapsed b d element || zeroScale b d element || overflowCollapsed b d element)

/-- The navigation pattern of determineCategory. -/
def navigationPattern (d : Document) (element : Nat) : Bool :=
  includes (toLowerCase (d.nodes element).className) "nav" ||
  includes (toLowerCase (d.nodes element).className) "menu" ||
  includes (toLowerCase (textContent d element)) "navigation" ||
  includes (toLowerCase (textContent d element)) "menu"

/-- The forms pattern of determineCategory. -/
def formsPattern (d : Document) (element : Nat) : Bool :=
  decide (toLowerCase (d.nodes element).tagName = "form") ||
  !(querySelectorAll d element (fun doc m => hasTag doc m ["input", "select", "textarea"])).isEmpty ||
  includes (toLowerCase (d.nodes element).className) "form" ||
  includes (toLowerCase (textContent d element)) "search"

/-- The content pattern of determineCategory. -/
def contentPattern (d : Document) (element : Nat) : Bool :=
  includes (toLowerCase (d.nodes element).className) "content" ||
  includes (toLowerCase (d.nodes element).className) "article" ||
  decide (toLowerCase (d.nodes element).tagName = "article") ||
  decide (toLowerCase (d.nodes element).tagName = "section")

/-- The controls pattern of determineCategory. -/
def controlsPattern (d : Document) (element : Nat) : Bool :=
  !(querySelectorAll d element (fun doc m => hasTag doc m ["button"])).isEmpty ||
  includes (toLowerCase (d.nodes element).className) "controls" ||
  includes (toLowerCase (d.nodes element).className) "settings" ||
  includes (toLowerCase (textContent d element)) "settings"

/-- The modals pattern of determineCategory. -/
def modalsPattern (d : Document) (element : Nat) : Bool :=
  includes (toLowerCase (d.nodes element).className) "modal" ||
  includes (toLowerCase (d.nodes element).className) "popup" ||
  includes (toLowerCase (d.nodes element).className) "overlay" ||
  includes (toLowerCase (d.nodes element).className) "dialog"

/-- The categories with their patterns, in priority order. -/
def categoryPatterns : List (String × (Document → Nat → Bool)) :=
  [("navigation", navigationPattern), ("forms", formsPattern), ("content", contentPattern),
   ("controls", controlsPattern), ("modals", modalsPattern)]

/-- The decision list of the specification: the first category whose pattern the element
matches, and other when none does. -/
def firstMatchingCategory (d : Document) (element : Nat) : String :=
  match categoryPatterns.find? (fun p => p.2 d element) with
  | some p => p.1
  | none => "other"

/-- The id handed out for counter value i. -/
def zenId (i : Nat) : String := "zen-element-" ++ toString i

/-- The number spelled by a list of decimal digit characters after the digits in acc. -/
def decodeDigits (acc : Nat) (digits : List Char) : Nat :=
  digits.foldl (fun a c => 10 * a + (c.toNat - 48)) acc

/-- Is the restore of an id possible: a snapshot exists and the id is in the generation. -/
def restorable (w : World) (elementId : String) : Bool :=
  mapHas w.zen.originalStates elementId && (findElement w.zen elementId).isSome

/-! ## More sample pages -/

/-- Sample page: a transparent container with a transparent element inside it. -/
def pageDedup : Document :=
  mkDocument [htmlElement, bodyElement [2],
    { blankElement with className := "faded", children := [Child.elem 3], parent := some 1 },
    divElement "faded" [] "Details" 2]

/-- Sample page: a container with display none that holds a block with a button. -/
def pageCollapsed : Document :=
  mkDocument [htmlElement, bodyElement [2],
    { blankElement with className := "hidden", children := [Child.elem 3], parent := some 1 },
    { blankElement with children := [Child.elem 4], parent := some 2 },
    { blankElement with tagName := "BUTTON", children := [Child.text "Go"], parent := some 3 }]

/-- Sample page: five banners, the second and the fourth locked. -/
def pageFive : Document :=
  mkDocument [htmlElement, bodyElement [2, 3, 4, 5, 6], divElement "faded" [] "One" 1,
    divElement "locked" [] "Two" 1, divElement "faded" [] "Three" 1,
    divElement "locked" [] "Four" 1, divElement "faded" [] "Five" 1]

/-- Sample page: a transparent form whose class contains nav. -/
def pageForm : Document :=
  mkDocument [htmlElement, bodyElement [2],
    { blankElement with tagName := "FORM", className := "faded nav-search",
                        children := [Child.text "Find"], parent := some 1 }]

/-- Sample page: a banner of class nudged. -/
def pageNudged : Document :=
  mkDocument [htmlElement, bodyElement [2], divElement "nudged" [] "Side note" 1]

/-- The sample browser with one more style rule: class nudged puts the box, 100 wide,
500 left of the window. -/
def nudgingBrowser : Browser :=
  { sampleBrowser with
    getBoundingClientRect := fun d n =>
      if (classList d n).contains "nudged" then { left := -500, top := 0, width := 100, height := 20 }
      else sampleBrowser.getBoundingClientRect d n }

/-- The page with five banners after a scan. -/
def worldFive : World := run sampleBrowser [Op.discover] (freshWorld pageFive)

/-- The page with two banners: scanned, second banner revealed, scanned again, so that
zen-element-1 has a snapshot and is no longer in the generation. -/
def worldStale : World :=
  run sampleBrowser [Op.discover, Op.reveal "zen-element-1", Op.discover] (freshWorld pageTwo)

/-! ## The ancestor walk, class tokens and stable reads -/

/-- The ancestors that the loop of revealParentChain examines, in order, each with the
document as it is when the ancestor is examined. -/
def parentChainTrace (b : Browser) : Nat → Option Nat → Document → List (Nat × Document)
  | 0, _, _ => []
  | _ + 1, none, _ => []
  | left + 1, some parent, d =>
    if parent = d.body then [] else
    if isElementHidden b d parent then
      let c := revealWithCSS b parent d
      if c.1 then (parent, d) :: parentChainTrace b left (c.2.nodes parent).parent c.2
      else
        let k := revealWithClasses parent c.2
        (parent, d) :: parentChainTrace b left (k.2.nodes parent).parent k.2
    else (parent, d) :: parentChainTrace b left (d.nodes parent).parent d

/-- The nearest proper ancestors met before the document body, at most the given number
of them, nearest first. -/
def ancestorsBelowBody (d : Document) : Nat → Option Nat → List Nat
  | 0, _ => []
  | _ + 1, none => []
  | left + 1, some parent =>
    if parent = d.body then [] else parent :: ancestorsBelowBody d left (d.nodes parent).parent

/-- A class token: not empty and free of ASCII whitespace. -/
def validToken (t : String) : Bool := !t.data.isEmpty && t.data.all (fun c => !isAsciiSpace c)

/-- The browser computes the opacity of the element independently of its inline display
and visibility, and its position, left and top independently of its inline display,
visibility, opacity, height and width. -/
def StableReads (b : Browser) (element : Nat) : Prop :=
  (∀ (doc : Document) (p v : String), p ∈ ["display", "visibility"] →
    (b.getComputedStyle (setStyle doc element p v) element).opacity =
      (b.getComputedStyle doc element).opacity) ∧
  (∀ (doc : Document) (p v : String),
    p ∈ ["display", "visibility", "opacity", "height", "width"] →
    (b.getComputedStyle (setStyle doc element p v) element).position =
        (b.getComputedStyle doc element).position ∧
      (b.getComputedStyle (setStyle doc element p v) element).left =
        (b.getComputedStyle doc element).left ∧
      (b.getComputedStyle (setStyle doc element p v) element).top =
        (b.getComputedStyle doc element).top)

/-- Sample page: a transparent banner and a transparent banner shifted out of the window. -/
def pageShifted : Document :=
  mkDocument [htmlElement, bodyElement [2, 3], divElement "faded" [] "Special offer" 1,
    divElement "faded offscreen" [] "Skip to content" 1]

/-- Sample page: a visible panel with a transparent element inside it. -/
def pagePanel : Document :=
  mkDocument [htmlElement, bodyElement [2],
    { blankElement with children := [Child.elem 3], parent := some 1 },
    divElement "faded" [] "Details" 2]

/-- Sample page: a span with display none. -/
def pageSpan : Document :=
  mkDocument [htmlElement, bodyElement [2],
    { blankElement with tagName := "SPAN", className := "hidden",
                        children := [Child.text "note"], parent := some 1 }]

/-- Sample page: a transparent banner dumped far to the left by inline style. -/
def pageDump : Document :=
  mkDocument [htmlElement, bodyElement [2],
    divElement "faded" [("position", "absolute"), ("left", "-9999px")] "Skip links" 1]

/-- Sample page: a locked body in a transparent document element that the scan skips as
a tracking element. -/
def pageBodyLocked : Document :=
  mkDocument [{ htmlElement with className := "faded gtm-loading" },
    { bodyElement [2] with className := "locked" }, divElement "" [] "Welcome" 1]

/-- The shifted page after a scan, a reveal of each banner and a second scan: the second
banner is still left of the window and is reported again, now as zen-element-0. -/
def worldShiftedRescanned : World :=
  run sampleBrowser [Op.discover, Op.reveal "zen-element-1", Op.reveal "zen-element-0", Op.discover]
    (freshWorld pageShifted)

/-- The panel page after a scan, a reveal of the inner element, a change by the page that
makes the panel itself transparent, and a second scan that reports the panel. -/
def worldPanelFaded : World :=
  run sampleBrowser [Op.discover, Op.reveal "zen-element-0",
    Op.page (fun d => setClassName d 2 "faded"), Op.discover] (freshWorld pagePanel)

/-- Sample page: a banner hidden by the class hidden, next to an element that carries the
class show. -/
def pageClasses : Document :=
  mkDocument [htmlElement, bodyElement [2, 3], divElement "hidden promo" [] "Special offer" 1,
    divElement "show" [] "Menu" 1]

/-- The second document differs from the first at most in node n, and neither in the
parent of any node nor in which node is the body. -/
def SameOutside (n : Nat) (d d2 : Document) : Prop :=
  d2.body = d.body ∧ (∀ m, (d2.nodes m).parent = (d.nodes m).parent) ∧
    ∀ m, m ≠ n → d2.nodes m = d.nodes m

/-- The resolved value of a length the script reads off a rendered element: a percentage
is taken of a containing block 10px wide and reported in pixels, anything else is
reported as it is. -/
def resolvePercent (s : String) : String :=
  match s.data.reverse with
  | '%' :: rest =>
    let body := if rest.reverse.head? == some '-' then rest.reverse.tail else rest.reverse
    (if rest.reverse.head? == some '-' then "-" else "") ++
      toString ((readDigits body 0 0).1 * 10 / 100) ++ "px"
  | _ => s

/-- A browser like the sample browser, except that the left and top it computes for an
element that is rendered are used values, with percentages resolved to pixels; for an
element that is not rendered they are the computed values, percentages included. -/
def resolvingBrowser : Browser :=
  { sampleBrowser with
    getComputedStyle := fun d n =>
      if isConnected d n && !sampleNotRendered d (d.size + 1) n then
        { sampleBrowser.getComputedStyle d n with
          left := resolvePercent (sampleBrowser.getComputedStyle d n).left,
          top := resolvePercent (sampleBrowser.getComputedStyle d n).top }
      else sampleBrowser.getComputedStyle d n }

/-- Sample page: an element with display none and opacity 0, positioned absolutely with
left at -9500 percent. -/
def pagePercent : Document :=
  mkDocument [htmlElement, bodyElement [2],
    divElement "" [("display", "none"), ("opacity", "0"), ("position", "absolute"),
      ("left", "-9500%")] "Skip links" 1]

/-! ## Basic facts about inline styles, maps and the heap -/

theorem getProp_cons (k v : String) (rest : List (String × String)) (p : String) :
    getProp ((k, v) :: rest) p = if k = p then v else getProp rest p := rfl

theorem hasProp_cons (k v : String) (rest : List (String × String)) (p : String) :
    hasProp ((k, v) :: rest) p = (k == p || hasProp rest p) := by
  simp [hasProp]

theorem getProp_filter_ne (s : List (String × String)) (p q : String) :
    getProp (s.filter (fun kv => kv.1 != p)) q = if q = p then "" else getProp s q := by
  induction s with
  | nil => simp [getProp]
  | cons kv rest ih =>
    obtain ⟨k, v⟩ := kv
    rw [List.filter_cons]
    by_cases hk : k = p
    · have h1 : ((k, v).1 != p) = false := by simp [hk]
      rw [h1]
      simp only [Bool.false_eq_true, if_false]
      rw [ih, getProp_cons]
      by_cases hq : q = p
      · simp [hq]
      · have h2 : ¬ k = q := by rw [hk]; exact fun e => hq e.symm
        simp [hq, h2]
    · have h1 : ((k, v).1 != p) = true := by simp [hk]
      rw [h1]
      simp only [if_true]
      rw [getProp_cons, getProp_cons, ih]
      by_cases hkq : k = q
      · have h2 : ¬ q = p := by rw [← hkq]; exact hk
        simp [hkq, h2]
      · simp [hkq]

theorem getProp_map_set (s : List (String × String)) (p v q : String) :
    getProp (s.map (fun kv => if kv.1 = p then (kv.1, v) else kv)) q =
      if q = p ∧ hasProp s p = true then v else getProp s q := by
  induction s with
  | nil => simp [getProp, hasProp]
  | cons kv rest ih =>
    obtain ⟨k, u⟩ := kv
    rw [List.map_cons, hasProp_cons]
    by_cases hk : k = p
    · have h1 : (if (k, u).1 = p then ((k, u).1, v) else (k, u)) = (k, v) := by simp [hk]
      rw [h1, getProp_cons, getProp_cons, ih]
      by_cases hkq : k = q
      · have h2 : q = p := by rw [← hkq]; exact hk
        simp [hkq, h2]
      · have h2 : ¬ q = p := by rw [← hk]; exact fun e => hkq e.symm
        simp [hkq, h2]
    · have h1 : (if (k, u).1 = p then ((k, u).1, v) else (k, u)) = (k, u) := by simp [hk]
      rw [h1, getProp_cons, getProp_cons, ih]
      by_cases hkq : k = q
      · have h2 : ¬ q = p := by rw [← hkq]; exact hk
        simp [hkq, h2]
      · simp [hkq, hk]

theorem getProp_append_new (s : List (String × String)) (p v q : String)
    (h : hasProp s p = false) :
    getProp (s ++ [(p, v)]) q = if q = p then v else getProp s q := by
  induction s with
  | nil =>
    rw [List.nil_append, getProp_cons]
    by_cases hq : q = p
    · simp [hq]
    · have hpq : ¬ p = q := fun e => hq e.symm
      simp [getProp, hq, hpq]
  | cons kv rest ih =>
    obtain ⟨k, u⟩ := kv
    rw [hasProp_cons] at h
    have hk : ¬ k = p := by
      intro e; simp [e] at h
    have hrest : hasProp rest p = false := by
      simpa [hk] using h
    rw [List.cons_append, getProp_cons, getProp_cons, ih hrest]
    by_cases hkq : k = q
    · have h2 : ¬ q = p := by rw [← hkq]; exact hk
      simp [hkq, h2]
    · simp [hkq]

theorem getProp_setProp (s : List (String × String)) (p v q : String) :
    getProp (setProp s p v) q = if q = p then v else getProp s q := by
  unfold setProp
  by_cases hv : v = ""
  · rw [if_pos hv, getProp_filter_ne, hv]
  · rw [if_neg hv]
    by_cases hp : hasProp s p = true
    · rw [if_pos hp, getProp_map_set]
      simp [hp]
    · have hp2 : hasProp s p = false := by simpa using hp
      rw [if_neg hp, getProp_append_new _ _ _ _ hp2]

theorem update_nodes (d : Document) (n m : Nat) (f : Element → Element) :
    (d.update n f).nodes m = if m = n then f (d.nodes m) else d.nodes m := rfl

theorem styleOf_setStyle (d : Document) (n m : Nat) (p v q : String) :
    styleOf (setStyle d n p v) m q = if m = n ∧ q = p then v else styleOf d m q := by
  unfold styleOf setStyle
  rw [update_nodes]
  by_cases hm : m = n
  · rw [if_pos hm]
    simp only [getProp_setProp]
    by_cases hq : q = p
    · simp [hm, hq]
    · simp [hm, hq]
  · simp [hm]

theorem setClassName_style (d : Document) (n m : Nat) (c : String) :
    ((setClassName d n c).nodes m).style = (d.nodes m).style := by
  unfold setClassName
  rw [update_nodes]
  split <;> rfl

theorem setClassName_className (d : Document) (n : Nat) (c : String) :
    ((setClassName d n c).nodes n).className = c := by
  unfold setClassName
  rw [update_nodes]
  simp

theorem setStyle_className (d : Document) (n m : Nat) (p v : String) :
    ((setStyle d n p v).nodes m).className = (d.nodes m).className := by
  unfold setStyle
  rw [update_nodes]
  split <;> rfl

theorem removeNode_style (d : Document) (n m : Nat) :
    ((removeNode d n).nodes m).style = (d.nodes m).style := by
  unfold removeNode
  split
  · rfl
  · simp only [update_nodes]
    split <;> split <;> rfl

theorem removeNode_className (d : Document) (n m : Nat) :
    ((removeNode d n).nodes m).className = (d.nodes m).className := by
  unfold removeNode
  split
  · rfl
  · simp only [update_nodes]
    split <;> split <;> rfl

theorem removeRevealIndicator_style (d : Document) (n m : Nat) :
    ((removeRevealIndicator n d).nodes m).style = (d.nodes m).style := by
  unfold removeRevealIndicator classListRemove
  rw [setClassName_style]
  split
  · rw [removeNode_style]
  · rfl

theorem removeRevealIndicator_className (d : Document) (n : Nat) :
    ((removeRevealIndicator n d).nodes n).className =
      joinTokens ((parseTokens (d.nodes n).className).filter (fun t => t != "zen-revealed")) := by
  unfold removeRevealIndicator classListRemove
  rw [setClassName_className]
  unfold classList
  split
  · rw [removeNode_className]
  · rfl

theorem mapGet_cons {α : Type} (j : String) (u : α) (rest : List (String × α)) (k : String) :
    mapGet ((j, u) :: rest) k = if j = k then some u else mapGet rest k := rfl

theorem mapHas_cons {α : Type} (j : String) (u : α) (rest : List (String × α)) (k : String) :
    mapHas ((j, u) :: rest) k = (j == k || mapHas rest k) := by
  simp [mapHas]

theorem mapGet_map_set {α : Type} (m : List (String × α)) (k : String) (v : α)
    (h : mapHas m k = true) :
    mapGet (m.map (fun kv => if kv.1 = k then (kv.1, v) else kv)) k = some v := by
  induction m with
  | nil => simp [mapHas] at h
  | cons kv rest ih =>
    obtain ⟨j, u⟩ := kv
    rw [List.map_cons]
    by_cases hj : j = k
    · have h1 : (if (j, u).1 = k then ((j, u).1, v) else (j, u)) = (j, v) := by simp [hj]
      rw [h1, mapGet_cons, if_pos hj]
    · have h1 : (if (j, u).1 = k then ((j, u).1, v) else (j, u)) = (j, u) := by simp [hj]
      rw [mapHas_cons] at h
      have hrest : mapHas rest k = true := by simpa [hj] using h
      rw [h1, mapGet_cons, if_neg hj, ih hrest]

theorem mapGet_append_new {α : Type} (m : List (String × α)) (k : String) (v : α)
    (h : mapHas m k = false) : mapGet (m ++ [(k, v)]) k = some v := by
  induction m with
  | nil => simp [mapGet]
  | cons kv rest ih =>
    obtain ⟨j, u⟩ := kv
    rw [mapHas_cons] at h
    have hj : ¬ j = k := by
      intro e; simp [e] at h
    have hrest : mapHas rest k = false := by simpa [hj] using h
    rw [List.cons_append, mapGet_cons, if_neg hj, ih hrest]

theorem mapGet_mapSet_self {α : Type} (m : List (String × α)) (k : String) (v : α) :
    mapGet (mapSet m k v) k = some v := by
  unfold mapSet
  by_cases h : mapHas m k = true
  · rw [if_pos h, mapGet_map_set m k v h]
  · have h2 : mapHas m k = false := by simpa using h
    rw [if_neg h, mapGet_append_new m k v h2]

theorem mapGet_mapDelete_self {α : Type} (m : List (String × α)) (k : String) :
    mapGet (mapDelete m k) k = none := by
  unfold mapDelete
  induction m with
  | nil => rfl
  | cons kv rest ih =>
    obtain ⟨j, u⟩ := kv
    rw [List.filter_cons]
    by_cases hj : j = k
    · have h1 : ((j, u).1 != k) = false := by simp [hj]
      rw [h1]
      simpa using ih
    · have h1 : ((j, u).1 != k) = true := by simp [hj]
      rw [h1]
      simp only [if_true]
      rw [mapGet_cons, if_neg hj, ih]

theorem mapHas_of_mapGet {α : Type} (m : List (String × α)) (k : String) (v : α)
    (h : mapGet m k = some v) : mapHas m k = true := by
  induction m with
  | nil => simp [mapGet] at h
  | cons kv rest ih =>
    obtain ⟨j, u⟩ := kv
    rw [mapHas_cons]
    by_cases hj : j = k
    · simp [hj]
    · rw [mapGet_cons, if_neg hj] at h
      simp [ih h]

theorem mapGet_of_mapHas {α : Type} (m : List (String × α)) (k : String)
    (h : mapHas m k = true) : ∃ v, mapGet m k = some v := by
  induction m with
  | nil => simp [mapHas] at h
  | cons kv rest ih =>
    obtain ⟨j, u⟩ := kv
    rw [mapHas_cons] at h
    by_cases hj : j = k
    · exact ⟨u, by rw [mapGet_cons, if_pos hj]⟩
    · have hrest : mapHas rest k = true := by simpa [hj] using h
      obtain ⟨v, hv⟩ := ih hrest
      exact ⟨v, by rw [mapGet_cons, if_neg hj, hv]⟩

/-! ## Reveal followed by restore -/

theorem findElement_congr (z z2 : ZenElementRevealer) (elementId : String)
    (h : z2.discoveredElements = z.discoveredElements) :
    findElement z2 elementId = findElement z elementId := by
  unfold findElement
  rw [h]

theorem revealElement_found (b : Browser) (w : World) (elementId : String)
    (h : (revealElement b elementId w).1.success = true) :
    ∃ elementData, findElement w.zen elementId = some elementData := by
  unfold revealElement at h
  cases hf : findElement w.zen elementId with
  | none => rw [hf] at h; simp at h
  | some elementData => exact ⟨elementData, rfl⟩

theorem revealElement_originalStates (b : Browser) (w : World) (elementId : String)
    (elementData : ElementData) (hf : findElement w.zen elementId = some elementData) :
    (revealElement b elementId w).2.zen.originalStates =
      mapSet w.zen.originalStates elementId (originalStateOf b w.document elementData.element) := by
  unfold revealElement
  rw [hf]
  simp only
  split <;> rfl

theorem revealElement_discoveredElements (b : Browser) (w : World) (elementId : String) :
    (revealElement b elementId w).2.zen.discoveredElements = w.zen.discoveredElements := by
  unfold revealElement
  cases hf : findElement w.zen elementId with
  | none => rfl
  | some elementData =>
    simp only
    split <;> rfl

theorem restoreElement_ok (w : World) (elementId : String) (originalState : OriginalState)
    (elementData : ElementData)
    (hs : mapGet w.zen.originalStates elementId = some originalState)
    (hf : findElement w.zen elementId = some elementData) :
    restoreElement elementId w =
      ({ success := true, error := none },
       { zen := { w.zen with originalStates := mapDelete w.zen.originalStates elementId,
                             revealedElements := mapDelete w.zen.revealedElements elementId },
         document := removeRevealIndicator elementData.element
           (setClassName
             (originalState.styles.foldl (fun d pv => setStyle d elementData.element pv.1 pv.2)
               w.document)
             elementData.element originalState.className) }) := by
  unfold restoreElement
  rw [hs, hf]

theorem restored_styles (b : Browser) (d0 d : Document) (element : Nat) (p : String)
    (hp : p ∈ ["display", "visibility", "opacity", "height", "width", "position", "left",
      "top", "clipPath", "transform", "overflow"]) :
    styleOf ((originalStateOf b d0 element).styles.foldl
      (fun doc pv => setStyle doc element pv.1 pv.2) d) element p = styleOf d0 element p := by
  simp only [originalStateOf, List.foldl, styleOf_setStyle]
  simp only [List.mem_cons, List.mem_singleton, List.not_mem_nil, or_false] at hp
  rcases hp with h | h | h | h | h | h | h | h | h | h | h <;> subst h <;> simp

/-- Claim C1 (as amended): after a successful revealElement(id) followed by restoreElement(id)
the restore succeeds, each of the eleven snapshotted inline style properties has the value
it had immediately before the reveal (the empty string included), and the class attribute
is the class list it had before the reveal, serialised with single blanks, without the
marker class zen-revealed. -/
theorem reveal_then_restore_round_trip (b : Browser) (w : World) (elementId : String)
    (hok : (revealElement b elementId w).1.success = true) :
    ∃ elementData, findElement w.zen elementId = some elementData ∧
      (restoreElement elementId (revealElement b elementId w).2).1.success = true ∧
      (∀ p ∈ ["display", "visibility", "opacity", "height", "width", "position", "left",
          "top", "clipPath", "transform", "overflow"],
        styleOf (restoreElement elementId (revealElement b elementId w).2).2.document
          elementData.element p = styleOf w.document elementData.element p) ∧
      ((restoreElement elementId (revealElement b elementId w).2).2.document.nodes
          elementData.element).className =
        joinTokens ((parseTokens (w.document.nodes elementData.element).className).filter
          (fun t => t != "zen-revealed")) := by
  obtain ⟨elementData, hf⟩ := revealElement_found b w elementId hok
  refine ⟨elementData, hf, ?_⟩
  have hs : mapGet (revealElement b elementId w).2.zen.originalStates elementId =
      some (originalStateOf b w.document elementData.element) := by
    rw [revealElement_originalStates b w elementId elementData hf, mapGet_mapSet_self]
  have hf2 : findElement (revealElement b elementId w).2.zen elementId = some elementData := by
    rw [findElement_congr w.zen _ elementId (revealElement_discoveredElements b w elementId), hf]
  rw [restoreElement_ok _ elementId _ elementData hs hf2]
  refine ⟨rfl, ?_, ?_⟩
  · intro p hp
    unfold styleOf
    rw [removeRevealIndicator_style, setClassName_style]
    exact restored_styles b w.document _ elementData.element p hp
  · rw [removeRevealIndicator_className, setClassName_className]
    rfl

/-- Witness for C1: the banner page, scanned, then reveal and restore of its banner. -/
theorem reveal_then_restore_round_trip_witness :
    (revealElement sampleBrowser "zen-element-0" worldBanner).1.success = true ∧
    ∃ elementData, findElement worldBanner.zen "zen-element-0" = some elementData ∧
      (restoreElement "zen-element-0"
        (revealElement sampleBrowser "zen-element-0" worldBanner).2).1.success = true ∧
      (∀ p ∈ ["display", "visibility", "opacity", "height", "width", "position", "left",
          "top", "clipPath", "transform", "overflow"],
        styleOf (restoreElement "zen-element-0"
            (revealElement sampleBrowser "zen-element-0" worldBanner).2).2.document
          elementData.element p = styleOf worldBanner.document elementData.element p) ∧
      ((restoreElement "zen-element-0"
          (revealElement sampleBrowser "zen-element-0" worldBanner).2).2.document.nodes
          elementData.element).className =
        joinTokens ((parseTokens (worldBanner.document.nodes elementData.element).className).filter
          (fun t => t != "zen-revealed")) :=
  ⟨by decide, reveal_then_restore_round_trip sampleBrowser worldBanner "zen-element-0" (by decide)⟩

/-- Counterexample to C1 as stated: the class attribute is not always the string it was
immediately before the reveal.  On the banner page a second reveal of the revealed banner
succeeds and the restore that follows leaves class "faded", not the "faded zen-revealed"
held just before that reveal; on the page whose banner has class "faded  promo" (two
blanks) reveal and restore leave "faded promo". -/
theorem reveal_then_restore_class_differs :
    ((findElement worldBannerRevealed.zen "zen-element-0").map (fun e => e.element) = some 2 ∧
      (revealElement sampleBrowser "zen-element-0" worldBannerRevealed).1.success = true ∧
      (worldBannerRevealed.document.nodes 2).className = "faded zen-revealed" ∧
      ((restoreElement "zen-element-0"
        (revealElement sampleBrowser "zen-element-0" worldBannerRevealed).2).2.document.nodes 2).className
        = "faded") ∧
    ((findElement worldSpaced.zen "zen-element-0").map (fun e => e.element) = some 2 ∧
      (revealElement sampleBrowser "zen-element-0" worldSpaced).1.success = true ∧
      (worldSpaced.document.nodes 2).className = "faded  promo" ∧
      ((restoreElement "zen-element-0"
        (revealElement sampleBrowser "zen-element-0" worldSpaced).2).2.document.nodes 2).className
        = "faded promo") := by
  decide

theorem restored_styles_other (d : Document) (element : Nat) (styles : List (String × String))
    (q : String) (hq : ∀ pv ∈ styles, pv.1 ≠ q) :
    styleOf (styles.foldl (fun doc pv => setStyle doc element pv.1 pv.2) d) element q =
      styleOf d element q := by
  induction styles generalizing d with
  | nil => rfl
  | cons pv rest ih =>
    rw [List.foldl_cons, ih _ (fun x hx => hq x (List.mem_cons_of_mem pv hx)), styleOf_setStyle]
    have hne : ¬ q = pv.1 := fun e => hq pv (List.mem_cons_self pv rest) e.symm
    simp [hne]

/-- The transition outlives the restore in every browser and on every page: after a
successful revealElement(id) followed by restoreElement(id) the inline transition of the
element is the one revealElement wrote. -/
theorem transition_outlives_restore (b : Browser) (w : World) (elementId : String)
    (hok : (revealElement b elementId w).1.success = true) :
    ∃ elementData, findElement w.zen elementId = some elementData ∧
      styleOf (restoreElement elementId (revealElement b elementId w).2).2.document
        elementData.element "transition" = "all 0.3s ease-in-out" := by
  obtain ⟨elementData, hf⟩ := revealElement_found b w elementId hok
  refine ⟨elementData, hf, ?_⟩
  have hs : mapGet (revealElement b elementId w).2.zen.originalStates elementId =
      some (originalStateOf b w.document elementData.element) := by
    rw [revealElement_originalStates b w elementId elementData hf, mapGet_mapSet_self]
  have hf2 : findElement (revealElement b elementId w).2.zen elementId = some elementData := by
    rw [findElement_congr w.zen _ elementId (revealElement_discoveredElements b w elementId), hf]
  rw [restoreElement_ok _ elementId _ elementData hs hf2]
  have hdoc : styleOf (revealElement b elementId w).2.document elementData.element "transition" =
      "all 0.3s ease-in-out" := by
    unfold revealElement at hok ⊢
    rw [hf] at hok ⊢
    simp only at hok ⊢
    split
    · simp only [styleOf_setStyle, and_self, if_true]
    · rename_i hr
      rw [if_neg hr] at hok
      simp at hok
  show styleOf (removeRevealIndicator _ (setClassName _ _ _)) _ _ = _
  unfold styleOf
  rw [removeRevealIndicator_style, setClassName_style]
  have := restored_styles_other (revealElement b elementId w).2.document elementData.element
    (originalStateOf b w.document elementData.element).styles "transition"
    (by
      intro pv hpv
      simp only [originalStateOf, List.mem_cons, List.mem_singleton, List.not_mem_nil,
        or_false] at hpv
      rcases hpv with h | h | h | h | h | h | h | h | h | h | h <;> rw [h] <;> simp)
  unfold styleOf at this hdoc
  rw [this, hdoc]

/-- Claim C2 fails on the code: on the banner page the banner has no inline style before
the reveal; reveal and restore both succeed and the inline style text is then the
transition declaration that revealElement added and restoreElement never removes. -/
theorem restore_leaves_transition :
    (findElement worldBanner.zen "zen-element-0").map (fun e => e.element) = some 2 ∧
    cssText worldBanner.document 2 = [] ∧
    (revealElement sampleBrowser "zen-element-0" worldBanner).1.success = true ∧
    (restoreElement "zen-element-0"
      (revealElement sampleBrowser "zen-element-0" worldBanner).2).1.success = true ∧
    cssText (restoreElement "zen-element-0"
      (revealElement sampleBrowser "zen-element-0" worldBanner).2).2.document 2 =
      [("transition", "all 0.3s ease-in-out")] := by
  decide

/-- Claim C3 fails on the code: on the banner page the banner starts with no inline
opacity and class "faded"; after two reveals in a row, both successful, the snapshot
stored for its id holds opacity "1" and class "faded zen-revealed", the revealed state. -/
theorem second_reveal_overwrites_snapshot :
    styleOf worldBanner.document 2 "opacity" = "" ∧
    (worldBanner.document.nodes 2).className = "faded" ∧
    (revealElement sampleBrowser "zen-element-0" worldBanner).1.success = true ∧
    (mapGet (revealElement sampleBrowser "zen-element-0" worldBanner).2.zen.originalStates
        "zen-element-0").map (fun st => (getProp st.styles "opacity", st.className)) =
      some ("", "faded") ∧
    (revealElement sampleBrowser "zen-element-0"
      (revealElement sampleBrowser "zen-element-0" worldBanner).2).1.success = true ∧
    (mapGet (revealElement sampleBrowser "zen-element-0"
        (revealElement sampleBrowser "zen-element-0" worldBanner).2).2.zen.originalStates
        "zen-element-0").map (fun st => (getProp st.styles "opacity", st.className)) =
      some ("1", "faded zen-revealed") := by
  decide

/-- Claim C4 (as amended): for every id of the current generation the snapshot map has an
entry for the id after revealElement(id), whatever the reveal returned, and a
restoreElement(id) that follows returns success: true. -/
theorem reveal_always_leaves_snapshot (b : Browser) (w : World) (elementId : String)
    (hf : (findElement w.zen elementId).isSome = true) :
    mapHas (revealElement b elementId w).2.zen.originalStates elementId = true ∧
    (restoreElement elementId (revealElement b elementId w).2).1 =
      { success := true, error := none } := by
  obtain ⟨elementData, hf⟩ := Option.isSome_iff_exists.mp hf
  have hs : mapGet (revealElement b elementId w).2.zen.originalStates elementId =
      some (originalStateOf b w.document elementData.element) := by
    rw [revealElement_originalStates b w elementId elementData hf, mapGet_mapSet_self]
  have hf2 : findElement (revealElement b elementId w).2.zen elementId = some elementData := by
    rw [findElement_congr w.zen _ elementId (revealElement_discoveredElements b w elementId), hf]
  refine ⟨mapHas_of_mapGet _ _ _ hs, ?_⟩
  rw [restoreElement_ok _ elementId _ elementData hs hf2]

/-- Witness for C4: the locked banner, whose reveal fails every strategy. -/
theorem reveal_always_leaves_snapshot_witness :
    (findElement worldLocked.zen "zen-element-0").isSome = true ∧
    mapHas (revealElement sampleBrowser "zen-element-0" worldLocked).2.zen.originalStates
      "zen-element-0" = true ∧
    (restoreElement "zen-element-0" (revealElement sampleBrowser "zen-element-0" worldLocked).2).1 =
      { success := true, error := none } :=
  ⟨by decide, reveal_always_leaves_snapshot sampleBrowser worldLocked "zen-element-0" (by decide)⟩

/-- Counterexample to C4 as stated: on the page with the locked banner the id has no
snapshot, revealElement returns success: false, and yet the snapshot map then has an
entry for the id and the following restoreElement returns success: true. -/
theorem failed_reveal_leaves_snapshot :
    mapHas worldLocked.zen.originalStates "zen-element-0" = false ∧
    (findElement worldLocked.zen "zen-element-0").isSome = true ∧
    (revealElement sampleBrowser "zen-element-0" worldLocked).1.success = false ∧
    mapHas (revealElement sampleBrowser "zen-element-0" worldLocked).2.zen.originalStates
      "zen-element-0" = true ∧
    (restoreElement "zen-element-0" (revealElement sampleBrowser "zen-element-0" worldLocked).2).1 =
      { success := true, error := none } := by
  decide

/-- Claim C5: for an id that has a snapshot and belongs to the current generation, the
first restoreElement(id) returns success: true; the second returns success: false with
the error No original state saved and returns the world unchanged, element and engine
state alike. -/
theorem restore_is_one_shot (w : World) (elementId : String)
    (hs : mapHas w.zen.originalStates elementId = true)
    (hf : (findElement w.zen elementId).isSome = true) :
    (restoreElement elementId w).1 = { success := true, error := none } ∧
    restoreElement elementId (restoreElement elementId w).2 =
      ({ success := false, error := some "No original state saved" },
       (restoreElement elementId w).2) := by
  obtain ⟨elementData, hf⟩ := Option.isSome_iff_exists.mp hf
  obtain ⟨originalState, hs⟩ := mapGet_of_mapHas _ _ hs
  rw [restoreElement_ok w elementId originalState elementData hs hf]
  refine ⟨rfl, ?_⟩
  unfold restoreElement
  simp only
  rw [mapGet_mapDelete_self]

/-- Witness for C5: the revealed banner is restored once, then the restore is refused. -/
theorem restore_is_one_shot_witness :
    mapHas worldBannerRevealed.zen.originalStates "zen-element-0" = true ∧
    (findElement worldBannerRevealed.zen "zen-element-0").isSome = true ∧
    (restoreElement "zen-element-0" worldBannerRevealed).1 = { success := true, error := none } ∧
    restoreElement "zen-element-0" (restoreElement "zen-element-0" worldBannerRevealed).2 =
      ({ success := false, error := some "No original state saved" },
       (restoreElement "zen-element-0" worldBannerRevealed).2) :=
  ⟨by decide, by decide,
   restore_is_one_shot worldBannerRevealed "zen-element-0" (by decide) (by decide)⟩

/-! ## Detached elements -/

theorem mapHas_mapDelete_ne {α : Type} (m : List (String × α)) (k j : String) (h : j ≠ k) :
    mapHas (mapDelete m k) j = mapHas m j := by
  unfold mapDelete
  induction m with
  | nil => rfl
  | cons kv rest ih =>
    obtain ⟨i, u⟩ := kv
    rw [List.filter_cons, mapHas_cons]
    by_cases hi : i = k
    · have h1 : ((i, u).1 != k) = false := by simp [hi]
      have h2 : (i == j) = false := by
        simp only [beq_eq_false_iff_ne, ne_eq]
        rw [hi]
        exact fun e => h e.symm
      rw [h1, h2]
      simpa using ih
    · have h1 : ((i, u).1 != k) = true := by simp [hi]
      rw [h1]
      simp only [if_true]
      rw [mapHas_cons, ih]

theorem restoreLoop_all_ok (keys : List String) :
    ∀ (acc : List RestoreResult) (w : World), keys.Nodup →
      (∀ k ∈ keys, mapHas w.zen.originalStates k = true ∧ (findElement w.zen k).isSome = true) →
      (restoreLoop keys (acc, w)).1 =
        acc ++ List.replicate keys.length { success := true, error := none } := by
  induction keys with
  | nil => intro acc w _ _; simp [restoreLoop]
  | cons k rest ih =>
    intro acc w hnd hall
    obtain ⟨hs, hf⟩ := hall k (List.mem_cons_self k rest)
    obtain ⟨elementData, hf⟩ := Option.isSome_iff_exists.mp hf
    obtain ⟨originalState, hs⟩ := mapGet_of_mapHas _ _ hs
    have hr := restoreElement_ok w k originalState elementData hs hf
    have hnd2 := List.nodup_cons.mp hnd
    show (restoreLoop rest (acc ++ [(restoreElement k w).1], (restoreElement k w).2)).1 = _
    rw [ih _ _ hnd2.2]
    · rw [hr]
      simp [List.replicate_succ]
    · intro j hj
      have hjk : j ≠ k := fun e => hnd2.1 (e ▸ hj)
      obtain ⟨hsj, hfj⟩ := hall j (List.mem_cons_of_mem k hj)
      rw [hr]
      refine ⟨?_, ?_⟩
      · show mapHas (mapDelete w.zen.originalStates k) j = true
        rw [mapHas_mapDelete_ne _ _ _ hjk]
        exact hsj
      · exact hfj

theorem revealElement_error_none (b : Browser) (w : World) (elementId : String)
    (hf : (findElement w.zen elementId).isSome = true) :
    (revealElement b elementId w).1.error = none := by
  obtain ⟨elementData, hf⟩ := Option.isSome_iff_exists.mp hf
  unfold revealElement
  rw [hf]
  simp only
  split <;> rfl

theorem foldl_setStyle_styleOf (element : Nat) (styles : List (String × String)) :
    ∀ (d : Document) (p : String),
      styleOf (styles.foldl (fun doc pv => setStyle doc element pv.1 pv.2) d) element p =
        ((styles.reverse.find? (fun pv => pv.1 == p)).map (fun pv => pv.2)).getD
          (styleOf d element p) := by
  induction styles with
  | nil => intro d p; rfl
  | cons pv rest ih =>
    intro d p
    rw [List.foldl_cons, ih, List.reverse_cons, List.find?_append]
    cases hfind : rest.reverse.find? (fun pv => pv.1 == p) with
    | some x => rfl
    | none =>
      rw [styleOf_setStyle]
      by_cases hp : pv.1 = p
      · have hb : (pv.1 == p) = true := by simpa using hp
        have hm : element = element ∧ p = pv.1 := ⟨rfl, hp.symm⟩
        rw [if_pos hm]
        simp only [List.find?, hb]
        rfl
      · have hb : (pv.1 == p) = false := by simpa using hp
        have hm : ¬ (element = element ∧ p = pv.1) := fun h => hp h.2.symm
        rw [if_neg hm]
        simp only [List.find?, hb]
        rfl

/-- Claim C6 (as amended): neither revealElement nor restoreElement looks at whether the
element is still connected.  For every id of the current generation, whatever has become
of its element, revealElement(id) does not return the element-not-found error, and when
a snapshot exists restoreElement(id) returns success: true and writes the snapshot to the
node: every inline property named in the snapshot gets the value the snapshot holds for
it (the last one, were it named twice), every other inline property stays, and the class
attribute is the snapshotted class list without zen-revealed.  Hence restoreAll over
revealed ids that all have a snapshot and belong to the current generation reports every
id restored and none failed. -/
theorem restore_does_not_check_connection (b : Browser) (w : World) :
    (∀ k, (findElement w.zen k).isSome = true → (revealElement b k w).1.error = none) ∧
    (∀ (k : String) (element : Nat) (originalState : OriginalState),
      (findElement w.zen k).map (fun e => e.element) = some element →
      mapGet w.zen.originalStates k = some originalState →
      (restoreElement k w).1 = { success := true, error := none } ∧
      (∀ p, styleOf (restoreElement k w).2.document element p =
        ((originalState.styles.reverse.find? (fun pv => pv.1 == p)).map (fun pv => pv.2)).getD
          (styleOf w.document element p)) ∧
      ((restoreElement k w).2.document.nodes element).className =
        joinTokens ((parseTokens originalState.className).filter
          (fun t => t != "zen-revealed"))) ∧
    ((mapKeys w.zen.revealedElements).Nodup →
      (∀ k ∈ mapKeys w.zen.revealedElements,
        mapHas w.zen.originalStates k = true ∧ (findElement w.zen k).isSome = true) →
      (restoreAll w).1 =
        { total := (mapKeys w.zen.revealedElements).length,
          restored := (mapKeys w.zen.revealedElements).length,
          failed := 0 }) := by
  refine ⟨fun k hf => revealElement_error_none b w k hf, ?_, ?_⟩
  · intro k element originalState hf hs
    cases hfe : findElement w.zen k with
    | none =>
      rw [hfe] at hf
      cases hf
    | some elementData =>
      have hel : elementData.element = element := by
        rw [hfe] at hf
        simpa using hf
      rw [restoreElement_ok w k originalState elementData hs hfe, hel]
      refine ⟨rfl, ?_, ?_⟩
      · intro p
        show styleOf (removeRevealIndicator element _) element p = _
        unfold styleOf
        rw [removeRevealIndicator_style, setClassName_style]
        exact foldl_setStyle_styleOf element originalState.styles w.document p
      · show ((removeRevealIndicator element _).nodes element).className = _
        rw [removeRevealIndicator_className, setClassName_className]
  · intro hnd hall
    unfold restoreAll
    simp only
    rw [restoreLoop_all_ok _ [] w hnd hall]
    simp

/-- Witness for C6: three revealed banners of which the second, node 3 with id
zen-element-1, was removed from the document; restoreElement on its id succeeds and
gives the detached node the snapshotted class, and restoreAll reports 3 of 3 restored. -/
theorem restore_does_not_check_connection_witness :
    isConnected worldThreeRemoved.document 3 = false ∧
    (revealElement sampleBrowser "zen-element-1" worldThreeRemoved).1.error = none ∧
    ((restoreElement "zen-element-1" worldThreeRemoved).1 = { success := true, error := none } ∧
      (∀ p, styleOf (restoreElement "zen-element-1" worldThreeRemoved).2.document 3 p =
        (((originalStateOf sampleBrowser pageThree 3).styles.reverse.find?
            (fun pv => pv.1 == p)).map (fun pv => pv.2)).getD
          (styleOf worldThreeRemoved.document 3 p)) ∧
      ((restoreElement "zen-element-1" worldThreeRemoved).2.document.nodes 3).className =
        joinTokens ((parseTokens (originalStateOf sampleBrowser pageThree 3).className).filter
          (fun t => t != "zen-revealed"))) ∧
    (restoreAll worldThreeRemoved).1 =
      { total := (mapKeys worldThreeRemoved.zen.revealedElements).length,
        restored := (mapKeys worldThreeRemoved.zen.revealedElements).length,
        failed := 0 } :=
  ⟨by decide,
   (restore_does_not_check_connection sampleBrowser worldThreeRemoved).1 "zen-element-1"
     (by decide),
   (restore_does_not_check_connection sampleBrowser worldThreeRemoved).2.1 "zen-element-1" 3
     (originalStateOf sampleBrowser pageThree 3) (by decide) (by decide),
   (restore_does_not_check_connection sampleBrowser worldThreeRemoved).2.2 (by decide)
     (by decide)⟩

/-- Counterexample to C6 as stated: three banners are revealed and the page then removes
the second one (node 3, id zen-element-1).  restoreElement on that id returns
success: true and rewrites the class of the detached node, revealElement on it returns
no element-not-found error, and restoreAll returns total 3, restored 3, failed 0. -/
theorem detached_element_is_restored :
    mapKeys worldThreeRemoved.zen.revealedElements =
      ["zen-element-0", "zen-element-1", "zen-element-2"] ∧
    (findElement worldThreeRemoved.zen "zen-element-1").map (fun e => e.element) = some 3 ∧
    isConnected worldThreeRemoved.document 3 = false ∧
    (worldThreeRemoved.document.nodes 3).className = "faded zen-revealed" ∧
    (restoreElement "zen-element-1" worldThreeRemoved).1 = { success := true, error := none } ∧
    ((restoreElement "zen-element-1" worldThreeRemoved).2.document.nodes 3).className = "faded" ∧
    (revealElement sampleBrowser "zen-element-1" worldThreeRemoved).1.error = none ∧
    (restoreAll worldThreeRemoved).1 = { total := 3, restored := 3, failed := 0 } := by
  decide

/-! ## Stale ids, rollback and verification -/

/-- Claim C7 fails on the code: the page has two banners, node 2 with class
"faded promo" and node 3 with class "faded menu".  After a scan, a reveal of
zen-element-0 (node 2) and a second scan, the snapshot taken from node 2 is still keyed
zen-element-0, and that id now names node 3; restoreElement of the stale id succeeds and
writes the class of node 2 onto node 3. -/
theorem stale_snapshot_hits_new_element :
    (mapGet worldRescanned.zen.originalStates "zen-element-0").map (fun st => st.className) =
      some "faded promo" ∧
    mapKeys worldRescanned.zen.revealedElements = ["zen-element-0"] ∧
    (findElement worldRescanned.zen "zen-element-0").map (fun e => e.element) = some 3 ∧
    (worldRescanned.document.nodes 3).className = "faded menu" ∧
    (restoreElement "zen-element-0" worldRescanned).1 = { success := true, error := none } ∧
    ((restoreElement "zen-element-0" worldRescanned).2.document.nodes 3).className =
      "faded promo" ∧
    ((restoreElement "zen-element-0" worldRescanned).2.document.nodes 2).className =
      "faded promo zen-revealed" := by
  decide

/-- Claim C9 fails on the code: on the nested page the locked element (node 3) cannot be
made visible; applyRevealStrategies returns false, yet the wrapper (node 2), which the
ancestor-chain strategy changed, keeps the inline opacity that strategy gave it. -/
theorem failed_reveal_leaves_ancestor_changed :
    (findElement worldNested.zen "zen-element-0").map (fun e => e.element) = some 3 ∧
    (worldNested.document.nodes 3).parent = some 2 ∧
    cssText worldNested.document 2 = [] ∧
    (applyRevealStrategies sampleBrowser 3 worldNested.document).1 = false ∧
    cssText (applyRevealStrategies sampleBrowser 3 worldNested.document).2 2 = [("opacity", "1")] ∧
    (revealElement sampleBrowser "zen-element-0" worldNested).1.success = false ∧
    cssText (revealElement sampleBrowser "zen-element-0" worldNested).2.document 2 =
      [("opacity", "1")] := by
  decide

theorem applyRevealStrategies_attempts (b : Browser) (element : Nat) (d : Document) :
    applyRevealStrategies b element d =
      attempt b element (revealWithCSS b element d) (fun d1 =>
        attempt b element
          (revealWithClasses element (rollback d1 element (cssText d element) (classList d element)))
          (fun d2 =>
            attempt b element
              (revealParentChain b element
                (rollback d2 element (cssText d element) (classList d element)))
              (fun d3 =>
                attempt b element
                  (revealWithEvents b element
                    (rollback d3 element (cssText d element) (classList d element)))
                  (fun d4 => (false, rollback d4 element (cssText d element) (classList d element)))))) :=
  rfl

theorem attempt_verified (b : Browser) (element : Nat) (s : Bool × Document)
    (next : Document → Bool × Document)
    (hnext : ∀ d, (next d).1 = true → isElementVisibleAfterReveal b (next d).2 element = true)
    (h : (attempt b element s next).1 = true) :
    isElementVisibleAfterReveal b (attempt b element s next).2 element = true := by
  unfold attempt at h ⊢
  by_cases hc : (s.1 && isElementVisibleAfterReveal b s.2 element) = true
  · rw [if_pos hc]
    simp only [Bool.and_eq_true] at hc
    exact hc.2
  · rw [if_neg hc] at h ⊢
    exact hnext s.2 h

theorem applyRevealStrategies_verified (b : Browser) (element : Nat) (d : Document)
    (h : (applyRevealStrategies b element d).1 = true) :
    isElementVisibleAfterReveal b (applyRevealStrategies b element d).2 element = true := by
  rw [applyRevealStrategies_attempts] at h ⊢
  refine attempt_verified b element _ _ (fun d1 h1 => ?_) h
  refine attempt_verified b element _ _ (fun d2 h2 => ?_) h1
  refine attempt_verified b element _ _ (fun d3 h3 => ?_) h2
  refine attempt_verified b element _ _ (fun d4 h4 => ?_) h3
  simp at h4

theorem attempt_failed (b : Browser) (element : Nat) (s : Bool × Document)
    (next : Document → Bool × Document) (P : Document → Prop)
    (hnext : ∀ d, (next d).1 = false → P (next d).2)
    (h : (attempt b element s next).1 = false) : P (attempt b element s next).2 := by
  unfold attempt at h ⊢
  by_cases hc : (s.1 && isElementVisibleAfterReveal b s.2 element) = true
  · rw [if_pos hc] at h
    simp at h
  · rw [if_neg hc] at h ⊢
    exact hnext s.2 h

/-- The part of the rollback that holds in every browser: when applyRevealStrategies
returns false, the target element has the inline style text it had before the call and
its class attribute is the class list it had, serialised. -/
theorem failed_reveal_restores_target (b : Browser) (element : Nat) (d : Document)
    (h : (applyRevealStrategies b element d).1 = false) :
    cssText (applyRevealStrategies b element d).2 element = cssText d element ∧
    ((applyRevealStrategies b element d).2.nodes element).className =
      joinTokens (classList d element) := by
  have hlast : ∀ d4 : Document,
      cssText (rollback d4 element (cssText d element) (classList d element)) element =
        cssText d element ∧
      ((rollback d4 element (cssText d element) (classList d element)).nodes element).className =
        joinTokens (classList d element) := by
    intro d4
    constructor
    · show ((rollback d4 element _ _).nodes element).style = _
      unfold rollback
      rw [setClassName_style]
      unfold setCssText
      rw [update_nodes]
      simp [cssText]
    · unfold rollback
      rw [setClassName_className]
  rw [applyRevealStrategies_attempts] at h ⊢
  exact attempt_failed b element _ _
    (fun doc => cssText doc element = cssText d element ∧
      (doc.nodes element).className = joinTokens (classList d element))
    (fun d1 h1 => attempt_failed b element _ _
      (fun doc => cssText doc element = cssText d element ∧
        (doc.nodes element).className = joinTokens (classList d element))
      (fun d2 h2 => attempt_failed b element _ _
        (fun doc => cssText doc element = cssText d element ∧
          (doc.nodes element).className = joinTokens (classList d element))
        (fun d3 h3 => attempt_failed b element _ _
          (fun doc => cssText doc element = cssText d element ∧
            (doc.nodes element).className = joinTokens (classList d element))
          (fun d4 _ => hlast d4) h3) h2) h1) h

/-- Claim C10 (as amended): whenever revealElement(id) returns success: true, the element
passed isElementVisibleAfterReveal on the document as applyRevealStrategies left it
(the returned document is that one with the badge, the marker class and the transition
added): its computed display is not none, its visibility is not hidden, its parsed
opacity is above 0 and its box has a positive width or a positive height. -/
theorem successful_reveal_was_verified (b : Browser) (w : World) (elementId : String)
    (hok : (revealElement b elementId w).1.success = true) :
    ∃ elementData, findElement w.zen elementId = some elementData ∧
      (applyRevealStrategies b elementData.element w.document).1 = true ∧
      isElementVisibleAfterReveal b (applyRevealStrategies b elementData.element w.document).2
        elementData.element = true ∧
      (b.getComputedStyle (applyRevealStrategies b elementData.element w.document).2
        elementData.element).display ≠ "none" ∧
      (b.getComputedStyle (applyRevealStrategies b elementData.element w.document).2
        elementData.element).visibility ≠ "hidden" ∧
      gtNum (b.parseFloat (b.getComputedStyle
        (applyRevealStrategies b elementData.element w.document).2
        elementData.element).opacity) 0 = true ∧
      (0 < (b.getBoundingClientRect (applyRevealStrategies b elementData.element w.document).2
          elementData.element).width ∨
        0 < (b.getBoundingClientRect (applyRevealStrategies b elementData.element w.document).2
          elementData.element).height) ∧
      (revealElement b elementId w).2.document =
        setStyle (addRevealIndicator elementData.element elementId
          (applyRevealStrategies b elementData.element w.document).2)
          elementData.element "transition" "all 0.3s ease-in-out" := by
  obtain ⟨elementData, hf⟩ := revealElement_found b w elementId hok
  refine ⟨elementData, hf, ?_⟩
  unfold revealElement at hok ⊢
  rw [hf] at hok ⊢
  simp only at hok ⊢
  have hdoc : (saveOriginalState b elementId elementData.element w).document = w.document := rfl
  rw [hdoc] at hok ⊢
  by_cases hr : (applyRevealStrategies b elementData.element w.document).1 = true
  · have hv := applyRevealStrategies_verified b elementData.element w.document hr
    have hv2 := hv
    unfold isElementVisibleAfterReveal at hv2
    simp only [Bool.and_eq_true, Bool.or_eq_true, decide_eq_true_eq] at hv2
    rw [if_pos hr]
    exact ⟨hr, hv, hv2.1.1.1, hv2.1.1.2, hv2.1.2, hv2.2, rfl⟩
  · rw [if_neg hr] at hok
    simp at hok

/-- Witness for C10: the banner page. -/
theorem successful_reveal_was_verified_witness :
    (revealElement sampleBrowser "zen-element-0" worldBanner).1.success = true ∧
    ∃ elementData, findElement worldBanner.zen "zen-element-0" = some elementData ∧
      (applyRevealStrategies sampleBrowser elementData.element worldBanner.document).1 = true ∧
      isElementVisibleAfterReveal sampleBrowser
        (applyRevealStrategies sampleBrowser elementData.element worldBanner.document).2
        elementData.element = true ∧
      (sampleBrowser.getComputedStyle
        (applyRevealStrategies sampleBrowser elementData.element worldBanner.document).2
        elementData.element).display ≠ "none" ∧
      (sampleBrowser.getComputedStyle
        (applyRevealStrategies sampleBrowser elementData.element worldBanner.document).2
        elementData.element).visibility ≠ "hidden" ∧
      gtNum (sampleBrowser.parseFloat (sampleBrowser.getComputedStyle
        (applyRevealStrategies sampleBrowser elementData.element worldBanner.document).2
        elementData.element).opacity) 0 = true ∧
      (0 < (sampleBrowser.getBoundingClientRect
          (applyRevealStrategies sampleBrowser elementData.element worldBanner.document).2
          elementData.element).width ∨
        0 < (sampleBrowser.getBoundingClientRect
          (applyRevealStrategies sampleBrowser elementData.element worldBanner.document).2
          elementData.element).height) ∧
      (revealElement sampleBrowser "zen-element-0" worldBanner).2.document =
        setStyle (addRevealIndicator elementData.element "zen-element-0"
          (applyRevealStrategies sampleBrowser elementData.element worldBanner.document).2)
          elementData.element "transition" "all 0.3s ease-in-out" :=
  ⟨by decide, successful_reveal_was_verified sampleBrowser worldBanner "zen-element-0" (by decide)⟩

/-- Counterexample to C10 as stated: the banner of the shifted page is revealed with
success: true, and on the document revealElement returns, as on the one the strategies
verified, isElementHidden is still true of it: its box lies left of the window. -/
theorem revealed_element_still_hidden :
    (findElement worldOffscreen.zen "zen-element-0").map (fun e => e.element) = some 2 ∧
    (revealElement sampleBrowser "zen-element-0" worldOffscreen).1.success = true ∧
    isElementHidden sampleBrowser
      (revealElement sampleBrowser "zen-element-0" worldOffscreen).2.document 2 = true ∧
    isElementHidden sampleBrowser
      (applyRevealStrategies sampleBrowser 2 worldOffscreen.document).2 2 = true := by
  decide

/-! ## The revealed set along a call history -/

theorem mapHas_map_set {α : Type} (m : List (String × α)) (k j : String) (v : α) :
    mapHas (m.map (fun kv => if kv.1 = k then (kv.1, v) else kv)) j = mapHas m j := by
  induction m with
  | nil => rfl
  | cons kv rest ih =>
    obtain ⟨i, u⟩ := kv
    rw [List.map_cons, mapHas_cons]
    by_cases hi : i = k
    · have h1 : (if (i, u).1 = k then ((i, u).1, v) else (i, u)) = (i, v) := by simp [hi]
      rw [h1, mapHas_cons, ih]
    · have h1 : (if (i, u).1 = k then ((i, u).1, v) else (i, u)) = (i, u) := by simp [hi]
      rw [h1, mapHas_cons, ih]

theorem mapHas_append_one {α : Type} (m : List (String × α)) (k j : String) (v : α) :
    mapHas (m ++ [(k, v)]) j = (mapHas m j || k == j) := by
  simp [mapHas]

theorem mapHas_mapSet {α : Type} (m : List (String × α)) (k j : String) (v : α) :
    mapHas (mapSet m k v) j = (k == j || mapHas m j) := by
  unfold mapSet
  by_cases h : mapHas m k = true
  · rw [if_pos h, mapHas_map_set]
    by_cases hkj : k = j
    · subst hkj; simp [h]
    · simp [hkj]
  · rw [if_neg h, mapHas_append_one, Bool.or_comm]

theorem mapHas_mapDelete_self {α : Type} (m : List (String × α)) (k : String) :
    mapHas (mapDelete m k) k = false := by
  cases h : mapHas (mapDelete m k) k with
  | false => rfl
  | true =>
    obtain ⟨v, hv⟩ := mapGet_of_mapHas _ _ h
    rw [mapGet_mapDelete_self] at hv
    cases hv

theorem categorizeElements_revealed (b : Browser) (d : Document) (elements : List Nat) :
    ∀ z : ZenElementRevealer,
      (categorizeElements b d elements z).2.revealedElements = z.revealedElements ∧
      (categorizeElements b d elements z).2.originalStates = z.originalStates := by
  induction elements with
  | nil => intro z; exact ⟨rfl, rfl⟩
  | cons element rest ih =>
    intro z
    unfold categorizeElements
    simp only
    exact ih _

theorem discover_revealed (b : Browser) (w : World) :
    (discoverHiddenElements b w).2.zen.revealedElements = w.zen.revealedElements := by
  unfold discoverHiddenElements
  simp only
  rw [(categorizeElements_revealed b w.document _ _).1]

theorem revealElement_member (b : Browser) (w : World) (j elementId : String) :
    mapHas (revealElement b j w).2.zen.revealedElements elementId =
      if j = elementId ∧ (revealElement b j w).1.success = true then true
      else mapHas w.zen.revealedElements elementId := by
  unfold revealElement
  cases hf : findElement w.zen j with
  | none => simp
  | some elementData =>
    simp only
    by_cases hr : (applyRevealStrategies b elementData.element
        (saveOriginalState b j elementData.element w).document).1 = true
    · rw [if_pos hr]
      simp only [mapHas_mapSet]
      by_cases hj : j = elementId
      · simp [hj]
      · simp [hj, saveOriginalState]
    · rw [if_neg hr]
      simp [saveOriginalState]

theorem restoreElement_member (w : World) (j elementId : String) :
    mapHas (restoreElement j w).2.zen.revealedElements elementId =
      if j = elementId ∧ (restoreElement j w).1.success = true then false
      else mapHas w.zen.revealedElements elementId := by
  unfold restoreElement
  cases hs : mapGet w.zen.originalStates j with
  | none => simp
  | some originalState =>
    cases hf : findElement w.zen j with
    | none => simp
    | some elementData =>
      simp only
      by_cases hj : j = elementId
      · subst hj
        simp [mapHas_mapDelete_self]
      · have hne : elementId ≠ j := fun e => hj e.symm
        simp [hj, mapHas_mapDelete_ne _ _ _ hne]

theorem specMember_append (elementId : String) (l1 l2 : List Call) :
    ∀ m, specMember elementId m (l1 ++ l2) =
      specMember elementId (specMember elementId m l1) l2 := by
  induction l1 with
  | nil => intro m; rfl
  | cons c rest ih =>
    intro m
    cases c with
    | revealElement j ok => simp only [List.cons_append, specMember]; exact ih _
    | restoreElement j ok => simp only [List.cons_append, specMember]; exact ih _
    | restoreAll => simp only [List.cons_append, specMember]; exact ih _

theorem revealLoop_member (b : Browser) (elementId : String) (elements : List ElementData) :
    ∀ (acc : List RevealResult) (w : World),
      mapHas (revealLoop b elements (acc, w)).2.zen.revealedElements elementId =
        specMember elementId (mapHas w.zen.revealedElements elementId)
          (revealAllCalls b elements w) := by
  induction elements with
  | nil => intro acc w; rfl
  | cons elementData rest ih =>
    intro acc w
    show mapHas (revealLoop b rest (acc ++ [(revealElement b elementData.id w).1],
      (revealElement b elementData.id w).2)).2.zen.revealedElements elementId = _
    rw [ih]
    simp only [revealAllCalls, specMember]
    rw [revealElement_member]

theorem step_member (b : Browser) (w : World) (op : Op) (elementId : String) :
    mapHas (step b w op).zen.revealedElements elementId =
      specMember elementId (mapHas w.zen.revealedElements elementId) (callsOf b w op) := by
  cases op with
  | discover => simp only [step, callsOf, specMember]; rw [discover_revealed]
  | reveal j => simp only [step, callsOf, specMember]; rw [revealElement_member]
  | restore j => simp only [step, callsOf, specMember]; rw [restoreElement_member]
  | revealAll =>
    simp only [step, callsOf, revealAll]
    exact revealLoop_member b elementId _ [] w
  | restoreAll => simp [step, callsOf, specMember, restoreAll, mapHas]
  | page change => simp only [step, callsOf, specMember]

theorem run_member (b : Browser) (elementId : String) (ops : List Op) :
    ∀ w : World,
      mapHas (run b ops w).zen.revealedElements elementId =
        specMember elementId (mapHas w.zen.revealedElements elementId) (history b ops w) := by
  induction ops with
  | nil => intro w; rfl
  | cons op rest ih =>
    intro w
    show mapHas (run b rest (step b w op)).zen.revealedElements elementId = _
    rw [ih, step_member]
    simp only [history]
    rw [specMember_append]

theorem split_at_cons {α : Type} (c v : α) (rest : List α) (P : List α → Prop) :
    (∃ pre post, c :: rest = pre ++ v :: post ∧ P post) ↔
      (c = v ∧ P rest) ∨ ∃ pre post, rest = pre ++ v :: post ∧ P post := by
  constructor
  · rintro ⟨pre, post, h, hP⟩
    cases pre with
    | nil =>
      simp only [List.nil_append, List.cons.injEq] at h
      left
      exact ⟨h.1, by rw [h.2]; exact hP⟩
    | cons q pre2 =>
      simp only [List.cons_append, List.cons.injEq] at h
      right
      exact ⟨pre2, post, h.2, hP⟩
  · rintro (⟨hc, hP⟩ | ⟨pre, post, h, hP⟩)
    · exact ⟨[], rest, by rw [hc]; rfl, hP⟩
    · exact ⟨c :: pre, post, by rw [h]; rfl, hP⟩

/-- The fold specMember says what the words say: the id is a member after a history
exactly when it was a member before and no restore took it out, or the history holds a
successful revealElement on it with no successful restoreElement on it and no restoreAll
later on. -/
theorem specMember_iff (elementId : String) (calls : List Call) :
    ∀ m : Bool, specMember elementId m calls = true ↔
      (m = true ∧ Call.restoreElement elementId true ∉ calls ∧ Call.restoreAll ∉ calls) ∨
      ∃ pre post, calls = pre ++ Call.revealElement elementId true :: post ∧
        (Call.restoreElement elementId true ∉ post ∧ Call.restoreAll ∉ post) := by
  induction calls with
  | nil =>
    intro m
    simp [specMember]
  | cons c rest ih =>
    intro m
    rw [split_at_cons c (Call.revealElement elementId true) rest
      (fun post => Call.restoreElement elementId true ∉ post ∧ Call.restoreAll ∉ post)]
    cases c with
    | revealElement j ok =>
      simp only [specMember]
      rw [ih]
      by_cases hc : j = elementId ∧ ok = true
      · obtain ⟨hj, hok⟩ := hc
        subst hj; subst hok
        simp only [and_self, if_true, true_and, List.mem_cons, reduceCtorEq, false_or]
        tauto
      · have hne : ¬ Call.revealElement j ok = Call.revealElement elementId true := by
          intro e
          simp only [Call.revealElement.injEq] at e
          exact hc e
        simp only [hc, if_false, List.mem_cons, reduceCtorEq, false_or, hne, false_and]
    | restoreElement j ok =>
      simp only [specMember]
      rw [ih]
      by_cases hc : j = elementId ∧ ok = true
      · obtain ⟨hj, hok⟩ := hc
        subst hj; subst hok
        simp
      · have hne : ¬ Call.restoreElement elementId true = Call.restoreElement j ok := by
          intro e
          simp only [Call.restoreElement.injEq] at e
          exact hc ⟨e.1.symm, e.2.symm⟩
        simp only [hc, if_false, List.mem_cons, reduceCtorEq, false_or, hne, false_and]
    | restoreAll =>
      simp only [specMember]
      rw [ih]
      simp

/-- Claim C8 (as amended): in every state reached from a fresh engine by any sequence of
discover, reveal, restore, revealAll and restoreAll calls (and changes the page makes in
between), an id is in the revealed set if and only if some revealElement(id) succeeded
and since then no restoreElement(id) has returned success: true and no restoreAll has
run. -/
theorem revealed_set_membership (b : Browser) (d : Document) (ops : List Op)
    (elementId : String) :
    mapHas (run b ops (freshWorld d)).zen.revealedElements elementId = true ↔
      ∃ pre post,
        history b ops (freshWorld d) = pre ++ Call.revealElement elementId true :: post ∧
        (Call.restoreElement elementId true ∉ post ∧ Call.restoreAll ∉ post) := by
  rw [run_member, specMember_iff]
  simp [freshWorld, ZenElementRevealer.new, mapHas]

/-- Counterexample to C8 as stated: on the page with two banners, scan, reveal
zen-element-1, scan again (one element is left, so the id is no longer in the
generation) and call restoreElement on zen-element-1.  The history is the successful
reveal followed by that restore, which fails with Element not found; the id is still in
the revealed set although a restore has run for it since the reveal. -/
theorem failed_restore_keeps_member :
    history sampleBrowser
        [Op.discover, Op.reveal "zen-element-1", Op.discover, Op.restore "zen-element-1"]
        (freshWorld pageTwo) =
      [Call.revealElement "zen-element-1" true, Call.restoreElement "zen-element-1" false] ∧
    (restoreElement "zen-element-1"
      (run sampleBrowser [Op.discover, Op.reveal "zen-element-1", Op.discover]
        (freshWorld pageTwo))).1 = { success := false, error := some "Element not found" } ∧
    mapHas (run sampleBrowser
        [Op.discover, Op.reveal "zen-element-1", Op.discover, Op.restore "zen-element-1"]
        (freshWorld pageTwo)).zen.revealedElements "zen-element-1" = true ∧
    ¬ ∃ pre post,
        history sampleBrowser
          [Op.discover, Op.reveal "zen-element-1", Op.discover, Op.restore "zen-element-1"]
          (freshWorld pageTwo) = pre ++ Call.revealElement "zen-element-1" true :: post ∧
        ((∀ ok, Call.restoreElement "zen-element-1" ok ∉ post) ∧ Call.restoreAll ∉ post) := by
  have hh : history sampleBrowser
        [Op.discover, Op.reveal "zen-element-1", Op.discover, Op.restore "zen-element-1"]
        (freshWorld pageTwo) =
      [Call.revealElement "zen-element-1" true, Call.restoreElement "zen-element-1" false] := by
    decide
  refine ⟨hh, by decide, by decide, ?_⟩
  rw [hh]
  rintro ⟨pre, post, h, hno, _⟩
  cases pre with
  | nil =>
    simp only [List.nil_append, List.cons.injEq, true_and] at h
    exact hno false (by rw [← h]; exact List.mem_singleton.mpr rfl)
  | cons q pre2 =>
    simp only [List.cons_append, List.cons.injEq] at h
    cases pre2 with
    | nil =>
      simp only [List.nil_append, List.cons.injEq, reduceCtorEq, false_and, and_false] at h
    | cons q2 pre3 =>
      simp at h

/-! ## What a scan returns -/

theorem categorizeElements_nodes (b : Browser) (d : Document) (elements : List Nat) :
    ∀ z : ZenElementRevealer,
      (categorizeElements b d elements z).1.map (fun e => e.element) = elements := by
  induction elements with
  | nil => intro z; rfl
  | cons element rest ih =>
    intro z
    unfold categorizeElements
    simp only [List.map_cons]
    rw [ih]

theorem categorizeElements_ids (b : Browser) (d : Document) (elements : List Nat) :
    ∀ z : ZenElementRevealer,
      (categorizeElements b d elements z).1.map (fun e => e.id) =
        (List.range' z.elementIdCounter elements.length).map zenId := by
  induction elements with
  | nil => intro z; rfl
  | cons element rest ih =>
    intro z
    unfold categorizeElements
    simp only [List.map_cons, List.length_cons, List.range'_succ]
    rw [ih]
    rfl

theorem categorizeElements_discovered (b : Browser) (d : Document) (elements : List Nat) :
    ∀ z : ZenElementRevealer,
      (categorizeElements b d elements z).2.discoveredElements =
        z.discoveredElements ++ (categorizeElements b d elements z).1 := by
  induction elements with
  | nil => intro z; simp [categorizeElements]
  | cons element rest ih =>
    intro z
    unfold categorizeElements
    simp only
    rw [ih]
    simp

theorem categorizeElements_counter (b : Browser) (d : Document) (elements : List Nat) :
    ∀ z z2 : ZenElementRevealer, z.elementIdCounter = z2.elementIdCounter →
      (categorizeElements b d elements z).1 = (categorizeElements b d elements z2).1 := by
  induction elements with
  | nil => intro z z2 _; rfl
  | cons element rest ih =>
    intro z z2 h
    unfold categorizeElements
    simp only
    rw [h]
    congr 1
    exact ih _ _ rfl

theorem discover_nodes (b : Browser) (w : World) :
    (discoverHiddenElements b w).1.elements.map (fun e => e.element) =
      filterMeaningfulElements b w.document (findHiddenElements b w.document) := by
  unfold discoverHiddenElements
  simp only
  rw [categorizeElements_nodes]

theorem mem_findHiddenElements (b : Browser) (d : Document) (element : Nat) :
    element ∈ findHiddenElements b d ↔
      element ∈ allElements d ∧ isElementHidden b d element = true ∧
        isElementMeaningful b d element = true := by
  unfold findHiddenElements
  simp [List.mem_filter]

/-- Ancestor dedup where the size filter lets it work: in every document in which a
container C and an element E inside it both pass isElementHidden and isElementMeaningful,
and no hidden meaningful element contains C, the box of C is at least 10 wide or at
least 10 high, and C has text or a child element, the scan reports C and not E. -/
theorem ancestor_wins (b : Browser) (w : World) (C E : Nat)
    (hC : C ∈ allElements w.document)
    (hne : C ≠ E) (hin : contains w.document C E = true)
    (hCh : isElementHidden b w.document C = true)
    (hCm : isElementMeaningful b w.document C = true)
    (hsize : 10 ≤ (b.getBoundingClientRect w.document C).width ∨
      10 ≤ (b.getBoundingClientRect w.document C).height)
    (hcontent : (trim (textContent w.document C)).length ≠ 0 ∨
      (childElements (w.document.nodes C).children).length ≠ 0)
    (htop : ∀ A ∈ allElements w.document, A ≠ C → contains w.document A C = true →
      ¬ (isElementHidden b w.document A = true ∧ isElementMeaningful b w.document A = true)) :
    C ∈ (discoverHiddenElements b w).1.elements.map (fun e => e.element) ∧
    E ∉ (discoverHiddenElements b w).1.elements.map (fun e => e.element) := by
  have hCin : C ∈ findHiddenElements b w.document :=
    (mem_findHiddenElements b w.document C).mpr ⟨hC, hCh, hCm⟩
  rw [discover_nodes]
  unfold filterMeaningfulElements
  constructor
  · rw [List.mem_filter]
    refine ⟨hCin, ?_⟩
    have h1 : ¬ ((b.getBoundingClientRect w.document C).width < 10 ∧
        (b.getBoundingClientRect w.document C).height < 10) := by
      rintro ⟨hw, hh⟩
      rcases hsize with h | h
      · exact absurd hw (not_lt.mpr h)
      · exact absurd hh (not_lt.mpr h)
    have h2 : ¬ ((trim (textContent w.document C)).length = 0 ∧
        (childElements (w.document.nodes C).children).length = 0) := by
      rintro ⟨ht, hk⟩
      rcases hcontent with h | h
      · exact h ht
      · exact h hk
    have h3 : ¬ ((findHiddenElements b w.document).any
        (fun other => other != C && contains w.document other C) = true) := by
      rw [List.any_eq_true]
      rintro ⟨A, hA, hAc⟩
      simp only [Bool.and_eq_true, bne_iff_ne, ne_eq] at hAc
      obtain ⟨hAall, hAh, hAm⟩ := (mem_findHiddenElements b w.document A).mp hA
      exact htop A hAall hAc.1 hAc.2 ⟨hAh, hAm⟩
    simp only [h1, h2, h3, if_false]
    simp
  · rw [List.mem_filter]
    rintro ⟨_, hE⟩
    have h3 : (findHiddenElements b w.document).any
        (fun other => other != E && contains w.document other E) = true := by
      rw [List.any_eq_true]
      exact ⟨C, hCin, by simp [hne, hin]⟩
    simp only [h3, if_true] at hE
    split at hE
    · simp at hE
    · split at hE <;> simp at hE

/-- The transparent container of the sample page and the transparent element inside it:
the container is reported, the element is not. -/
theorem ancestor_wins_witness :
    isElementHidden sampleBrowser pageDedup 3 = true ∧
    isElementMeaningful sampleBrowser pageDedup 3 = true ∧
    2 ∈ (discoverHiddenElements sampleBrowser (freshWorld pageDedup)).1.elements.map
      (fun e => e.element) ∧
    3 ∉ (discoverHiddenElements sampleBrowser (freshWorld pageDedup)).1.elements.map
      (fun e => e.element) :=
  ⟨by decide, by decide,
   ancestor_wins sampleBrowser (freshWorld pageDedup) 2 3 (by decide) (by decide) (by decide)
     (by decide) (by decide) (by decide) (by decide) (by decide)⟩

/-- Claim C11 fails on the code: the container (node 2) has display none, so its box is
0 by 0; it and the block inside it (node 3) are hidden and meaningful, since they hold a
button (isElementMeaningful skips very small elements unless they have interactive
content), and nothing hidden and meaningful contains the container; yet
filterMeaningfulElements drops every element under 10 by 10, interactive content or not,
and the scan reports neither the container nor the block. -/
theorem collapsed_container_not_reported :
    2 ∈ allElements pageCollapsed ∧ 3 ∈ allElements pageCollapsed ∧
    contains pageCollapsed 2 3 = true ∧
    isElementHidden sampleBrowser pageCollapsed 2 = true ∧
    isElementMeaningful sampleBrowser pageCollapsed 2 = true ∧
    isElementHidden sampleBrowser pageCollapsed 3 = true ∧
    isElementMeaningful sampleBrowser pageCollapsed 3 = true ∧
    (∀ A ∈ allElements pageCollapsed, A ≠ 2 → contains pageCollapsed A 2 = true →
      ¬ (isElementHidden sampleBrowser pageCollapsed A = true ∧
        isElementMeaningful sampleBrowser pageCollapsed A = true)) ∧
    (discoverHiddenElements sampleBrowser (freshWorld pageCollapsed)).1.elements.map
      (fun e => e.element) = [] := by
  decide

/-! ## Failure cases of reveal and restore -/

theorem findElement_none (z : ZenElementRevealer) (elementId : String)
    (h : ∀ e ∈ z.discoveredElements, e.id ≠ elementId) : findElement z elementId = none := by
  unfold findElement
  rw [List.find?_eq_none]
  intro e he
  simpa using h e he

theorem mapGet_none_of_mapHas {α : Type} (m : List (String × α)) (k : String)
    (h : mapHas m k = false) : mapGet m k = none := by
  cases hg : mapGet m k with
  | none => rfl
  | some v =>
    rw [mapHas_of_mapGet m k v hg] at h
    cases h

/-- Claim C12: for every id that is not the id of an element of the current generation,
revealElement(id) returns success: false with the error Element not found and returns the
world as it was: snapshot map, revealed set and every element unchanged. -/
theorem reveal_unknown_id (b : Browser) (w : World) (elementId : String)
    (h : ∀ e ∈ w.zen.discoveredElements, e.id ≠ elementId) :
    revealElement b elementId w =
      ({ success := false, error := some "Element not found", element := none }, w) := by
  unfold revealElement
  rw [findElement_none w.zen elementId h]

/-- Witness for C12: an id beyond the generation of the banner page. -/
theorem reveal_unknown_id_witness :
    (∀ e ∈ worldBanner.zen.discoveredElements, e.id ≠ "zen-element-7") ∧
    revealElement sampleBrowser "zen-element-7" worldBanner =
      ({ success := false, error := some "Element not found", element := none }, worldBanner) :=
  ⟨by decide, reveal_unknown_id sampleBrowser worldBanner "zen-element-7" (by decide)⟩

/-- Claim C13: restoreElement(id) returns the error No original state saved when no
snapshot exists for the id, and otherwise the error Element not found when the id is not
in the current generation; in both cases success is false and the world is returned as
it was: snapshot map, revealed set and every element unchanged. -/
theorem restore_failure_cases (w : World) (elementId : String)
    (h : mapHas w.zen.originalStates elementId = false ∨
      ∀ e ∈ w.zen.discoveredElements, e.id ≠ elementId) :
    restoreElement elementId w =
      ({ success := false,
         error := some (if mapHas w.zen.originalStates elementId = false
           then "No original state saved" else "Element not found") }, w) := by
  unfold restoreElement
  cases hs : mapHas w.zen.originalStates elementId with
  | false => rw [mapGet_none_of_mapHas _ _ hs]; rfl
  | true =>
    obtain ⟨originalState, hg⟩ := mapGet_of_mapHas _ _ hs
    rw [hg]
    rcases h with h | h
    · rw [hs] at h; cases h
    · simp only
      rw [findElement_none w.zen elementId h]
      rfl

/-- Witness for C13: an id without snapshot on the banner page, and the id zen-element-1
that has a snapshot and left the generation with the second scan of the two-banner page. -/
theorem restore_failure_cases_witness :
    (mapHas worldBanner.zen.originalStates "zen-element-0" = false ∧
      restoreElement "zen-element-0" worldBanner =
        ({ success := false, error := some "No original state saved" }, worldBanner)) ∧
    (mapHas worldStale.zen.originalStates "zen-element-1" = true ∧
      (∀ e ∈ worldStale.zen.discoveredElements, e.id ≠ "zen-element-1") ∧
      restoreElement "zen-element-1" worldStale =
        ({ success := false, error := some "Element not found" }, worldStale)) :=
  ⟨⟨by decide, restore_failure_cases worldBanner "zen-element-0" (Or.inl (by decide))⟩,
   ⟨by decide, by decide, restore_failure_cases worldStale "zen-element-1" (Or.inr (by decide))⟩⟩

/-! ## The summaries of restoreAll and revealAll -/

theorem restoreElement_result (w : World) (elementId : String) :
    (restoreElement elementId w).1 =
      if mapHas w.zen.originalStates elementId = false then
        { success := false, error := some "No original state saved" }
      else if (findElement w.zen elementId).isSome = true then { success := true, error := none }
      else { success := false, error := some "Element not found" } := by
  unfold restoreElement
  cases hs : mapHas w.zen.originalStates elementId with
  | false => rw [mapGet_none_of_mapHas _ _ hs]; rfl
  | true =>
    obtain ⟨originalState, hg⟩ := mapGet_of_mapHas _ _ hs
    rw [hg]
    cases hf : findElement w.zen elementId with
    | none => rfl
    | some elementData => rfl

theorem restoreElement_success (w : World) (elementId : String) :
    (restoreElement elementId w).1.success = restorable w elementId := by
  rw [restoreElement_result]
  unfold restorable
  cases hs : mapHas w.zen.originalStates elementId <;>
    cases hf : (findElement w.zen elementId).isSome <;> simp

theorem restoreElement_discovered (w : World) (elementId : String) :
    (restoreElement elementId w).2.zen.discoveredElements = w.zen.discoveredElements := by
  unfold restoreElement
  cases mapGet w.zen.originalStates elementId with
  | none => rfl
  | some originalState =>
    cases findElement w.zen elementId with
    | none => rfl
    | some elementData => rfl

theorem restoreElement_keeps_other (w : World) (j k : String) (h : k ≠ j) :
    mapHas (restoreElement j w).2.zen.originalStates k = mapHas w.zen.originalStates k := by
  unfold restoreElement
  cases mapGet w.zen.originalStates j with
  | none => rfl
  | some originalState =>
    cases findElement w.zen j with
    | none => rfl
    | some elementData => exact mapHas_mapDelete_ne _ _ _ h

theorem restoreElement_result_congr (w w0 : World) (elementId : String)
    (h1 : mapHas w.zen.originalStates elementId = mapHas w0.zen.originalStates elementId)
    (h2 : w.zen.discoveredElements = w0.zen.discoveredElements) :
    (restoreElement elementId w).1 = (restoreElement elementId w0).1 := by
  rw [restoreElement_result, restoreElement_result, h1, findElement_congr w0.zen w.zen elementId h2]

theorem restoreLoop_results (keys : List String) :
    ∀ (acc : List RestoreResult) (w0 w : World), keys.Nodup →
      (∀ k ∈ keys, mapHas w.zen.originalStates k = mapHas w0.zen.originalStates k) →
      w.zen.discoveredElements = w0.zen.discoveredElements →
      (restoreLoop keys (acc, w)).1 = acc ++ keys.map (fun k => (restoreElement k w0).1) := by
  induction keys with
  | nil => intro acc w0 w _ _ _; simp [restoreLoop]
  | cons k rest ih =>
    intro acc w0 w hnd hs hd
    have hnd2 := List.nodup_cons.mp hnd
    show (restoreLoop rest (acc ++ [(restoreElement k w).1], (restoreElement k w).2)).1 = _
    rw [ih _ w0 _ hnd2.2]
    · rw [restoreElement_result_congr w w0 k (hs k (List.mem_cons_self k rest)) hd]
      simp
    · intro j hj
      have hjk : j ≠ k := fun e => hnd2.1 (e ▸ hj)
      rw [restoreElement_keeps_other w k j hjk]
      exact hs j (List.mem_cons_of_mem k hj)
    · rw [restoreElement_discovered]
      exact hd

theorem length_filter_not {α : Type} (p : α → Bool) (l : List α) :
    (l.filter (fun x => !p x)).length = l.length - (l.filter p).length := by
  induction l with
  | nil => rfl
  | cons a rest ih =>
    have hle : (rest.filter p).length ≤ rest.length := List.length_filter_le p rest
    cases hp : p a with
    | true =>
      rw [List.filter_cons_of_neg (by simp [hp]), List.filter_cons_of_pos (by simp [hp]), ih]
      simp
    | false =>
      rw [List.filter_cons_of_pos (by simp [hp]), List.filter_cons_of_neg (by simp [hp])]
      simp only [List.length_cons]
      omega

/-- Claim C14: restoreAll returns total equal to the number of ids in the revealed set
before the call, restored equal to the number of those ids whose restoreElement
succeeds, failed equal to total minus restored, and the revealed set is empty
afterwards, whether or not a restore failed.  The ids of a Map are distinct. -/
theorem restoreAll_summary (w : World) (hnd : (mapKeys w.zen.revealedElements).Nodup) :
    (restoreAll w).1.total = (mapKeys w.zen.revealedElements).length ∧
    (restoreAll w).1.restored =
      ((mapKeys w.zen.revealedElements).filter
        (fun k => (restoreElement k w).1.success)).length ∧
    (restoreAll w).1.failed = (restoreAll w).1.total - (restoreAll w).1.restored ∧
    (restoreAll w).2.zen.revealedElements = [] := by
  have hloop := restoreLoop_results (mapKeys w.zen.revealedElements) [] w w hnd
    (fun _ _ => rfl) rfl
  simp only [List.nil_append] at hloop
  refine ⟨?_, ?_, ?_, rfl⟩
  · show (restoreLoop (mapKeys w.zen.revealedElements) ([], w)).1.length = _
    rw [hloop, List.length_map]
  · show ((restoreLoop (mapKeys w.zen.revealedElements) ([], w)).1.filter
      (fun x => x.success)).length = _
    rw [hloop, List.filter_map, List.length_map]
    rfl
  · exact length_filter_not (fun x : RestoreResult => x.success) _

/-- Witness for C14: the three revealed banners, one of them detached. -/
theorem restoreAll_summary_witness :
    (mapKeys worldThreeRemoved.zen.revealedElements).Nodup ∧
    (restoreAll worldThreeRemoved).1.total =
      (mapKeys worldThreeRemoved.zen.revealedElements).length ∧
    (restoreAll worldThreeRemoved).1.restored =
      ((mapKeys worldThreeRemoved.zen.revealedElements).filter
        (fun k => (restoreElement k worldThreeRemoved).1.success)).length ∧
    (restoreAll worldThreeRemoved).1.failed =
      (restoreAll worldThreeRemoved).1.total - (restoreAll worldThreeRemoved).1.restored ∧
    (restoreAll worldThreeRemoved).2.zen.revealedElements = [] :=
  ⟨by decide, restoreAll_summary worldThreeRemoved (by decide)⟩

theorem revealLoop_acc (b : Browser) (elements : List ElementData) :
    ∀ (acc : List RevealResult) (w : World),
      revealLoop b elements (acc, w) =
        (acc ++ (revealLoop b elements ([], w)).1, (revealLoop b elements ([], w)).2) := by
  induction elements with
  | nil => intro acc w; simp [revealLoop]
  | cons elementData rest ih =>
    intro acc w
    show revealLoop b rest (acc ++ [(revealElement b elementData.id w).1],
        (revealElement b elementData.id w).2) =
      (acc ++ (revealLoop b rest ([] ++ [(revealElement b elementData.id w).1],
          (revealElement b elementData.id w).2)).1,
        (revealLoop b rest ([] ++ [(revealElement b elementData.id w).1],
          (revealElement b elementData.id w).2)).2)
    rw [ih (acc ++ [(revealElement b elementData.id w).1]),
      ih ([] ++ [(revealElement b elementData.id w).1])]
    simp

theorem revealLoop_cons (b : Browser) (elementData : ElementData) (rest : List ElementData)
    (w : World) :
    (revealLoop b (elementData :: rest) ([], w)).1 =
      (revealElement b elementData.id w).1 ::
        (revealLoop b rest ([], (revealElement b elementData.id w).2)).1 := by
  show (revealLoop b rest ([] ++ [(revealElement b elementData.id w).1],
    (revealElement b elementData.id w).2)).1 = _
  rw [revealLoop_acc]
  rfl

theorem revealLoop_length (b : Browser) (elements : List ElementData) :
    ∀ w : World, (revealLoop b elements ([], w)).1.length = elements.length := by
  induction elements with
  | nil => intro w; rfl
  | cons elementData rest ih => intro w; rw [revealLoop_cons, List.length_cons, ih, List.length_cons]

theorem revealAllCalls_eq (b : Browser) (elements : List ElementData) :
    ∀ w : World,
      revealAllCalls b elements w =
        List.zipWith Call.revealElement (elements.map (fun e => e.id))
          ((revealLoop b elements ([], w)).1.map (fun r => r.success)) := by
  induction elements with
  | nil => intro w; rfl
  | cons elementData rest ih =>
    intro w
    rw [revealLoop_cons]
    simp only [revealAllCalls, List.map_cons, List.zipWith_cons_cons]
    rw [ih]

theorem count_true_map {α : Type} (p : α → Bool) (l : List α) :
    (l.map p).count true = (l.filter p).length := by
  induction l with
  | nil => rfl
  | cons a rest ih =>
    cases hp : p a with
    | true => rw [List.map_cons, hp, List.count_cons_self, ih, List.filter_cons_of_pos hp]; rfl
    | false =>
      rw [List.map_cons, hp, List.count_cons_of_ne (by decide), ih,
        List.filter_cons_of_neg (by simp [hp])]

/-- Claim C15: revealAll calls revealElement once for every element of the current
generation, in generation order, each call on the world the previous one left; with n
the number of elements there are n calls whatever their outcomes (a failing call does not
stop the loop), and revealAll returns total equal to n, successful equal to the number of
calls that returned success: true, and failed equal to n minus successful. -/
theorem revealAll_summary (b : Browser) (w : World) :
    ∃ outcomes : List Bool,
      outcomes.length = w.zen.discoveredElements.length ∧
      revealAllCalls b w.zen.discoveredElements w =
        List.zipWith Call.revealElement (w.zen.discoveredElements.map (fun e => e.id)) outcomes ∧
      (revealAll b w).1 =
        { total := w.zen.discoveredElements.length,
          successful := outcomes.count true,
          failed := w.zen.discoveredElements.length - outcomes.count true } := by
  refine ⟨(revealLoop b w.zen.discoveredElements ([], w)).1.map (fun r => r.success), ?_, ?_, ?_⟩
  · rw [List.length_map, revealLoop_length]
  · exact revealAllCalls_eq b _ w
  · unfold revealAll
    simp only
    rw [count_true_map, length_filter_not (fun x : RevealResult => x.success), revealLoop_length]

/-- The scenario of C15 on the sample page with five banners of which the second and the
fourth cannot be revealed: five calls in generation order, and the summary 5, 3, 2. -/
theorem revealAll_five_two_failing :
    revealAllCalls sampleBrowser worldFive.zen.discoveredElements worldFive =
      [Call.revealElement "zen-element-0" true, Call.revealElement "zen-element-1" false,
       Call.revealElement "zen-element-2" true, Call.revealElement "zen-element-3" false,
       Call.revealElement "zen-element-4" true] ∧
    (revealAll sampleBrowser worldFive).1 = { total := 5, successful := 3, failed := 2 } := by
  decide

/-! ## Categories -/

theorem determineCategory_cases (d : Document) (element : Nat) :
    determineCategory d element =
      if navigationPattern d element = true then "navigation"
      else if formsPattern d element = true then "forms"
      else if contentPattern d element = true then "content"
      else if controlsPattern d element = true then "controls"
      else if modalsPattern d element = true then "modals"
      else "other" := rfl

/-- Claim C16: determineCategory returns the first category, in the order navigation,
forms, content, controls, modals, whose pattern the element matches, and other when none
matches; the result is one of the six categories, and an element that matches the
navigation pattern is categorised navigation whatever else it matches, the forms pattern
included. -/
theorem category_priority (d : Document) (element : Nat) :
    determineCategory d element = firstMatchingCategory d element ∧
    determineCategory d element ∈
      ["navigation", "forms", "content", "controls", "modals", "other"] ∧
    (navigationPattern d element = true → formsPattern d element = true →
      determineCategory d element = "navigation") := by
  rw [determineCategory_cases]
  unfold firstMatchingCategory categoryPatterns
  cases h1 : navigationPattern d element <;> cases h2 : formsPattern d element <;>
    cases h3 : contentPattern d element <;> cases h4 : controlsPattern d element <;>
    cases h5 : modalsPattern d element <;> simp [List.find?, h1, h2, h3, h4, h5]

/-- Witness for C16: a form element whose class contains nav. -/
theorem category_priority_witness :
    toLowerCase (pageForm.nodes 2).tagName = "form" ∧
    navigationPattern pageForm 2 = true ∧ formsPattern pageForm 2 = true ∧
    (determineCategory pageForm 2 = firstMatchingCategory pageForm 2 ∧
      determineCategory pageForm 2 ∈
        ["navigation", "forms", "content", "controls", "modals", "other"] ∧
      (navigationPattern pageForm 2 = true → formsPattern pageForm 2 = true →
        determineCategory pageForm 2 = "navigation")) ∧
    determineCategory pageForm 2 = "navigation" :=
  ⟨by decide, by decide, by decide, category_priority pageForm 2,
   (category_priority pageForm 2).2.2 (by decide) (by decide)⟩

/-! ## Ids of a generation -/

theorem toDigitsCore_append (fuel : Nat) :
    ∀ (n : Nat) (ds : List Char),
      Nat.toDigitsCore 10 fuel n ds = Nat.toDigitsCore 10 fuel n [] ++ ds := by
  induction fuel with
  | zero => intro n ds; rfl
  | succ fuel ih =>
    intro n ds
    simp only [Nat.toDigitsCore]
    by_cases h : n / 10 = 0
    · simp [h]
    · simp only [h, if_false]
      rw [ih (n / 10) (Nat.digitChar (n % 10) :: ds), ih (n / 10) [Nat.digitChar (n % 10)]]
      simp

theorem digitChar_value (m : Nat) (h : m < 10) : (Nat.digitChar m).toNat - 48 = m := by
  interval_cases m <;> rfl

theorem decodeDigits_append (acc : Nat) (l : List Char) (c : Char) :
    decodeDigits acc (l ++ [c]) = 10 * decodeDigits acc l + (c.toNat - 48) := by
  unfold decodeDigits
  rw [List.foldl_append]
  rfl

theorem decodeDigits_toDigitsCore (fuel : Nat) :
    ∀ n : Nat, n < fuel → decodeDigits 0 (Nat.toDigitsCore 10 fuel n []) = n := by
  induction fuel with
  | zero => intro n h; omega
  | succ fuel ih =>
    intro n hn
    simp only [Nat.toDigitsCore]
    by_cases h : n / 10 = 0
    · simp only [h, if_true]
      have hlt : n < 10 := by omega
      show 10 * 0 + ((Nat.digitChar (n % 10)).toNat - 48) = n
      rw [digitChar_value _ (Nat.mod_lt _ (by decide))]
      omega
    · simp only [h, if_false]
      rw [toDigitsCore_append, decodeDigits_append, ih (n / 10) (by omega),
        digitChar_value _ (Nat.mod_lt _ (by decide))]
      omega

theorem toString_nat_injective (a c : Nat) (h : toString a = toString c) : a = c := by
  have h2 : Nat.toDigits 10 a = Nat.toDigits 10 c := by
    have := congrArg String.data h
    exact this
  have ha := decodeDigits_toDigitsCore (a + 1) a (Nat.lt_succ_self a)
  have hc := decodeDigits_toDigitsCore (c + 1) c (Nat.lt_succ_self c)
  unfold Nat.toDigits at h2
  rw [h2, hc] at ha
  exact ha.symm

theorem zenId_injective (a c : Nat) (h : zenId a = zenId c) : a = c := by
  unfold zenId at h
  apply toString_nat_injective
  have := congrArg String.data h
  simp only [String.data_append, List.append_cancel_left_eq] at this
  exact String.ext this

theorem categorizeElements_length (b : Browser) (d : Document) (elements : List Nat)
    (z : ZenElementRevealer) : (categorizeElements b d elements z).1.length = elements.length := by
  have h := congrArg List.length (categorizeElements_nodes b d elements z)
  rw [List.length_map] at h
  exact h

/-- Claim C17: a call of discoverHiddenElements that returns n elements gives the i-th
returned element the id zen-element-i for i from 0 to n-1, in the order in which the
elements passed the filters; the ids are pairwise distinct; total is n; and the
discovered-element list of the engine afterwards is exactly the returned list. -/
theorem fresh_sequential_ids (b : Browser) (w : World) :
    (discoverHiddenElements b w).1.elements.map (fun e => e.id) =
      (List.range (discoverHiddenElements b w).1.elements.length).map zenId ∧
    ((discoverHiddenElements b w).1.elements.map (fun e => e.id)).Nodup ∧
    (discoverHiddenElements b w).1.elements.map (fun e => e.element) =
      filterMeaningfulElements b w.document (findHiddenElements b w.document) ∧
    (discoverHiddenElements b w).1.total = (discoverHiddenElements b w).1.elements.length ∧
    (discoverHiddenElements b w).2.zen.discoveredElements =
      (discoverHiddenElements b w).1.elements := by
  have hids : (discoverHiddenElements b w).1.elements.map (fun e => e.id) =
      (List.range (discoverHiddenElements b w).1.elements.length).map zenId := by
    unfold discoverHiddenElements
    simp only
    rw [categorizeElements_ids, categorizeElements_length, List.range_eq_range']
  refine ⟨hids, ?_, discover_nodes b w, rfl, ?_⟩
  · rw [hids]
    exact List.Nodup.map (fun a c h => zenId_injective a c h) (List.nodup_range _)
  · unfold discoverHiddenElements
    simp only
    rw [categorizeElements_discovered]
    rfl

/-! ## Determinism of the scan -/

/-- Claim C18: the value discoverHiddenElements returns depends on the document only, not
on the engine state it starts from: two calls on the same document, whatever snapshots,
revealed set, counter and previous generation precede each, return the same list (same
nodes, ids, categories and every other field, in the same order), the same total and the
same category counts; and a call does not change the document, so this covers two calls
in a row. -/
theorem discovery_deterministic (b : Browser) (d : Document) (z1 z2 : ZenElementRevealer) :
    (discoverHiddenElements b { zen := z1, document := d }).1 =
      (discoverHiddenElements b { zen := z2, document := d }).1 ∧
    (discoverHiddenElements b { zen := z1, document := d }).2.document = d ∧
    (discoverHiddenElements b (discoverHiddenElements b { zen := z1, document := d }).2).1 =
      (discoverHiddenElements b { zen := z1, document := d }).1 := by
  have key : ∀ za zb : ZenElementRevealer,
      (discoverHiddenElements b { zen := za, document := d }).1 =
        (discoverHiddenElements b { zen := zb, document := d }).1 := by
    intro za zb
    unfold discoverHiddenElements
    simp only
    rw [categorizeElements_counter b d _
      { za with discoveredElements := [], elementIdCounter := 0 }
      { zb with discoveredElements := [], elementIdCounter := 0 } rfl]
  exact ⟨key z1 z2, rfl, key _ z1⟩

/-! ## The hidden predicate -/

/-- Claim C19 (as amended): isElementHidden is the disjunction of nine heuristics on a
connected element and false on an element that is not connected: computed display none;
computed visibility hidden; opacity equal to 0; a box of width 0 and height 0; position
absolute with left or top below -9000px; a box whose left edge is more than one window
width left of the window or whose top edge is more than one window height above it;
clip-path inset(100%) or the zero-area polygon; a transform with zero scale on an axis;
overflow hidden with zero computed height or width. -/
theorem hidden_is_disjunction (b : Browser) (d : Document) (element : Nat) :
    isElementHidden b d element = hiddenByHeuristics b d element ∧
    isElementHidden b d element =
      (isConnected d element &&
        (displayNone b d element || visibilityHidden b d element || opacityZero b d element ||
          zeroSizeBox b d element || offscreenDump b d element ||
          boxFarBeforeWindow b d element || clipPathCollapsed b d element ||
          zeroScale b d element || overflowCollapsed b d element)) := by
  have h : isElementHidden b d element = hiddenByHeuristics b d element := by
    unfold isElementHidden hiddenByHeuristics displayNone visibilityHidden opacityZero
      zeroSizeBox offscreenDump boxFarBeforeWindow clipPathCollapsed zeroScale overflowCollapsed
    cases hc : isConnected d element
    · simp
    · simp only [Bool.not_true, Bool.false_eq_true, if_false, Bool.true_and]
      split_ifs <;> simp_all
  exact ⟨h, h⟩

/-- Counterexample to C19 as stated: in a window 1024 wide, the banner of class nudged has
the box from -500 to -400, entirely outside the viewport on the left; the element is
connected and the heuristic as worded matches it, and isElementHidden returns false,
because -500 is not below -1024. -/
theorem box_outside_viewport_not_hidden :
    isConnected pageNudged 2 = true ∧
    (nudgingBrowser.getBoundingClientRect pageNudged 2).left +
      (nudgingBrowser.getBoundingClientRect pageNudged 2).width < 0 ∧
    boxOutsideViewport nudgingBrowser pageNudged 2 = true ∧
    hiddenAsWorded nudgingBrowser pageNudged 2 = true ∧
    isElementHidden nudgingBrowser pageNudged 2 = false := by
  have hleft : (nudgingBrowser.getBoundingClientRect pageNudged 2).left = -500 := by rfl
  have hwidth : (nudgingBrowser.getBoundingClientRect pageNudged 2).width = 100 := by rfl
  have hsum : (nudgingBrowser.getBoundingClientRect pageNudged 2).left +
      (nudgingBrowser.getBoundingClientRect pageNudged 2).width < 0 := by
    rw [hleft, hwidth]
    norm_num
  have hbox : boxOutsideViewport nudgingBrowser pageNudged 2 = true := by
    unfold boxOutsideViewport
    exact decide_eq_true (Or.inl hsum)
  have hconn : isConnected pageNudged 2 = true := by decide
  refine ⟨hconn, hsum, hbox, ?_, by decide⟩
  unfold hiddenAsWorded
  rw [hconn, hbox]
  simp

/-! ## Elements the scan never reports -/

theorem not_meaningful_not_reported (b : Browser) (w : World) (element : Nat)
    (h : isElementMeaningful b w.document element = false) :
    element ∉ (discoverHiddenElements b w).1.elements.map (fun e => e.element) := by
  rw [discover_nodes]
  intro hmem
  unfold filterMeaningfulElements at hmem
  have h2 := (List.mem_filter.mp hmem).1
  have h3 := ((mem_findHiddenElements b w.document element).mp h2).2.2
  rw [h] at h3
  cases h3

/-- Claim C20: for every element whose tag, in any letter case, is one of script, style,
meta, link, title, head, noscript, or whose class or id contains, case-insensitively, one
of the keywords track, analytic, pixel, beacon, gtm, ga-, isElementMeaningful returns
false and the element is absent from the result of discoverHiddenElements, whatever the
engine state. -/
theorem tracking_and_non_content_skipped (b : Browser) (w : World) (element : Nat)
    (h : toLowerCase (w.document.nodes element).tagName ∈
        ["script", "style", "meta", "link", "title", "head", "noscript"] ∨
      (∃ k ∈ ["track", "analytic", "pixel", "beacon", "gtm", "ga-"],
        includes (toLowerCase (w.document.nodes element).className) k = true) ∨
      (∃ k ∈ ["track", "analytic", "pixel", "beacon", "gtm", "ga-"],
        includes (toLowerCase (w.document.nodes element).id) k = true)) :
    isElementMeaningful b w.document element = false ∧
    element ∉ (discoverHiddenElements b w).1.elements.map (fun e => e.element) := by
  have hm : isElementMeaningful b w.document element = false := by
    unfold isElementMeaningful
    by_cases h0 : (w.document.nodes element).tagName = ""
    · rw [if_pos h0]
    · rw [if_neg h0]
      by_cases h1 : (["script", "style", "meta", "link", "title", "head", "noscript"].contains
          (toLowerCase (w.document.nodes element).tagName)) = true
      · rw [if_pos h1]
      · rw [if_neg h1]
        have h2 : (matchesTracking (w.document.nodes element).className ||
            matchesTracking (w.document.nodes element).id) = true := by
          rcases h with h | ⟨k, hk, hinc⟩ | ⟨k, hk, hinc⟩
          · exact absurd (by simpa using h) h1
          · have : matchesTracking (w.document.nodes element).className = true := by
              unfold matchesTracking
              exact List.any_eq_true.mpr ⟨k, hk, hinc⟩
            rw [this]; rfl
          · have : matchesTracking (w.document.nodes element).id = true := by
              unfold matchesTracking
              exact List.any_eq_true.mpr ⟨k, hk, hinc⟩
            rw [this, Bool.or_true]
        rw [if_pos h2]
  exact ⟨hm, not_meaningful_not_reported b w element hm⟩

/-- Witness for C20: the wrapper of the nested page, whose class contains beacon, is
hidden and is not reported. -/
theorem tracking_and_non_content_skipped_witness :
    (∃ k ∈ ["track", "analytic", "pixel", "beacon", "gtm", "ga-"],
      includes (toLowerCase ((freshWorld pageNested).document.nodes 2).className) k = true) ∧
    isElementHidden sampleBrowser pageNested 2 = true ∧
    isElementMeaningful sampleBrowser (freshWorld pageNested).document 2 = false ∧
    2 ∉ (discoverHiddenElements sampleBrowser (freshWorld pageNested)).1.elements.map
      (fun e => e.element) :=
  ⟨by decide, by decide,
   tracking_and_non_content_skipped sampleBrowser (freshWorld pageNested) 2
     (Or.inr (Or.inl (by decide)))⟩

/-! ## The ids of the revealed set stay distinct -/

theorem not_mem_mapKeys {α : Type} (m : List (String × α)) (k : String)
    (h : mapHas m k = false) : k ∉ mapKeys m := by
  intro hk
  unfold mapKeys at hk
  obtain ⟨kv, hkv, hk1⟩ := List.mem_map.mp hk
  have : mapHas m k = true := by
    unfold mapHas
    exact List.any_eq_true.mpr ⟨kv, hkv, by simp [hk1]⟩
  rw [this] at h
  cases h

theorem mapKeys_map_set {α : Type} (m : List (String × α)) (k : String) (v : α) :
    mapKeys (m.map (fun kv => if kv.1 = k then (kv.1, v) else kv)) = mapKeys m := by
  unfold mapKeys
  rw [List.map_map]
  apply List.map_congr_left
  intro kv _
  by_cases h : kv.1 = k <;> simp [h]

theorem mapSet_keys_nodup {α : Type} (m : List (String × α)) (k : String) (v : α)
    (h : (mapKeys m).Nodup) : (mapKeys (mapSet m k v)).Nodup := by
  unfold mapSet
  by_cases hk : mapHas m k = true
  · rw [if_pos hk, mapKeys_map_set]
    exact h
  · have hk2 : mapHas m k = false := by simpa using hk
    rw [if_neg hk]
    unfold mapKeys
    rw [List.map_append]
    refine List.Nodup.append h (List.nodup_singleton k) ?_
    intro x hx hx2
    rw [List.map_singleton, List.mem_singleton] at hx2
    have hxk : x = k := hx2
    rw [hxk] at hx
    exact not_mem_mapKeys m k hk2 hx

theorem mapDelete_keys_nodup {α : Type} (m : List (String × α)) (k : String)
    (h : (mapKeys m).Nodup) : (mapKeys (mapDelete m k)).Nodup := by
  unfold mapKeys mapDelete
  exact List.Nodup.sublist (List.Sublist.map _ (List.filter_sublist m)) h

theorem revealElement_keys_nodup (b : Browser) (w : World) (elementId : String)
    (h : (mapKeys w.zen.revealedElements).Nodup) :
    (mapKeys (revealElement b elementId w).2.zen.revealedElements).Nodup := by
  unfold revealElement
  cases findElement w.zen elementId with
  | none => exact h
  | some elementData =>
    simp only
    split
    · exact mapSet_keys_nodup _ _ _ h
    · exact h

theorem restoreElement_keys_nodup (w : World) (elementId : String)
    (h : (mapKeys w.zen.revealedElements).Nodup) :
    (mapKeys (restoreElement elementId w).2.zen.revealedElements).Nodup := by
  unfold restoreElement
  cases mapGet w.zen.originalStates elementId with
  | none => exact h
  | some originalState =>
    cases findElement w.zen elementId with
    | none => exact h
    | some elementData => exact mapDelete_keys_nodup _ _ h

theorem revealLoop_keys_nodup (b : Browser) (elements : List ElementData) :
    ∀ (acc : List RevealResult) (w : World), (mapKeys w.zen.revealedElements).Nodup →
      (mapKeys (revealLoop b elements (acc, w)).2.zen.revealedElements).Nodup := by
  induction elements with
  | nil => intro acc w h; exact h
  | cons elementData rest ih =>
    intro acc w h
    exact ih _ _ (revealElement_keys_nodup b w elementData.id h)

theorem step_keys_nodup (b : Browser) (w : World) (op : Op)
    (h : (mapKeys w.zen.revealedElements).Nodup) :
    (mapKeys (step b w op).zen.revealedElements).Nodup := by
  cases op with
  | discover => simp only [step]; rw [discover_revealed]; exact h
  | reveal j => exact revealElement_keys_nodup b w j h
  | restore j => exact restoreElement_keys_nodup w j h
  | revealAll => exact revealLoop_keys_nodup b _ [] w h
  | restoreAll => simp [step, restoreAll, mapKeys]
  | page change => exact h

/-- In every state reached from a fresh engine the ids of the revealed set are distinct,
as the keys of a Map are. -/
theorem reachable_keys_nodup (b : Browser) (ops : List Op) :
    ∀ w : World, (mapKeys w.zen.revealedElements).Nodup →
      (mapKeys (run b ops w).zen.revealedElements).Nodup := by
  induction ops with
  | nil => intro w h; exact h
  | cons op rest ih => intro w h; exact ih _ (step_keys_nodup b w op h)

/-! ## What a scan leaves alone, and the size of what it reports -/

/-- Claim C23: discoverHiddenElements changes only the discovered-element list and the id
counter: the document (every inline style and class in it), the snapshot map and the
revealed set after the call equal those before it. -/
theorem discover_changes_only_generation (b : Browser) (w : World) :
    (discoverHiddenElements b w).2.document = w.document ∧
    (discoverHiddenElements b w).2.zen.originalStates = w.zen.originalStates ∧
    (discoverHiddenElements b w).2.zen.revealedElements = w.zen.revealedElements := by
  refine ⟨rfl, ?_, discover_revealed b w⟩
  unfold discoverHiddenElements
  simp only
  rw [(categorizeElements_revealed b w.document _ _).2]

/-- Claim C28: every element returned by discoverHiddenElements has a bounding box at
least 10 wide or at least 10 high, and the size recorded for it is that box; so an
element whose box is 0 by 0 is never reported, whatever else holds of it. -/
theorem minimum_reported_size (b : Browser) (w : World) :
    (∀ e ∈ (discoverHiddenElements b w).1.elements,
      (10 ≤ (b.getBoundingClientRect w.document e.element).width ∨
        10 ≤ (b.getBoundingClientRect w.document e.element).height)) ∧
    (∀ element : Nat,
      (b.getBoundingClientRect w.document element).width = 0 →
      (b.getBoundingClientRect w.document element).height = 0 →
      element ∉ (discoverHiddenElements b w).1.elements.map (fun e => e.element)) := by
  have key : ∀ element ∈ (discoverHiddenElements b w).1.elements.map (fun e => e.element),
      (10 ≤ (b.getBoundingClientRect w.document element).width ∨
        10 ≤ (b.getBoundingClientRect w.document element).height) := by
    intro element hmem
    rw [discover_nodes] at hmem
    unfold filterMeaningfulElements at hmem
    have hp := (List.mem_filter.mp hmem).2
    by_cases hsmall : (b.getBoundingClientRect w.document element).width < 10 ∧
        (b.getBoundingClientRect w.document element).height < 10
    · simp only [hsmall, and_self, if_true] at hp
      cases hp
    · by_cases hw : (b.getBoundingClientRect w.document element).width < 10
      · right
        exact not_lt.mp (fun hh => hsmall ⟨hw, hh⟩)
      · left
        exact not_lt.mp hw
  refine ⟨fun e he => key e.element (List.mem_map_of_mem _ he), ?_⟩
  intro element hw hh hmem
  have := key element hmem
  rw [hw, hh] at this
  rcases this with h | h <;> norm_num at h

/-- Witness for C28: the container with display none of the sample page has a 0 by 0 box;
it is hidden, it is meaningful because it holds a button, and it is not reported. -/
theorem minimum_reported_size_witness :
    isElementHidden sampleBrowser pageCollapsed 2 = true ∧
    isElementMeaningful sampleBrowser pageCollapsed 2 = true ∧
    0 < (querySelectorAll pageCollapsed 2 interactiveSelector).length ∧
    2 ∉ (discoverHiddenElements sampleBrowser (freshWorld pageCollapsed)).1.elements.map
      (fun e => e.element) :=
  ⟨by decide, by decide, by decide,
   (minimum_reported_size sampleBrowser (freshWorld pageCollapsed)).2 2 (by decide) (by decide)⟩

/-! ## Class tokens -/

theorem intercalate_go_data (s : String) (l : List String) :
    ∀ acc : String, (String.intercalate.go acc s l).data =
      acc.data ++ l.flatMap (fun a => s.data ++ a.data) := by
  induction l with
  | nil => intro acc; simp [String.intercalate.go]
  | cons a rest ih =>
    intro acc
    simp only [String.intercalate.go, ih, String.data_append, List.flatMap_cons, List.append_assoc]

theorem joinTokens_data (a : String) (rest : List String) :
    (joinTokens (a :: rest)).data = a.data ++ rest.flatMap (fun t => ' ' :: t.data) := by
  unfold joinTokens
  simp only [String.intercalate, intercalate_go_data]
  rfl

theorem splitTokens_nil_cons (c : Char) (cur : List Char) :
    splitTokens [] (c :: cur) = [String.mk (c :: cur).reverse] := rfl

theorem splitTokens_nonspace (c : Char) (cs cur : List Char) (h : isAsciiSpace c = false) :
    splitTokens (c :: cs) cur = splitTokens cs (c :: cur) := by
  rw [splitTokens, if_neg (by simp [h])]

theorem splitTokens_space_nil (c : Char) (cs : List Char) (h : isAsciiSpace c = true) :
    splitTokens (c :: cs) [] = splitTokens cs [] := by
  rw [splitTokens, if_pos h]
  rfl

theorem splitTokens_space_cons (c x : Char) (cs cur : List Char) (h : isAsciiSpace c = true) :
    splitTokens (c :: cs) (x :: cur) = String.mk (x :: cur).reverse :: splitTokens cs [] := by
  rw [splitTokens, if_pos h]
  rfl

theorem splitTokens_token (t : List Char) (h : ∀ c ∈ t, isAsciiSpace c = false) :
    ∀ (rest cur : List Char), splitTokens (t ++ rest) cur = splitTokens rest (t.reverse ++ cur) := by
  induction t with
  | nil => intro rest cur; rfl
  | cons c cs ih =>
    intro rest cur
    have hc : isAsciiSpace c = false := h c (List.mem_cons_self c cs)
    have hcs : ∀ x ∈ cs, isAsciiSpace x = false := fun x hx => h x (List.mem_cons_of_mem c hx)
    rw [List.cons_append, splitTokens_nonspace c _ _ hc, ih hcs, List.reverse_cons,
      List.append_assoc]
    rfl

theorem validToken_iff (t : String) :
    validToken t = true ↔ t.data ≠ [] ∧ ∀ c ∈ t.data, isAsciiSpace c = false := by
  unfold validToken
  simp [List.isEmpty_iff]

theorem reverse_eq_cons_of_ne_nil (l : List Char) (h : l ≠ []) :
    ∃ x xs, l.reverse = x :: xs := by
  cases hr : l.reverse with
  | nil => exact absurd (List.reverse_eq_nil_iff.mp hr) h
  | cons x xs => exact ⟨x, xs, rfl⟩

theorem splitTokens_join (rest : List String) :
    ∀ a : String, validToken a = true → (∀ t ∈ rest, validToken t = true) →
      splitTokens (a.data ++ rest.flatMap (fun t => ' ' :: t.data)) [] = a :: rest := by
  induction rest with
  | nil =>
    intro a ha _
    obtain ⟨hne, hsp⟩ := (validToken_iff a).mp ha
    obtain ⟨x, xs, hx⟩ := reverse_eq_cons_of_ne_nil a.data hne
    rw [List.flatMap_nil, splitTokens_token a.data hsp, List.append_nil, hx,
      splitTokens_nil_cons, ← hx, List.reverse_reverse]
  | cons b bs ih =>
    intro a ha hall
    obtain ⟨hne, hsp⟩ := (validToken_iff a).mp ha
    obtain ⟨x, xs, hx⟩ := reverse_eq_cons_of_ne_nil a.data hne
    rw [List.flatMap_cons, splitTokens_token a.data hsp, List.append_nil, hx, List.cons_append,
      splitTokens_space_cons ' ' x _ xs (by decide), ← hx, List.reverse_reverse,
      ih b (hall b (List.mem_cons_self b bs)) (fun t ht => hall t (List.mem_cons_of_mem b ht))]

theorem splitTokens_valid (s : List Char) :
    ∀ cur : List Char, (∀ c ∈ cur, isAsciiSpace c = false) →
      ∀ t ∈ splitTokens s cur, validToken t = true := by
  induction s with
  | nil =>
    intro cur hcur t ht
    cases cur with
    | nil => simp [splitTokens] at ht
    | cons x xs =>
      rw [splitTokens_nil_cons, List.mem_singleton] at ht
      rw [ht, validToken_iff]
      exact ⟨by simp, fun c hc => hcur c (by simpa [or_comm] using hc)⟩
  | cons c cs ih =>
    intro cur hcur t ht
    by_cases hc : isAsciiSpace c = true
    · cases cur with
      | nil =>
        rw [splitTokens_space_nil c cs hc] at ht
        exact ih [] (by simp) t ht
      | cons x xs =>
        rw [splitTokens_space_cons c x cs xs hc, List.mem_cons] at ht
        rcases ht with ht | ht
        · rw [ht, validToken_iff]
          exact ⟨by simp, fun y hy => hcur y (by simpa [or_comm] using hy)⟩
        · exact ih [] (by simp) t ht
    · have hc2 : isAsciiSpace c = false := by simpa using hc
      rw [splitTokens_nonspace c cs cur hc2] at ht
      refine ih (c :: cur) ?_ t ht
      intro y hy
      rcases List.mem_cons.mp hy with h | h
      · rw [h]; exact hc2
      · exact hcur y h

theorem mem_orderedSet (l : List String) (x : String) : x ∈ orderedSet l ↔ x ∈ l := by
  induction l with
  | nil => simp [orderedSet]
  | cons t ts ih =>
    simp only [orderedSet, List.mem_cons, List.mem_filter, ih, bne_iff_ne, ne_eq]
    by_cases h : x = t
    · simp [h]
    · simp [h]

theorem nodup_orderedSet (l : List String) : (orderedSet l).Nodup := by
  induction l with
  | nil => simp [orderedSet]
  | cons t ts ih =>
    simp only [orderedSet, List.nodup_cons, List.mem_filter, bne_iff_ne, ne_eq, not_and,
      not_not]
    exact ⟨fun _ => trivial, ih.filter _⟩

theorem orderedSet_of_nodup (l : List String) (h : l.Nodup) : orderedSet l = l := by
  induction l with
  | nil => rfl
  | cons t ts ih =>
    obtain ⟨hnot, hts⟩ := List.nodup_cons.mp h
    simp only [orderedSet, ih hts]
    congr 1
    rw [List.filter_eq_self]
    intro x hx
    simp only [bne_iff_ne, ne_eq]
    intro e
    exact hnot (e ▸ hx)

theorem parseTokens_joinTokens (l : List String) (hv : ∀ t ∈ l, validToken t = true)
    (hn : l.Nodup) : parseTokens (joinTokens l) = l := by
  unfold parseTokens
  cases l with
  | nil => rfl
  | cons a rest =>
    rw [joinTokens_data, splitTokens_join rest a (hv a (List.mem_cons_self a rest))
      (fun t ht => hv t (List.mem_cons_of_mem a ht))]
    exact orderedSet_of_nodup _ hn

theorem classList_valid (d : Document) (n : Nat) : ∀ t ∈ classList d n, validToken t = true := by
  intro t ht
  unfold classList parseTokens at ht
  exact splitTokens_valid _ [] (by simp) t ((mem_orderedSet _ t).mp ht)

theorem classList_nodup (d : Document) (n : Nat) : (classList d n).Nodup :=
  nodup_orderedSet _

theorem classList_setClassName_join (d : Document) (n : Nat) (l : List String)
    (hv : ∀ t ∈ l, validToken t = true) (hn : l.Nodup) :
    classList (setClassName d n (joinTokens l)) n = l := by
  unfold classList
  rw [setClassName_className]
  exact parseTokens_joinTokens l hv hn

theorem classList_setClassName_ne (d : Document) (n m : Nat) (c : String) (h : m ≠ n) :
    classList (setClassName d n c) m = classList d m := by
  unfold classList setClassName
  rw [update_nodes, if_neg h]

theorem classList_classListRemove (d : Document) (n : Nat) (cls : String) :
    classList (classListRemove d n cls) n = (classList d n).filter (fun t => t != cls) := by
  unfold classListRemove
  exact classList_setClassName_join d n _
    (fun t ht => classList_valid d n t (List.mem_filter.mp ht).1) ((classList_nodup d n).filter _)

theorem classList_classListAdd (d : Document) (n : Nat) (cls : String)
    (hcls : validToken cls = true) :
    classList (classListAdd d n cls) n =
      if (classList d n).contains cls then classList d n else classList d n ++ [cls] := by
  unfold classListAdd
  by_cases hc : (classList d n).contains cls = true
  · simp only [hc, if_true]
    exact classList_setClassName_join d n _ (classList_valid d n) (classList_nodup d n)
  · simp only [hc, if_false]
    refine classList_setClassName_join d n _ ?_ ?_
    · intro t ht
      rcases List.mem_append.mp ht with h | h
      · exact classList_valid d n t h
      · rw [List.mem_singleton] at h; rw [h]; exact hcls
    · refine List.Nodup.append (classList_nodup d n) (List.nodup_singleton cls) ?_
      intro x hx hx2
      rw [List.mem_singleton] at hx2
      rw [hx2] at hx
      exact hc (by simpa using hx)

/-! ## The direct style overrides -/

theorem cssStep_fst (test : Document → Bool) (write : Document → Document)
    (s : Bool × Document) (h : s.1 = true) : (cssStep test write s).1 = true := by
  unfold cssStep
  split
  · rfl
  · exact h

theorem cssStep_fst_of_test (test : Document → Bool) (write : Document → Document)
    (s : Bool × Document) (h : test s.2 = true) : (cssStep test write s).1 = true := by
  unfold cssStep
  rw [if_pos h]

theorem cssStep_snd_of_test (test : Document → Bool) (write : Document → Document)
    (s : Bool × Document) (h : test s.2 = true) : (cssStep test write s).2 = write s.2 := by
  unfold cssStep
  rw [if_pos h]

theorem cssStep_of_not_test (test : Document → Bool) (write : Document → Document)
    (s : Bool × Document) (h : test s.2 = false) : cssStep test write s = s := by
  unfold cssStep
  rw [h]
  rfl

theorem cssStep_styleOf (test : Document → Bool) (write : Document → Document)
    (s : Bool × Document) (element : Nat) (q : String)
    (h : ∀ doc, styleOf (write doc) element q = styleOf doc element q) :
    styleOf (cssStep test write s).2 element q = styleOf s.2 element q := by
  unfold cssStep
  split
  · exact h s.2
  · rfl

theorem styleOf_setStyle_ne (d : Document) (n : Nat) (p v q : String) (h : q ≠ p) :
    styleOf (setStyle d n p v) n q = styleOf d n q := by
  rw [styleOf_setStyle, if_neg (fun hh => h hh.2)]

theorem styleOf_setStyle_self (d : Document) (n : Nat) (p v : String) :
    styleOf (setStyle d n p v) n p = v := by
  rw [styleOf_setStyle, if_pos ⟨rfl, rfl⟩]

theorem displayFor_eq (t : String) :
    displayFor t = if ["span", "a", "strong", "em", "code"].contains t then "inline" else "block" := by
  unfold displayFor
  by_cases h : ["div", "p", "section", "article", "header", "footer", "nav", "aside"].contains t = true
  · rw [if_pos h]
    have hm : t ∈ ["div", "p", "section", "article", "header", "footer", "nav", "aside"] := by
      simpa using h
    simp only [List.mem_cons, List.mem_singleton, List.not_mem_nil, or_false] at hm
    rcases hm with h | h | h | h | h | h | h | h <;> rw [h] <;> decide
  · rw [if_neg h]

/-- Claim C24: for an element whose computed display is none, revealWithCSS returns true
and leaves the inline display at inline when the lower-cased tag is one of span, a,
strong, em, code and at block for every other tag; for an element whose computed display
is not none it leaves the inline display as it was. -/
theorem tag_appropriate_display (b : Browser) (element : Nat) (d : Document) :
    ((b.getComputedStyle d element).display = "none" →
      (revealWithCSS b element d).1 = true ∧
      styleOf (revealWithCSS b element d).2 element "display" =
        (if ["span", "a", "strong", "em", "code"].contains (toLowerCase (d.nodes element).tagName)
         then "inline" else "block")) ∧
    ((b.getComputedStyle d element).display ≠ "none" →
      styleOf (revealWithCSS b element d).2 element "display" = styleOf d element "display") := by
  constructor
  · intro h
    have htest : (fun doc : Document => decide ((b.getComputedStyle doc element).display = "none"))
        ((false, d) : Bool × Document).2 = true := by simpa using h
    unfold revealWithCSS
    simp only []
    refine ⟨?_, ?_⟩
    · iterate 7 apply cssStep_fst
      exact cssStep_fst_of_test _ _ _ htest
    · rw [cssStep_styleOf _ _ _ element "display" (fun doc => styleOf_setStyle_ne _ _ _ _ _ (by decide)),
        cssStep_styleOf _ _ _ element "display" (fun doc => styleOf_setStyle_ne _ _ _ _ _ (by decide)),
        cssStep_styleOf _ _ _ element "display" (fun doc => by
          rw [styleOf_setStyle_ne _ _ _ _ _ (by decide), styleOf_setStyle_ne _ _ _ _ _ (by decide),
            styleOf_setStyle_ne _ _ _ _ _ (by decide)]),
        cssStep_styleOf _ _ _ element "display" (fun doc => styleOf_setStyle_ne _ _ _ _ _ (by decide)),
        cssStep_styleOf _ _ _ element "display" (fun doc => styleOf_setStyle_ne _ _ _ _ _ (by decide)),
        cssStep_styleOf _ _ _ element "display" (fun doc => styleOf_setStyle_ne _ _ _ _ _ (by decide)),
        cssStep_styleOf _ _ _ element "display" (fun doc => styleOf_setStyle_ne _ _ _ _ _ (by decide)),
        cssStep_snd_of_test _ _ _ htest, styleOf_setStyle_self, displayFor_eq]
  · intro h
    have htest : (fun doc : Document => decide ((b.getComputedStyle doc element).display = "none"))
        ((false, d) : Bool × Document).2 = false := by simpa using h
    unfold revealWithCSS
    simp only []
    rw [cssStep_styleOf _ _ _ element "display" (fun doc => styleOf_setStyle_ne _ _ _ _ _ (by decide)),
      cssStep_styleOf _ _ _ element "display" (fun doc => styleOf_setStyle_ne _ _ _ _ _ (by decide)),
      cssStep_styleOf _ _ _ element "display" (fun doc => by
        rw [styleOf_setStyle_ne _ _ _ _ _ (by decide), styleOf_setStyle_ne _ _ _ _ _ (by decide),
          styleOf_setStyle_ne _ _ _ _ _ (by decide)]),
      cssStep_styleOf _ _ _ element "display" (fun doc => styleOf_setStyle_ne _ _ _ _ _ (by decide)),
      cssStep_styleOf _ _ _ element "display" (fun doc => styleOf_setStyle_ne _ _ _ _ _ (by decide)),
      cssStep_styleOf _ _ _ element "display" (fun doc => styleOf_setStyle_ne _ _ _ _ _ (by decide)),
      cssStep_styleOf _ _ _ element "display" (fun doc => styleOf_setStyle_ne _ _ _ _ _ (by decide)),
      cssStep_of_not_test _ _ _ htest]

/-- Witness for C24: the span with display none of the sample page gets inline display
inline, and the transparent div of the banner page keeps its empty inline display. -/
theorem tag_appropriate_display_witness :
    ((revealWithCSS sampleBrowser 2 pageSpan).1 = true ∧
      styleOf (revealWithCSS sampleBrowser 2 pageSpan).2 2 "display" = "inline") ∧
    styleOf (revealWithCSS sampleBrowser 2 pageBanner).2 2 "display" = "" :=
  ⟨(tag_appropriate_display sampleBrowser 2 pageSpan).1 (by decide),
   (tag_appropriate_display sampleBrowser 2 pageBanner).2 (by decide)⟩

/-! ## Several overrides in one call -/

theorem cssStep_opacity (b : Browser) (element : Nat) (test : Document → Bool)
    (write : Document → Document) (s : Bool × Document)
    (h : ∀ doc, (b.getComputedStyle (write doc) element).opacity =
      (b.getComputedStyle doc element).opacity) :
    (b.getComputedStyle (cssStep test write s).2 element).opacity =
      (b.getComputedStyle s.2 element).opacity := by
  unfold cssStep
  split
  · exact h s.2
  · rfl

theorem cssStep_placement (b : Browser) (element : Nat) (test : Document → Bool)
    (write : Document → Document) (s : Bool × Document)
    (h : ∀ doc, (b.getComputedStyle (write doc) element).position =
        (b.getComputedStyle doc element).position ∧
      (b.getComputedStyle (write doc) element).left = (b.getComputedStyle doc element).left ∧
      (b.getComputedStyle (write doc) element).top = (b.getComputedStyle doc element).top) :
    ((b.getComputedStyle (cssStep test write s).2 element).position,
      (b.getComputedStyle (cssStep test write s).2 element).left,
      (b.getComputedStyle (cssStep test write s).2 element).top) =
    ((b.getComputedStyle s.2 element).position, (b.getComputedStyle s.2 element).left,
      (b.getComputedStyle s.2 element).top) := by
  unfold cssStep
  split
  · rw [(h s.2).1, (h s.2).2.1, (h s.2).2.2]
  · rfl

/-- Claim C25 (as amended): for an element whose computed opacity parses to 0 and whose
computed position is absolute with left below -9000, in a browser that computes opacity,
position, left and top independently of the inline properties written earlier in the
call, one call of revealWithCSS returns true and leaves inline opacity 1, inline position
static and inline left and top auto: the opacity override and the position override are
both applied in the same pass. -/
theorem single_pass_override (b : Browser) (element : Nat) (d : Document)
    (hs : StableReads b element)
    (ho : isZero (b.parseFloat (b.getComputedStyle d element).opacity) = true)
    (hp : (b.getComputedStyle d element).position = "absolute")
    (hl : ltNum (b.parseInt (b.getComputedStyle d element).left) (-9000) = true) :
    (revealWithCSS b element d).1 = true ∧
    styleOf (revealWithCSS b element d).2 element "opacity" = "1" ∧
    styleOf (revealWithCSS b element d).2 element "position" = "static" ∧
    styleOf (revealWithCSS b element d).2 element "left" = "auto" ∧
    styleOf (revealWithCSS b element d).2 element "top" = "auto" := by
  unfold revealWithCSS
  simp only []
  generalize hS2 : cssStep _ _ (cssStep _ _ ((false, d) : Bool × Document)) = S2
  have h2o : (b.getComputedStyle S2.2 element).opacity = (b.getComputedStyle d element).opacity := by
    rw [← hS2, cssStep_opacity b element _ _ _ (fun doc => hs.1 doc _ _ (by decide)),
      cssStep_opacity b element _ _ _ (fun doc => hs.1 doc _ _ (by decide))]
  have h2p : ((b.getComputedStyle S2.2 element).position, (b.getComputedStyle S2.2 element).left,
      (b.getComputedStyle S2.2 element).top) =
      ((b.getComputedStyle d element).position, (b.getComputedStyle d element).left,
        (b.getComputedStyle d element).top) := by
    rw [← hS2, cssStep_placement b element _ _ _ (fun doc => hs.2 doc _ _ (by decide)),
      cssStep_placement b element _ _ _ (fun doc => hs.2 doc _ _ (by decide))]
  have ht3 : (fun doc : Document =>
      isZero (b.parseFloat (b.getComputedStyle doc element).opacity)) S2.2 = true := by
    show isZero (b.parseFloat (b.getComputedStyle S2.2 element).opacity) = true
    rw [h2o]
    exact ho
  generalize hS5 : cssStep _ _ (cssStep _ _ (cssStep _ _ S2)) = S5
  have h5o : styleOf S5.2 element "opacity" = "1" := by
    rw [← hS5, cssStep_styleOf _ _ _ element "opacity" (fun doc => styleOf_setStyle_ne _ _ _ _ _ (by decide)),
      cssStep_styleOf _ _ _ element "opacity" (fun doc => styleOf_setStyle_ne _ _ _ _ _ (by decide)),
      cssStep_snd_of_test _ _ _ ht3, styleOf_setStyle_self]
  have h5p : ((b.getComputedStyle S5.2 element).position, (b.getComputedStyle S5.2 element).left,
      (b.getComputedStyle S5.2 element).top) =
      ((b.getComputedStyle d element).position, (b.getComputedStyle d element).left,
        (b.getComputedStyle d element).top) := by
    rw [← hS5, cssStep_placement b element _ _ _ (fun doc => hs.2 doc _ _ (by decide)),
      cssStep_placement b element _ _ _ (fun doc => hs.2 doc _ _ (by decide)),
      cssStep_placement b element _ _ _ (fun doc => hs.2 doc _ _ (by decide)), h2p]
  have h5pos : (b.getComputedStyle S5.2 element).position = "absolute" := by
    exact (congrArg (fun t => t.1) h5p).trans hp
  have h5left : (b.getComputedStyle S5.2 element).left = (b.getComputedStyle d element).left :=
    congrArg (fun t => t.2.1) h5p
  have ht6 : (fun doc : Document => decide ((b.getComputedStyle doc element).position = "absolute") &&
      (ltNum (b.parseInt (b.getComputedStyle doc element).left) (-9000) ||
        ltNum (b.parseInt (b.getComputedStyle doc element).top) (-9000))) S5.2 = true := by
    show (decide ((b.getComputedStyle S5.2 element).position = "absolute") &&
      (ltNum (b.parseInt (b.getComputedStyle S5.2 element).left) (-9000) ||
        ltNum (b.parseInt (b.getComputedStyle S5.2 element).top) (-9000))) = true
    rw [h5pos, h5left, hl]
    rfl
  refine ⟨?_, ?_, ?_, ?_, ?_⟩
  · apply cssStep_fst
    apply cssStep_fst
    exact cssStep_fst_of_test _ _ _ ht6
  · rw [cssStep_styleOf _ _ _ element "opacity" (fun doc => styleOf_setStyle_ne _ _ _ _ _ (by decide)),
      cssStep_styleOf _ _ _ element "opacity" (fun doc => styleOf_setStyle_ne _ _ _ _ _ (by decide)),
      cssStep_styleOf _ _ _ element "opacity" (fun doc => by
        rw [styleOf_setStyle_ne _ _ _ _ _ (by decide), styleOf_setStyle_ne _ _ _ _ _ (by decide),
          styleOf_setStyle_ne _ _ _ _ _ (by decide)]), h5o]
  · rw [cssStep_styleOf _ _ _ element "position" (fun doc => styleOf_setStyle_ne _ _ _ _ _ (by decide)),
      cssStep_styleOf _ _ _ element "position" (fun doc => styleOf_setStyle_ne _ _ _ _ _ (by decide)),
      cssStep_snd_of_test _ _ _ ht6, styleOf_setStyle_ne _ _ _ _ _ (by decide),
      styleOf_setStyle_ne _ _ _ _ _ (by decide), styleOf_setStyle_self]
  · rw [cssStep_styleOf _ _ _ element "left" (fun doc => styleOf_setStyle_ne _ _ _ _ _ (by decide)),
      cssStep_styleOf _ _ _ element "left" (fun doc => styleOf_setStyle_ne _ _ _ _ _ (by decide)),
      cssStep_snd_of_test _ _ _ ht6, styleOf_setStyle_ne _ _ _ _ _ (by decide),
      styleOf_setStyle_self]
  · rw [cssStep_styleOf _ _ _ element "top" (fun doc => styleOf_setStyle_ne _ _ _ _ _ (by decide)),
      cssStep_styleOf _ _ _ element "top" (fun doc => styleOf_setStyle_ne _ _ _ _ _ (by decide)),
      cssStep_snd_of_test _ _ _ ht6, styleOf_setStyle_self]

theorem reachesRoot_setStyle (d : Document) (n : Nat) (p v : String) (fuel : Nat) :
    ∀ m, reachesRoot (setStyle d n p v) fuel m = reachesRoot d fuel m := by
  induction fuel with
  | zero => intro m; rfl
  | succ fuel ih =>
    intro m
    unfold reachesRoot
    have hpar : ((setStyle d n p v).nodes m).parent = (d.nodes m).parent := by
      unfold setStyle
      rw [update_nodes]
      split <;> rfl
    have hroot : (setStyle d n p v).root = d.root := rfl
    rw [hpar, hroot]
    cases (d.nodes m).parent with
    | none => rfl
    | some q => simp only [ih q]

theorem isConnected_setStyle (d : Document) (n : Nat) (p v : String) (m : Nat) :
    isConnected (setStyle d n p v) m = isConnected d m := by
  unfold isConnected
  exact reachesRoot_setStyle d n p v _ m

theorem setStyle_getProp (d : Document) (n : Nat) (p v q : String) (h : q ≠ p) :
    getProp ((setStyle d n p v).nodes n).style q = getProp (d.nodes n).style q :=
  styleOf_setStyle_ne d n p v q h

theorem sampleBrowser_stable (element : Nat) : StableReads sampleBrowser element := by
  constructor
  · intro doc p v hp
    have hc := isConnected_setStyle doc element p v element
    have hcls := setStyle_className doc element element p v
    have hop : getProp ((setStyle doc element p v).nodes element).style "opacity" =
        getProp (doc.nodes element).style "opacity" := by
      apply setStyle_getProp
      intro e
      rw [← e] at hp
      revert hp
      decide
    show (sampleBrowser.getComputedStyle (setStyle doc element p v) element).opacity =
      (sampleBrowser.getComputedStyle doc element).opacity
    simp only [sampleBrowser, hc, sampleOpacity, hcls, hop]
    split <;> rfl
  · intro doc p v hp
    have hc := isConnected_setStyle doc element p v element
    have hq : ∀ q, q ∈ ["position", "left", "top"] →
        getProp ((setStyle doc element p v).nodes element).style q =
          getProp (doc.nodes element).style q := by
      intro q hq
      apply setStyle_getProp
      intro e
      rw [← e] at hp
      simp only [List.mem_cons, List.mem_singleton, List.not_mem_nil, or_false] at hq
      rcases hq with h | h | h <;> rw [h] at hp <;> revert hp <;> decide
    have h1 := hq "position" (by decide)
    have h2 := hq "left" (by decide)
    have h3 := hq "top" (by decide)
    simp only [sampleBrowser, hc, inlineOr, h1, h2, h3]
    split <;> exact ⟨rfl, rfl, rfl⟩

/-- Witness for C25: the transparent banner dumped at left -9999px by inline style gets
opacity 1, position static and left and top auto from one call of revealWithCSS. -/
theorem single_pass_override_witness :
    (revealWithCSS sampleBrowser 2 pageDump).1 = true ∧
    styleOf (revealWithCSS sampleBrowser 2 pageDump).2 2 "opacity" = "1" ∧
    styleOf (revealWithCSS sampleBrowser 2 pageDump).2 2 "position" = "static" ∧
    styleOf (revealWithCSS sampleBrowser 2 pageDump).2 2 "left" = "auto" ∧
    styleOf (revealWithCSS sampleBrowser 2 pageDump).2 2 "top" = "auto" :=
  single_pass_override sampleBrowser 2 pageDump (sampleBrowser_stable 2) (by decide) (by decide)
    (by decide)

/-- Counterexample to C25 as stated: the element has display none, computed opacity 0,
position absolute and left -9500 percent, which the script reads as below -9000.
revealWithCSS writes display first; the element is then rendered, its left is read as
-950px, the position test no longer holds, and the call returns true leaving position
absolute, left -9500 percent and top unset: the position override depends on the display
override made before it in the same call. -/
theorem position_override_depends_on_display :
    isZero (resolvingBrowser.parseFloat
      (resolvingBrowser.getComputedStyle pagePercent 2).opacity) = true ∧
    (resolvingBrowser.getComputedStyle pagePercent 2).position = "absolute" ∧
    (resolvingBrowser.getComputedStyle pagePercent 2).left = "-9500%" ∧
    ltNum (resolvingBrowser.parseInt
      (resolvingBrowser.getComputedStyle pagePercent 2).left) (-9000) = true ∧
    (revealWithCSS resolvingBrowser 2 pagePercent).1 = true ∧
    styleOf (revealWithCSS resolvingBrowser 2 pagePercent).2 2 "display" = "block" ∧
    styleOf (revealWithCSS resolvingBrowser 2 pagePercent).2 2 "opacity" = "1" ∧
    (resolvingBrowser.getComputedStyle (revealWithCSS resolvingBrowser 2 pagePercent).2 2).left =
      "-950px" ∧
    styleOf (revealWithCSS resolvingBrowser 2 pagePercent).2 2 "position" = "absolute" ∧
    styleOf (revealWithCSS resolvingBrowser 2 pagePercent).2 2 "left" = "-9500%" ∧
    styleOf (revealWithCSS resolvingBrowser 2 pagePercent).2 2 "top" = "" := by
  decide

/-! ## The class strategy -/

theorem subtree_congr (d d2 : Document)
    (h : ∀ m, (d2.nodes m).children = (d.nodes m).children) (fuel : Nat) :
    ∀ n, subtree d2 fuel n = subtree d fuel n := by
  induction fuel with
  | zero => intro n; rfl
  | succ fuel ih =>
    intro n
    unfold subtree
    rw [h n]
    congr 1
    exact List.flatMap_congr (fun m _ => ih m)

theorem allElements_setClassName (d : Document) (n : Nat) (c : String) :
    allElements (setClassName d n c) = allElements d := by
  unfold allElements
  have hsize : (setClassName d n c).size = d.size := rfl
  have hroot : (setClassName d n c).root = d.root := rfl
  rw [hsize, hroot]
  apply subtree_congr
  intro m
  unfold setClassName
  rw [update_nodes]
  split <;> rfl

theorem documentHasClass_congr (d d2 : Document) (c : String)
    (h1 : allElements d2 = allElements d)
    (h2 : ∀ m, (classList d2 m).contains c = (classList d m).contains c) :
    documentHasClass d2 c = documentHasClass d c := by
  unfold documentHasClass
  rw [h1]
  congr 1
  funext m
  exact h2 m

theorem removeHiding_classList (element : Nat) (s : Bool × Document) (cls : String) :
    classList (removeHiding element s cls).2 element =
      (classList s.2 element).filter (fun t => t != cls) := by
  unfold removeHiding
  by_cases h : (classList s.2 element).contains cls = true
  · rw [if_pos h]
    exact classList_classListRemove s.2 element cls
  · rw [if_neg h]
    have hn : cls ∉ classList s.2 element := by simpa using h
    symm
    apply List.filter_eq_self.mpr
    intro t ht
    have : t ≠ cls := fun e => hn (e ▸ ht)
    simpa using this

theorem removeHiding_fst (element : Nat) (s : Bool × Document) (cls : String) :
    (removeHiding element s cls).1 = (s.1 || (classList s.2 element).contains cls) := by
  unfold removeHiding
  by_cases h : (classList s.2 element).contains cls = true
  · rw [if_pos h, h]
    simp
  · rw [if_neg h]
    have h2 : (classList s.2 element).contains cls = false := by simpa using h
    rw [h2]
    simp

theorem removeHiding_frame (element : Nat) (s : Bool × Document) (cls : String) :
    allElements (removeHiding element s cls).2 = allElements s.2 ∧
    ∀ m, m ≠ element → (removeHiding element s cls).2.nodes m = s.2.nodes m := by
  unfold removeHiding
  split
  · refine ⟨allElements_setClassName _ _ _, ?_⟩
    intro m hm
    show (setClassName _ _ _).nodes m = _
    unfold setClassName
    rw [update_nodes, if_neg hm]
  · exact ⟨rfl, fun _ _ => rfl⟩

theorem removeHiding_fold (element : Nat) (l : List String) :
    ∀ s : Bool × Document,
      classList (l.foldl (removeHiding element) s).2 element =
        (classList s.2 element).filter (fun t => !l.contains t) ∧
      ((l.foldl (removeHiding element) s).1 = true ↔
        (s.1 = true ∨ ∃ c ∈ l, c ∈ classList s.2 element)) ∧
      allElements (l.foldl (removeHiding element) s).2 = allElements s.2 ∧
      ∀ m, m ≠ element → (l.foldl (removeHiding element) s).2.nodes m = s.2.nodes m := by
  induction l with
  | nil =>
    intro s
    refine ⟨?_, by simp, rfl, fun _ _ => rfl⟩
    simp
  | cons c rest ih =>
    intro s
    rw [List.foldl_cons]
    obtain ⟨h1, h2, h3, h4⟩ := ih (removeHiding element s c)
    obtain ⟨f1, f2⟩ := removeHiding_frame element s c
    refine ⟨?_, ?_, h3.trans f1, fun m hm => (h4 m hm).trans (f2 m hm)⟩
    · rw [h1, removeHiding_classList, List.filter_filter]
      congr 1
      funext t
      simp only [List.contains_cons, Bool.not_or, bne]
      rw [Bool.and_comm]
    · rw [h2, removeHiding_fst, removeHiding_classList]
      constructor
      · rintro (h | ⟨x, hx, hxm⟩)
        · rcases Bool.or_eq_true_iff.mp h with h | h
          · exact Or.inl h
          · exact Or.inr ⟨c, List.mem_cons_self c rest, by simpa using h⟩
        · exact Or.inr ⟨x, List.mem_cons_of_mem c hx, (List.mem_filter.mp hxm).1⟩
      · rintro (h | ⟨x, hx, hxm⟩)
        · exact Or.inl (by simp [h])
        · by_cases hxc : x = c
          · left
            have : (classList s.2 element).contains c = true := by
              rw [← hxc]; simpa using hxm
            rw [this]
            simp
          · rcases List.mem_cons.mp hx with h | h
            · exact absurd h hxc
            · exact Or.inr ⟨x, h, List.mem_filter.mpr ⟨hxm, by simpa using hxc⟩⟩

theorem addShowing_fold (element : Nat) (d0 : Document) (l : List String) :
    ∀ s : Bool × Document, l.Nodup → (∀ c ∈ l, validToken c = true) →
      allElements s.2 = allElements d0 →
      (∀ m, m ≠ element → s.2.nodes m = d0.nodes m) →
      (∀ c ∈ l, (classList s.2 element).contains c = (classList d0 element).contains c) →
      classList (l.foldl (addShowing element) s).2 element =
        classList s.2 element ++
          l.filter (fun c => documentHasClass d0 c && !(classList d0 element).contains c) ∧
      ((l.foldl (addShowing element) s).1 = true ↔
        (s.1 = true ∨
          ∃ c ∈ l, documentHasClass d0 c = true ∧ (classList d0 element).contains c = false)) ∧
      ∀ m, m ≠ element → (l.foldl (addShowing element) s).2.nodes m = d0.nodes m := by
  induction l with
  | nil =>
    intro s _ _ _ hfr _
    refine ⟨by simp, by simp, hfr⟩
  | cons c rest ih =>
    intro s hnd hval hall hfr hsame
    obtain ⟨hc_notin, hnd_rest⟩ := List.nodup_cons.mp hnd
    rw [List.foldl_cons]
    have hdoc : documentHasClass s.2 c = documentHasClass d0 c := by
      apply documentHasClass_congr _ _ _ hall
      intro m
      by_cases hm : m = element
      · rw [hm]
        exact hsame c (List.mem_cons_self c rest)
      · unfold classList
        rw [hfr m hm]
    have hcont : (classList s.2 element).contains c = (classList d0 element).contains c :=
      hsame c (List.mem_cons_self c rest)
    by_cases hg : (documentHasClass d0 c && !(classList d0 element).contains c) = true
    · have hstep : addShowing element s c = (true, classListAdd s.2 element c) := by
        unfold addShowing
        rw [hdoc, hcont, if_pos hg]
      have hnot : (classList s.2 element).contains c = false := by
        rw [hcont]
        simpa using (Bool.and_eq_true_iff.mp hg).2
      have hcl : classList (classListAdd s.2 element c) element = classList s.2 element ++ [c] := by
        rw [classList_classListAdd _ _ _ (hval c (List.mem_cons_self c rest)), hnot]
        simp
      rw [hstep]
      obtain ⟨h1, h2, h3⟩ := ih (true, classListAdd s.2 element c) hnd_rest
        (fun x hx => hval x (List.mem_cons_of_mem c hx))
        ((allElements_setClassName _ _ _).trans hall)
        (fun m hm => by
          show (setClassName _ _ _).nodes m = _
          unfold setClassName
          rw [update_nodes, if_neg hm]
          exact hfr m hm)
        (fun x hx => by
          show (classList (classListAdd s.2 element c) element).contains x = _
          rw [hcl, ← hsame x (List.mem_cons_of_mem c hx)]
          have hxc : x ≠ c := fun e => hc_notin (e ▸ hx)
          by_cases hxm : x ∈ classList s.2 element
          · simp [hxm]
          · simp [hxm, hxc])
      refine ⟨?_, ?_, h3⟩
      · rw [h1]
        show classList (classListAdd s.2 element c) element ++ _ = _
        rw [hcl, List.filter_cons, if_pos hg, List.append_assoc]
        rfl
      · rw [h2]
        constructor
        · intro _
          exact Or.inr ⟨c, List.mem_cons_self c rest, (Bool.and_eq_true_iff.mp hg).1,
            by simpa using (Bool.and_eq_true_iff.mp hg).2⟩
        · intro _
          exact Or.inl rfl
    · have hstep : addShowing element s c = s := by
        unfold addShowing
        rw [hdoc, hcont, if_neg hg]
      rw [hstep]
      obtain ⟨h1, h2, h3⟩ := ih s hnd_rest (fun x hx => hval x (List.mem_cons_of_mem c hx)) hall hfr
        (fun x hx => hsame x (List.mem_cons_of_mem c hx))
      refine ⟨?_, ?_, h3⟩
      · rw [h1, List.filter_cons, if_neg hg]
      · rw [h2]
        constructor
        · rintro (h | ⟨x, hx, hxd, hxc⟩)
          · exact Or.inl h
          · exact Or.inr ⟨x, List.mem_cons_of_mem c hx, hxd, hxc⟩
        · rintro (h | ⟨x, hx, hxd, hxc⟩)
          · exact Or.inl h
          · rcases List.mem_cons.mp hx with h | h
            · exfalso
              apply hg
              rw [← h, hxd, hxc]
              rfl
            · exact Or.inr ⟨x, h, hxd, hxc⟩

theorem revealWithClasses_spec (element : Nat) (d : Document) :
    classList (revealWithClasses element d).2 element =
      (classList d element).filter (fun t => !hidingClasses.contains t) ++
        showingClasses.filter
          (fun c => documentHasClass d c && !(classList d element).contains c) ∧
    ((revealWithClasses element d).1 = true ↔
      ((∃ c ∈ hidingClasses, c ∈ classList d element) ∨
        ∃ c ∈ showingClasses,
          documentHasClass d c = true ∧ (classList d element).contains c = false)) ∧
    ∀ m, m ≠ element → (revealWithClasses element d).2.nodes m = d.nodes m := by
  unfold revealWithClasses
  obtain ⟨r1, r2, r3, r4⟩ := removeHiding_fold element hidingClasses (false, d)
  obtain ⟨a1, a2, a3⟩ := addShowing_fold element d showingClasses
    (hidingClasses.foldl (removeHiding element) (false, d)) (by decide) (by decide) r3 r4
    (by
      intro c hc
      rw [r1]
      have hnh : hidingClasses.contains c = false := by
        revert c
        decide
      by_cases hm : c ∈ classList d element
      · have h1 : (classList d element).contains c = true := by simpa using hm
        rw [h1]
        simp only [List.contains_eq_any_beq, List.any_eq_true, beq_iff_eq] at *
        exact ⟨c, List.mem_filter.mpr ⟨hm, by simpa using hnh⟩, rfl⟩
      · have h1 : (classList d element).contains c = false := by simpa using hm
        rw [h1]
        have : c ∉ (classList d element).filter (fun t => !hidingClasses.contains t) :=
          fun h => hm (List.mem_filter.mp h).1
        simpa using this)
  refine ⟨?_, ?_, a3⟩
  · rw [a1, r1]
  · rw [a2, r2]
    simp

/-- Claim C26: after revealWithClasses the class list of the element contains none of the
ten known hiding classes; it contains a known showing class exactly when the element
already had it or some element of the document carries it; every other class is in it
exactly when it was before, the list being the old one without the hiding classes
followed by the showing classes that were added; the function returns true exactly when
the class list was changed; and no other node of the document is changed. -/
theorem class_manipulation (element : Nat) (d : Document) :
    (∀ c ∈ hidingClasses, c ∉ classList (revealWithClasses element d).2 element) ∧
    (∀ c ∈ showingClasses, (c ∈ classList (revealWithClasses element d).2 element ↔
      (c ∈ classList d element ∨ documentHasClass d c = true))) ∧
    (∀ t, t ∉ hidingClasses → t ∉ showingClasses →
      (t ∈ classList (revealWithClasses element d).2 element ↔ t ∈ classList d element)) ∧
    classList (revealWithClasses element d).2 element =
      (classList d element).filter (fun t => !hidingClasses.contains t) ++
        showingClasses.filter
          (fun c => documentHasClass d c && !(classList d element).contains c) ∧
    ((revealWithClasses element d).1 = true ↔
      classList (revealWithClasses element d).2 element ≠ classList d element) ∧
    (∀ m, m ≠ element → (revealWithClasses element d).2.nodes m = d.nodes m) := by
  obtain ⟨hcl, hflag, hframe⟩ := revealWithClasses_spec element d
  have hdisj : ∀ c ∈ hidingClasses, c ∉ showingClasses := by decide
  have hmem : ∀ t, t ∈ classList (revealWithClasses element d).2 element ↔
      ((t ∈ classList d element ∧ t ∉ hidingClasses) ∨
        (t ∈ showingClasses ∧ documentHasClass d t = true ∧ t ∉ classList d element)) := by
    intro t
    rw [hcl]
    simp [List.mem_append, List.mem_filter]
  have hhide : ∀ c ∈ hidingClasses, c ∉ classList (revealWithClasses element d).2 element := by
    intro c hc hin
    rcases (hmem c).mp hin with h | h
    · exact h.2 hc
    · exact hdisj c hc h.1
  have hshow : ∀ c ∈ showingClasses, (c ∈ classList (revealWithClasses element d).2 element ↔
      (c ∈ classList d element ∨ documentHasClass d c = true)) := by
    intro c hc
    rw [hmem c]
    constructor
    · rintro (h | h)
      · exact Or.inl h.1
      · exact Or.inr h.2.1
    · rintro (h | h)
      · exact Or.inl ⟨h, fun hh => hdisj c hh hc⟩
      · by_cases hin : c ∈ classList d element
        · exact Or.inl ⟨hin, fun hh => hdisj c hh hc⟩
        · exact Or.inr ⟨hc, h, hin⟩
  refine ⟨hhide, hshow, ?_, hcl, ?_, hframe⟩
  · intro t hth hts
    rw [hmem t]
    constructor
    · rintro (h | h)
      · exact h.1
      · exact absurd h.1 hts
    · intro h
      exact Or.inl ⟨h, hth⟩
  · rw [hflag]
    constructor
    · rintro (⟨c, hc, hin⟩ | ⟨c, hc, hdoc, hnot⟩)
      · intro e
        apply hhide c hc
        rw [e]
        exact hin
      · intro e
        have hnin : c ∉ classList d element := by simpa using hnot
        apply hnin
        rw [← e]
        exact (hshow c hc).mpr (Or.inr hdoc)
    · intro hne
      by_contra hno
      apply hne
      rw [hcl]
      have h1 : (classList d element).filter (fun t => !hidingClasses.contains t) =
          classList d element := by
        apply List.filter_eq_self.mpr
        intro t ht
        have : t ∉ hidingClasses := fun hh => hno (Or.inl ⟨t, hh, ht⟩)
        simpa using this
      have h2 : showingClasses.filter
          (fun c => documentHasClass d c && !(classList d element).contains c) = [] := by
        apply List.filter_eq_nil_iff.mpr
        intro c hc hg
        have hg2 := Bool.and_eq_true_iff.mp hg
        exact hno (Or.inr ⟨c, hc, hg2.1, by simpa using hg2.2⟩)
      rw [h1, h2, List.append_nil]

/-- Witness for C26: on the sample page the element with classes hidden and promo loses
hidden, keeps promo and gets show, which another element carries; the call returns
true. -/
theorem class_manipulation_witness :
    "hidden" ∉ classList (revealWithClasses 2 pageClasses).2 2 ∧
    "show" ∈ classList (revealWithClasses 2 pageClasses).2 2 ∧
    ("promo" ∈ classList (revealWithClasses 2 pageClasses).2 2 ↔
      "promo" ∈ classList pageClasses 2) ∧
    classList (revealWithClasses 2 pageClasses).2 2 = ["promo", "show"] ∧
    (revealWithClasses 2 pageClasses).1 = true :=
  ⟨(class_manipulation 2 pageClasses).1 "hidden" (by decide),
   ((class_manipulation 2 pageClasses).2.1 "show" (by decide)).mpr (Or.inr (by decide)),
   (class_manipulation 2 pageClasses).2.2.1 "promo" (by decide) (by decide),
   by decide, by decide⟩

/-! ## The walk over the ancestors -/

theorem sameOutside_refl (n : Nat) (d : Document) : SameOutside n d d :=
  ⟨rfl, fun _ => rfl, fun _ _ => rfl⟩

theorem sameOutside_trans (n : Nat) (d d2 d3 : Document) (h1 : SameOutside n d d2)
    (h2 : SameOutside n d2 d3) : SameOutside n d d3 :=
  ⟨h2.1.trans h1.1, fun m => (h2.2.1 m).trans (h1.2.1 m),
    fun m hm => (h2.2.2 m hm).trans (h1.2.2 m hm)⟩

theorem sameOutside_setStyle (n : Nat) (d : Document) (p v : String) :
    SameOutside n d (setStyle d n p v) := by
  refine ⟨rfl, ?_, ?_⟩
  · intro m
    unfold setStyle
    rw [update_nodes]
    split <;> rfl
  · intro m hm
    unfold setStyle
    rw [update_nodes, if_neg hm]

theorem sameOutside_setClassName (n : Nat) (d : Document) (c : String) :
    SameOutside n d (setClassName d n c) := by
  refine ⟨rfl, ?_, ?_⟩
  · intro m
    unfold setClassName
    rw [update_nodes]
    split <;> rfl
  · intro m hm
    unfold setClassName
    rw [update_nodes, if_neg hm]

theorem sameOutside_cssStep (n : Nat) (test : Document → Bool) (write : Document → Document)
    (d : Document) (s : Bool × Document) (hs : SameOutside n d s.2)
    (hw : ∀ doc, SameOutside n doc (write doc)) : SameOutside n d (cssStep test write s).2 := by
  unfold cssStep
  split
  · exact sameOutside_trans n d s.2 _ hs (hw s.2)
  · exact hs

theorem sameOutside_revealWithCSS (b : Browser) (n : Nat) (d : Document) :
    SameOutside n d (revealWithCSS b n d).2 := by
  unfold revealWithCSS
  simp only []
  refine sameOutside_cssStep n _ _ d _ ?_ (fun doc => sameOutside_setStyle n doc _ _)
  refine sameOutside_cssStep n _ _ d _ ?_ (fun doc => sameOutside_setStyle n doc _ _)
  refine sameOutside_cssStep n _ _ d _ ?_ (fun doc =>
    sameOutside_trans n doc _ _ (sameOutside_trans n doc _ _ (sameOutside_setStyle n doc _ _)
      (sameOutside_setStyle n _ _ _)) (sameOutside_setStyle n _ _ _))
  refine sameOutside_cssStep n _ _ d _ ?_ (fun doc => sameOutside_setStyle n doc _ _)
  refine sameOutside_cssStep n _ _ d _ ?_ (fun doc => sameOutside_setStyle n doc _ _)
  refine sameOutside_cssStep n _ _ d _ ?_ (fun doc => sameOutside_setStyle n doc _ _)
  refine sameOutside_cssStep n _ _ d _ ?_ (fun doc => sameOutside_setStyle n doc _ _)
  exact sameOutside_cssStep n _ _ d _ (sameOutside_refl n d) (fun doc => sameOutside_setStyle n doc _ _)

theorem sameOutside_foldl (n : Nat) (f : Bool × Document → String → Bool × Document)
    (hf : ∀ s c, SameOutside n s.2 (f s c).2) (l : List String) :
    ∀ s : Bool × Document, SameOutside n s.2 (l.foldl f s).2 := by
  induction l with
  | nil => intro s; exact sameOutside_refl n s.2
  | cons c rest ih =>
    intro s
    rw [List.foldl_cons]
    exact sameOutside_trans n _ _ _ (hf s c) (ih (f s c))

theorem sameOutside_revealWithClasses (n : Nat) (d : Document) :
    SameOutside n d (revealWithClasses n d).2 := by
  unfold revealWithClasses
  refine sameOutside_trans n d (hidingClasses.foldl (removeHiding n) (false, d)).2 _ ?_ ?_
  · refine sameOutside_foldl n (removeHiding n) ?_ hidingClasses (false, d)
    intro s c
    unfold removeHiding
    split
    · exact sameOutside_setClassName n s.2 _
    · exact sameOutside_refl n s.2
  · refine sameOutside_foldl n (addShowing n) ?_ showingClasses _
    intro s c
    unfold addShowing
    split
    · exact sameOutside_setClassName n s.2 _
    · exact sameOutside_refl n s.2

theorem ancestorsBelowBody_congr (d d2 : Document) (hb : d2.body = d.body)
    (hp : ∀ m, (d2.nodes m).parent = (d.nodes m).parent) (left : Nat) :
    ∀ parent, ancestorsBelowBody d2 left parent = ancestorsBelowBody d left parent := by
  induction left with
  | zero => intro parent; rfl
  | succ left ih =>
    intro parent
    cases parent with
    | none => rfl
    | some p =>
      unfold ancestorsBelowBody
      rw [hb, hp p, ih]

theorem ancestorsBelowBody_bound (d : Document) (left : Nat) :
    ∀ parent, (ancestorsBelowBody d left parent).length ≤ left ∧
      d.body ∉ ancestorsBelowBody d left parent := by
  induction left with
  | zero => intro parent; exact ⟨Nat.le_refl 0, by simp [ancestorsBelowBody]⟩
  | succ left ih =>
    intro parent
    cases parent with
    | none => exact ⟨Nat.zero_le _, by simp [ancestorsBelowBody]⟩
    | some p =>
      unfold ancestorsBelowBody
      by_cases hb : p = d.body
      · rw [if_pos hb]
        exact ⟨Nat.zero_le _, by simp⟩
      · rw [if_neg hb]
        obtain ⟨h1, h2⟩ := ih (d.nodes p).parent
        refine ⟨Nat.succ_le_succ h1, ?_⟩
        intro hm
        rcases List.mem_cons.mp hm with h | h
        · exact hb h.symm
        · exact h2 h

theorem parentChainLoop_body (b : Browser) (left p : Nat) (flag : Bool) (doc : Document)
    (hb : p = doc.body) : parentChainLoop b (left + 1) (some p) (flag, doc) = (flag, doc) := by
  rw [parentChainLoop]
  exact if_pos hb

theorem parentChainLoop_css (b : Browser) (left p : Nat) (flag : Bool) (doc : Document)
    (hb : p ≠ doc.body) (hh : isElementHidden b doc p = true)
    (hc : (revealWithCSS b p doc).1 = true) :
    parentChainLoop b (left + 1) (some p) (flag, doc) =
      parentChainLoop b left ((revealWithCSS b p doc).2.nodes p).parent
        (true, (revealWithCSS b p doc).2) := by
  rw [parentChainLoop]
  show (if p = doc.body then _ else if isElementHidden b doc p = true then _ else _) = _
  rw [if_neg hb, if_pos hh]
  show (if (revealWithCSS b p doc).1 = true then _ else _) = _
  rw [if_pos hc]

theorem parentChainLoop_classes (b : Browser) (left p : Nat) (flag : Bool) (doc : Document)
    (hb : p ≠ doc.body) (hh : isElementHidden b doc p = true)
    (hc : ¬ (revealWithCSS b p doc).1 = true) :
    parentChainLoop b (left + 1) (some p) (flag, doc) =
      parentChainLoop b left
        ((revealWithClasses p (revealWithCSS b p doc).2).2.nodes p).parent
        (flag || (revealWithClasses p (revealWithCSS b p doc).2).1,
          (revealWithClasses p (revealWithCSS b p doc).2).2) := by
  rw [parentChainLoop]
  show (if p = doc.body then _ else if isElementHidden b doc p = true then _ else _) = _
  rw [if_neg hb, if_pos hh]
  show (if (revealWithCSS b p doc).1 = true then _ else _) = _
  rw [if_neg hc]

theorem parentChainLoop_visible (b : Browser) (left p : Nat) (flag : Bool) (doc : Document)
    (hb : p ≠ doc.body) (hh : ¬ isElementHidden b doc p = true) :
    parentChainLoop b (left + 1) (some p) (flag, doc) =
      parentChainLoop b left (doc.nodes p).parent (flag, doc) := by
  rw [parentChainLoop]
  show (if p = doc.body then _ else if isElementHidden b doc p = true then _ else _) = _
  rw [if_neg hb, if_neg hh]

theorem parentChainTrace_body (b : Browser) (left p : Nat) (doc : Document)
    (hb : p = doc.body) : parentChainTrace b (left + 1) (some p) doc = [] := by
  rw [parentChainTrace]
  exact if_pos hb

theorem parentChainTrace_css (b : Browser) (left p : Nat) (doc : Document)
    (hb : p ≠ doc.body) (hh : isElementHidden b doc p = true)
    (hc : (revealWithCSS b p doc).1 = true) :
    parentChainTrace b (left + 1) (some p) doc =
      (p, doc) :: parentChainTrace b left ((revealWithCSS b p doc).2.nodes p).parent
        (revealWithCSS b p doc).2 := by
  rw [parentChainTrace]
  show (if p = doc.body then _ else if isElementHidden b doc p = true then _ else _) = _
  rw [if_neg hb, if_pos hh]
  show (if (revealWithCSS b p doc).1 = true then _ else _) = _
  rw [if_pos hc]

theorem parentChainTrace_classes (b : Browser) (left p : Nat) (doc : Document)
    (hb : p ≠ doc.body) (hh : isElementHidden b doc p = true)
    (hc : ¬ (revealWithCSS b p doc).1 = true) :
    parentChainTrace b (left + 1) (some p) doc =
      (p, doc) :: parentChainTrace b left
        ((revealWithClasses p (revealWithCSS b p doc).2).2.nodes p).parent
        (revealWithClasses p (revealWithCSS b p doc).2).2 := by
  rw [parentChainTrace]
  show (if p = doc.body then _ else if isElementHidden b doc p = true then _ else _) = _
  rw [if_neg hb, if_pos hh]
  show (if (revealWithCSS b p doc).1 = true then _ else _) = _
  rw [if_neg hc]

theorem parentChainTrace_visible (b : Browser) (left p : Nat) (doc : Document)
    (hb : p ≠ doc.body) (hh : ¬ isElementHidden b doc p = true) :
    parentChainTrace b (left + 1) (some p) doc =
      (p, doc) :: parentChainTrace b left (doc.nodes p).parent doc := by
  rw [parentChainTrace]
  show (if p = doc.body then _ else if isElementHidden b doc p = true then _ else _) = _
  rw [if_neg hb, if_neg hh]

theorem ancestorsBelowBody_cons (d : Document) (left p : Nat) (hb : p ≠ d.body) :
    ancestorsBelowBody d (left + 1) (some p) =
      p :: ancestorsBelowBody d left (d.nodes p).parent := by
  rw [ancestorsBelowBody]
  exact if_neg hb

theorem ancestorsBelowBody_body (d : Document) (left p : Nat) (hb : p = d.body) :
    ancestorsBelowBody d (left + 1) (some p) = [] := by
  rw [ancestorsBelowBody]
  exact if_pos hb

theorem parentChainLoop_trace (b : Browser) (left : Nat) :
    ∀ (parent : Option Nat) (flag : Bool) (doc : Document),
      (parentChainTrace b left parent doc).map (fun p => p.1) =
        ancestorsBelowBody doc left parent ∧
      (∀ m, (∀ p ∈ parentChainTrace b left parent doc, p.1 = m →
          isElementHidden b p.2 p.1 = false) →
        (parentChainLoop b left parent (flag, doc)).2.nodes m = doc.nodes m) ∧
      ((parentChainLoop b left parent (flag, doc)).1 = true ↔
        (flag = true ∨ ∃ p ∈ parentChainTrace b left parent doc,
          isElementHidden b p.2 p.1 = true ∧
            ((revealWithCSS b p.1 p.2).1 = true ∨
              (revealWithClasses p.1 (revealWithCSS b p.1 p.2).2).1 = true))) := by
  induction left with
  | zero =>
    intro parent flag doc
    refine ⟨rfl, fun _ _ => rfl, ?_⟩
    simp [parentChainLoop, parentChainTrace]
  | succ left ih =>
    intro parent flag doc
    cases parent with
    | none =>
      refine ⟨rfl, fun _ _ => rfl, ?_⟩
      simp [parentChainLoop, parentChainTrace]
    | some p =>
      by_cases hb : p = doc.body
      · rw [parentChainLoop_body b left p flag doc hb, parentChainTrace_body b left p doc hb,
          ancestorsBelowBody_body doc left p hb]
        refine ⟨rfl, fun _ _ => rfl, ?_⟩
        simp
      · rw [ancestorsBelowBody_cons doc left p hb]
        by_cases hh : isElementHidden b doc p = true
        · have hcss := sameOutside_revealWithCSS b p doc
          by_cases hc : (revealWithCSS b p doc).1 = true
          · rw [parentChainLoop_css b left p flag doc hb hh hc,
              parentChainTrace_css b left p doc hb hh hc]
            obtain ⟨i1, i3, i4⟩ := ih ((revealWithCSS b p doc).2.nodes p).parent true
              (revealWithCSS b p doc).2
            refine ⟨?_, ?_, ?_⟩
            · rw [List.map_cons, i1, hcss.2.1 p,
                ancestorsBelowBody_congr doc _ hcss.1 hcss.2.1]
            · intro m hm
              have hmp : m ≠ p := by
                intro e
                have := hm (p, doc) (List.mem_cons_self _ _) e.symm
                rw [hh] at this
                cases this
              rw [i3 m (fun q hq => hm q (List.mem_cons_of_mem _ hq))]
              exact hcss.2.2 m hmp
            · rw [i4]
              constructor
              · intro _
                exact Or.inr ⟨(p, doc), List.mem_cons_self _ _, hh, Or.inl hc⟩
              · intro _
                exact Or.inl rfl
          · rw [parentChainLoop_classes b left p flag doc hb hh hc,
              parentChainTrace_classes b left p doc hb hh hc]
            have hk := sameOutside_trans p doc _ _ hcss
              (sameOutside_revealWithClasses p (revealWithCSS b p doc).2)
            obtain ⟨i1, i3, i4⟩ := ih
              ((revealWithClasses p (revealWithCSS b p doc).2).2.nodes p).parent
              (flag || (revealWithClasses p (revealWithCSS b p doc).2).1)
              (revealWithClasses p (revealWithCSS b p doc).2).2
            refine ⟨?_, ?_, ?_⟩
            · rw [List.map_cons, i1, hk.2.1 p, ancestorsBelowBody_congr doc _ hk.1 hk.2.1]
            · intro m hm
              have hmp : m ≠ p := by
                intro e
                have := hm (p, doc) (List.mem_cons_self _ _) e.symm
                rw [hh] at this
                cases this
              rw [i3 m (fun q hq => hm q (List.mem_cons_of_mem _ hq))]
              exact hk.2.2 m hmp
            · rw [i4]
              constructor
              · rintro (h | ⟨q, hq, hq2⟩)
                · rcases Bool.or_eq_true_iff.mp h with h | h
                  · exact Or.inl h
                  · exact Or.inr ⟨(p, doc), List.mem_cons_self _ _, hh, Or.inr h⟩
                · exact Or.inr ⟨q, List.mem_cons_of_mem _ hq, hq2⟩
              · rintro (h | ⟨q, hq, hq2⟩)
                · exact Or.inl (Bool.or_eq_true_iff.mpr (Or.inl h))
                · rcases List.mem_cons.mp hq with e | e
                  · rw [e] at hq2
                    rcases hq2.2 with h | h
                    · exact absurd h hc
                    · exact Or.inl (Bool.or_eq_true_iff.mpr (Or.inr h))
                  · exact Or.inr ⟨q, e, hq2⟩
        · rw [parentChainLoop_visible b left p flag doc hb hh,
            parentChainTrace_visible b left p doc hb hh]
          obtain ⟨i1, i3, i4⟩ := ih (doc.nodes p).parent flag doc
          refine ⟨?_, ?_, ?_⟩
          · rw [List.map_cons, i1]
          · intro m hm
            exact i3 m (fun q hq => hm q (List.mem_cons_of_mem _ hq))
          · rw [i4]
            constructor
            · rintro (h | ⟨q, hq, hq2⟩)
              · exact Or.inl h
              · exact Or.inr ⟨q, List.mem_cons_of_mem _ hq, hq2⟩
            · rintro (h | ⟨q, hq, hq2⟩)
              · exact Or.inl h
              · rcases List.mem_cons.mp hq with e | e
                · rw [e] at hq2
                  exact absurd hq2.1 hh
                · exact Or.inr ⟨q, e, hq2⟩

/-- Claim C27 (as amended): revealParentChain examines the nearest proper ancestors of
the element in order, at most 10 of them, and stops when it meets the document body, so
the body is never examined; a node is left exactly as it was unless it is an examined
ancestor that isElementHidden classified as hidden when it was examined, so the body is
never modified; and it returns true exactly when strategy 1 or strategy 2 reported a
change on at least one examined hidden ancestor.  The document element above the body is
among the examined ancestors when the element is the body or lies outside it. -/
theorem bounded_ancestor_walk (b : Browser) (element : Nat) (d : Document) :
    (parentChainTrace b 10 (d.nodes element).parent d).map (fun p => p.1) =
      ancestorsBelowBody d 10 (d.nodes element).parent ∧
    (parentChainTrace b 10 (d.nodes element).parent d).length ≤ 10 ∧
    d.body ∉ (parentChainTrace b 10 (d.nodes element).parent d).map (fun p => p.1) ∧
    (∀ m, (∀ p ∈ parentChainTrace b 10 (d.nodes element).parent d, p.1 = m →
        isElementHidden b p.2 p.1 = false) →
      (revealParentChain b element d).2.nodes m = d.nodes m) ∧
    (revealParentChain b element d).2.nodes d.body = d.nodes d.body ∧
    ((revealParentChain b element d).1 = true ↔
      ∃ p ∈ parentChainTrace b 10 (d.nodes element).parent d,
        isElementHidden b p.2 p.1 = true ∧
          ((revealWithCSS b p.1 p.2).1 = true ∨
            (revealWithClasses p.1 (revealWithCSS b p.1 p.2).2).1 = true)) := by
  obtain ⟨h1, h2, h3⟩ := parentChainLoop_trace b 10 (d.nodes element).parent false d
  obtain ⟨k1, k2⟩ := ancestorsBelowBody_bound d 10 (d.nodes element).parent
  have hlen : (parentChainTrace b 10 (d.nodes element).parent d).length ≤ 10 := by
    have := congrArg List.length h1
    rw [List.length_map] at this
    rw [this]
    exact k1
  have hbody : d.body ∉ (parentChainTrace b 10 (d.nodes element).parent d).map (fun p => p.1) := by
    rw [h1]
    exact k2
  refine ⟨h1, hlen, hbody, h2, ?_, ?_⟩
  · apply h2
    intro p hp hpb
    exfalso
    apply hbody
    rw [← hpb]
    exact List.mem_map_of_mem _ hp
  · unfold revealParentChain
    rw [h3]
    simp

/-- Witness for C27: for the inner element of the nested sample page one ancestor is
examined, the container node 2; the body, node 1, is left as it was. -/
theorem bounded_ancestor_walk_witness :
    (parentChainTrace sampleBrowser 10 (pageNested.nodes 3).parent pageNested).map
      (fun p => p.1) = [2] ∧
    (revealParentChain sampleBrowser 3 pageNested).2.nodes 1 = pageNested.nodes 1 :=
  ⟨by decide, (bounded_ancestor_walk sampleBrowser 3 pageNested).2.2.2.1 1 (by decide)⟩

/-- Counterexample to C27 as stated: on the sample page whose body is hidden by a rule
that cannot be overridden, the scan reports the body, node 1, whose parent is the
document element, node 0; revealParentChain on the body examines the document element,
finds it hidden and sets its inline opacity, so a node above the body is modified, also
by the reveal of the reported id. -/
theorem ancestor_walk_modifies_document_element :
    pageBodyLocked.body = 1 ∧ (pageBodyLocked.nodes 1).parent = some 0 ∧
    (findElement (run sampleBrowser [Op.discover] (freshWorld pageBodyLocked)).zen
      "zen-element-0").map (fun e => e.element) = some 1 ∧
    (parentChainTrace sampleBrowser 10 (pageBodyLocked.nodes 1).parent pageBodyLocked).map
      (fun p => p.1) = [0] ∧
    styleOf pageBodyLocked 0 "opacity" = "" ∧
    (revealParentChain sampleBrowser 1 pageBodyLocked).1 = true ∧
    styleOf (revealParentChain sampleBrowser 1 pageBodyLocked).2 0 "opacity" = "1" ∧
    styleOf (run sampleBrowser [Op.discover, Op.reveal "zen-element-0"]
      (freshWorld pageBodyLocked)).document 0 "opacity" = "1" := by
  decide

/-! ## What a successful reveal leaves on the element -/

theorem addRevealIndicator_present (element : Nat) (elementId : String) (d : Document)
    (h : (querySelectorClass d element "zen-reveal-indicator").isSome = true) :
    addRevealIndicator element elementId d = d := by
  unfold addRevealIndicator
  rw [if_pos h]

theorem addRevealIndicator_fresh (element : Nat) (elementId : String) (d : Document)
    (hlt : element < d.size)
    (h : (querySelectorClass d element "zen-reveal-indicator").isSome = false) :
    classList (addRevealIndicator element elementId d) element =
      (if (classList d element).contains "zen-revealed" then classList d element
       else classList d element ++ ["zen-revealed"]) ∧
    ((addRevealIndicator element elementId d).nodes element).children =
      (d.nodes element).children ++ [Child.elem d.size] ∧
    (addRevealIndicator element elementId d).nodes d.size = indicatorElement elementId element ∧
    (addRevealIndicator element elementId d).size = d.size + 1 := by
  have hne : element ≠ d.size := Nat.ne_of_lt hlt
  have hne2 : d.size ≠ element := fun e => hne e.symm
  unfold addRevealIndicator
  rw [if_neg (by simp [h])]
  simp only []
  refine ⟨?_, ?_, ?_, rfl⟩
  · rw [classList_classListAdd _ _ _ (by decide)]
    have hcl : ∀ d2 : Document, (d2.nodes element).className = (d.nodes element).className →
        classList d2 element = classList d element := by
      intro d2 h2
      unfold classList
      rw [h2]
    rw [hcl _ (by simp [Document.update, hne])]
  · unfold classListAdd setClassName
    simp only [update_nodes, if_true, if_neg hne]
  · unfold classListAdd setClassName
    simp only [update_nodes, if_neg hne2, if_true]

/-- Claim C21 (as amended): after every revealElement(id) that returns success: true the
element has inline transition all 0.3s ease-in-out and a snapshot for id exists; when no
descendant of the element carried the class zen-reveal-indicator on the document the
strategies left, the element carries the marker class zen-revealed (its other classes
kept in order) and a new last child with class zen-reveal-indicator whose data-zen-id is
id; when some descendant already carried that class, addRevealIndicator returns early
and the document is the one the strategies left with only the transition added. -/
theorem successful_reveal_effects (b : Browser) (w : World) (elementId : String) (element : Nat)
    (hf : (findElement w.zen elementId).map (fun e => e.element) = some element)
    (hok : (revealElement b elementId w).1.success = true) :
    styleOf (revealElement b elementId w).2.document element "transition" =
      "all 0.3s ease-in-out" ∧
    mapHas (revealElement b elementId w).2.zen.originalStates elementId = true ∧
    (element < (applyRevealStrategies b element w.document).2.size →
      (querySelectorClass (applyRevealStrategies b element w.document).2 element
        "zen-reveal-indicator").isSome = false →
      "zen-revealed" ∈ classList (revealElement b elementId w).2.document element ∧
      classList (revealElement b elementId w).2.document element =
        (if (classList (applyRevealStrategies b element w.document).2 element).contains
            "zen-revealed"
         then classList (applyRevealStrategies b element w.document).2 element
         else classList (applyRevealStrategies b element w.document).2 element ++
            ["zen-revealed"]) ∧
      ((revealElement b elementId w).2.document.nodes element).children =
        ((applyRevealStrategies b element w.document).2.nodes element).children ++
          [Child.elem (applyRevealStrategies b element w.document).2.size] ∧
      ((revealElement b elementId w).2.document.nodes
        (applyRevealStrategies b element w.document).2.size).className =
          "zen-reveal-indicator" ∧
      getAttribute (revealElement b elementId w).2.document
        (applyRevealStrategies b element w.document).2.size "data-zen-id" = some elementId ∧
      ((revealElement b elementId w).2.document.nodes
        (applyRevealStrategies b element w.document).2.size).parent = some element) ∧
    ((querySelectorClass (applyRevealStrategies b element w.document).2 element
        "zen-reveal-indicator").isSome = true →
      (revealElement b elementId w).2.document =
        setStyle (applyRevealStrategies b element w.document).2 element "transition"
          "all 0.3s ease-in-out") := by
  obtain ⟨elementData, hfound⟩ := revealElement_found b w elementId hok
  have hel : elementData.element = element := by
    rw [hfound] at hf
    simpa using hf
  have horig : mapHas (revealElement b elementId w).2.zen.originalStates elementId = true := by
    rw [revealElement_originalStates b w elementId elementData hfound, mapHas_mapSet]
    simp
  have hdoc : (revealElement b elementId w).2.document =
      setStyle (addRevealIndicator element elementId (applyRevealStrategies b element w.document).2)
        element "transition" "all 0.3s ease-in-out" := by
    unfold revealElement at hok ⊢
    rw [hfound] at hok ⊢
    simp only at hok ⊢
    have hd : (saveOriginalState b elementId elementData.element w).document = w.document := rfl
    rw [hd, hel] at hok ⊢
    by_cases hr : (applyRevealStrategies b element w.document).1 = true
    · rw [if_pos hr]
    · rw [if_neg hr] at hok
      simp at hok
  rw [hdoc]
  refine ⟨styleOf_setStyle_self _ _ _ _, horig, ?_, ?_⟩
  · intro hlt hnone
    obtain ⟨h1, h2, h3, _⟩ := addRevealIndicator_fresh element elementId
      (applyRevealStrategies b element w.document).2 hlt hnone
    have hne : (applyRevealStrategies b element w.document).2.size ≠ element :=
      fun e => Nat.ne_of_lt hlt e.symm
    have hcl : classList (setStyle (addRevealIndicator element elementId
        (applyRevealStrategies b element w.document).2)
        element "transition" "all 0.3s ease-in-out") element =
        classList (addRevealIndicator element elementId
          (applyRevealStrategies b element w.document).2) element := by
      unfold classList
      rw [setStyle_className]
    have hnode : (setStyle (addRevealIndicator element elementId
        (applyRevealStrategies b element w.document).2)
        element "transition" "all 0.3s ease-in-out").nodes
        (applyRevealStrategies b element w.document).2.size =
        indicatorElement elementId element := by
      unfold setStyle
      rw [update_nodes, if_neg hne, h3]
    refine ⟨?_, ?_, ?_, ?_, ?_, ?_⟩
    · rw [hcl, h1]
      split
      · rename_i hc
        simpa using hc
      · simp
    · rw [hcl, h1]
    · unfold setStyle
      rw [update_nodes, if_pos rfl]
      exact h2
    · rw [hnode]
      rfl
    · unfold getAttribute
      rw [hnode]
      rfl
    · rw [hnode]
      rfl
  · intro hsome
    rw [addRevealIndicator_present _ _ _ hsome]

/-- Witness for C21: the reveal of the banner of the sample page, node 2, which has no
badge below it: afterwards it has the transition, the marker class after its own class,
and the new node 3 as its last child, a badge carrying the id. -/
theorem successful_reveal_effects_witness :
    (revealElement sampleBrowser "zen-element-0" worldBanner).1.success = true ∧
    styleOf (revealElement sampleBrowser "zen-element-0" worldBanner).2.document 2 "transition" =
      "all 0.3s ease-in-out" ∧
    classList (revealElement sampleBrowser "zen-element-0" worldBanner).2.document 2 =
      ["faded", "zen-revealed"] ∧
    getAttribute (revealElement sampleBrowser "zen-element-0" worldBanner).2.document
      (applyRevealStrategies sampleBrowser 2 worldBanner.document).2.size "data-zen-id" =
        some "zen-element-0" :=
  ⟨by decide,
   (successful_reveal_effects sampleBrowser worldBanner "zen-element-0" 2 (by decide)
     (by decide)).1,
   by decide,
   ((successful_reveal_effects sampleBrowser worldBanner "zen-element-0" 2 (by decide)
     (by decide)).2.2.1 (by decide) (by decide)).2.2.2.2.1⟩

/-- Counterexample to C21 as stated.  On the shifted page the second banner is revealed,
found still hidden by the next scan and revealed again under its new id zen-element-0:
the reveal returns success: true and the only badge of the element still carries
data-zen-id zen-element-1.  On the panel page the panel is revealed after the element
inside it: the reveal returns success: true and leaves the panel without the marker
class and without a badge child, because the badge of the inner element is found. -/
theorem reveal_keeps_old_badge :
    ((findElement worldShiftedRescanned.zen "zen-element-0").map (fun e => e.element) = some 3 ∧
      (revealElement sampleBrowser "zen-element-0" worldShiftedRescanned).1.success = true ∧
      childElements ((revealElement sampleBrowser "zen-element-0"
        worldShiftedRescanned).2.document.nodes 3).children = [4] ∧
      getAttribute (revealElement sampleBrowser "zen-element-0" worldShiftedRescanned).2.document 4
        "data-zen-id" = some "zen-element-1") ∧
    ((findElement worldPanelFaded.zen "zen-element-0").map (fun e => e.element) = some 2 ∧
      (revealElement sampleBrowser "zen-element-0" worldPanelFaded).1.success = true ∧
      classList (revealElement sampleBrowser "zen-element-0" worldPanelFaded).2.document 2 =
        ["faded"] ∧
      ((revealElement sampleBrowser "zen-element-0" worldPanelFaded).2.document.nodes 2).children =
        [Child.elem 3]) := by
  decide

/-! ## The category summary -/

theorem mapSet_cons_ne {α : Type} (j : String) (u : α) (rest : List (String × α)) (k : String)
    (v : α) (h : j ≠ k) : mapSet ((j, u) :: rest) k v = (j, u) :: mapSet rest k v := by
  unfold mapSet
  rw [mapHas_cons]
  have hb : (j == k) = false := by simpa using h
  rw [hb, Bool.false_or]
  by_cases hr : mapHas rest k = true
  · rw [if_pos hr, if_pos hr, List.map_cons]
    simp [h]
  · rw [if_neg hr, if_neg hr]
    rfl

theorem map_set_absent {α : Type} (m : List (String × α)) (k : String) (v : α)
    (h : mapHas m k = false) : m.map (fun kv => if kv.1 = k then (kv.1, v) else kv) = m := by
  induction m with
  | nil => rfl
  | cons kv rest ih =>
    obtain ⟨j, u⟩ := kv
    rw [mapHas_cons] at h
    have hj : ¬ j = k := by
      intro e; simp [e] at h
    have hrest : mapHas rest k = false := by simpa [hj] using h
    rw [List.map_cons, ih hrest]
    simp [hj]

theorem mapHas_false_of_not_mem {α : Type} (m : List (String × α)) (k : String)
    (h : k ∉ mapKeys m) : mapHas m k = false := by
  induction m with
  | nil => rfl
  | cons kv rest ih =>
    obtain ⟨j, u⟩ := kv
    have hj : ¬ j = k := by
      intro e
      apply h
      unfold mapKeys
      simp [e]
    have hr : k ∉ mapKeys rest := by
      intro hm
      apply h
      unfold mapKeys at hm ⊢
      simp only [List.map_cons, List.mem_cons]
      exact Or.inr hm
    rw [mapHas_cons, ih hr]
    simp [hj]

theorem mapSet_cons_self {α : Type} (k : String) (u : α) (rest : List (String × α)) (v : α)
    (h : mapHas rest k = false) : mapSet ((k, u) :: rest) k v = (k, v) :: rest := by
  unfold mapSet
  rw [mapHas_cons]
  simp only [beq_self_eq_true, Bool.true_or, if_true, List.map_cons]
  rw [map_set_absent rest k v h]

theorem mapGet_mapSet_ne {α : Type} (m : List (String × α)) (k j : String) (v : α)
    (h : k ≠ j) : mapGet (mapSet m k v) j = mapGet m j := by
  induction m with
  | nil =>
    show mapGet [(k, v)] j = none
    rw [mapGet_cons, if_neg h]
    rfl
  | cons kv rest ih =>
    obtain ⟨i, u⟩ := kv
    by_cases hi : i = k
    · unfold mapSet
      rw [mapHas_cons]
      have hb : (i == k) = true := by simpa using hi
      rw [hb, Bool.true_or, if_pos rfl, List.map_cons]
      have hij : ¬ i = j := by rw [hi]; exact h
      simp only [hi, if_true]
      rw [mapGet_cons, if_neg h, mapGet_cons, if_neg h]
      have : mapGet (rest.map (fun kv => if kv.1 = k then (kv.1, v) else kv)) j = mapGet rest j := by
        clear ih
        induction rest with
        | nil => rfl
        | cons kv2 rest2 ih2 =>
          obtain ⟨i2, u2⟩ := kv2
          rw [List.map_cons]
          by_cases h2 : i2 = k
          · have hh : ¬ i2 = j := by rw [h2]; exact h
            simp only [h2, if_true]
            rw [mapGet_cons, if_neg h, mapGet_cons, if_neg h, ih2]
          · simp only [h2, if_false]
            rw [mapGet_cons, mapGet_cons, ih2]
      exact this
    · rw [mapSet_cons_ne i u rest k v hi, mapGet_cons, mapGet_cons, ih]

theorem sum_mapSet (m : List (String × Nat)) (k : String) (v : Nat)
    (hn : (mapKeys m).Nodup) :
    ((mapSet m k v).map (fun kv => kv.2)).sum + (mapGet m k).getD 0 =
      (m.map (fun kv => kv.2)).sum + v := by
  induction m with
  | nil =>
    show ([(k, v)].map (fun kv => kv.2)).sum + 0 = 0 + v
    simp
  | cons kv rest ih =>
    obtain ⟨j, u⟩ := kv
    have hn2 : j ∉ mapKeys rest ∧ (mapKeys rest).Nodup := by
      unfold mapKeys at hn ⊢
      simpa using hn
    by_cases hj : j = k
    · rw [hj] at hn2 ⊢
      rw [mapSet_cons_self k u rest v (mapHas_false_of_not_mem rest k hn2.1), mapGet_cons,
        if_pos rfl]
      simp only [List.map_cons, List.sum_cons, Option.getD_some]
      omega
    · rw [mapSet_cons_ne j u rest k v hj, mapGet_cons, if_neg hj]
      have := ih hn2.2
      simp only [List.map_cons, List.sum_cons]
      omega

theorem summary_fold (rest : List ElementData) :
    ∀ (summary : List (String × Nat)) (seen : List ElementData),
      (∀ c, mapGet summary c =
        if (seen.filter (fun e => e.category == c)).length = 0 then none
        else some (seen.filter (fun e => e.category == c)).length) →
      (mapKeys summary).Nodup →
      (summary.map (fun kv => kv.2)).sum = seen.length →
      (∀ c, mapGet (rest.foldl (fun summary el =>
            mapSet summary el.category ((mapGet summary el.category).getD 0 + 1)) summary) c =
        if ((seen ++ rest).filter (fun e => e.category == c)).length = 0 then none
        else some ((seen ++ rest).filter (fun e => e.category == c)).length) ∧
      (mapKeys (rest.foldl (fun summary el =>
            mapSet summary el.category ((mapGet summary el.category).getD 0 + 1)) summary)).Nodup ∧
      ((rest.foldl (fun summary el =>
            mapSet summary el.category ((mapGet summary el.category).getD 0 + 1)) summary).map
          (fun kv => kv.2)).sum = (seen ++ rest).length := by
  induction rest with
  | nil =>
    intro summary seen h1 h2 h3
    simp only [List.foldl_nil, List.append_nil]
    exact ⟨h1, h2, h3⟩
  | cons el rest ih =>
    intro summary seen h1 h2 h3
    rw [List.foldl_cons]
    have hseen : seen ++ el :: rest = (seen ++ [el]) ++ rest := by simp
    rw [hseen]
    refine ih _ (seen ++ [el]) ?_ (mapSet_keys_nodup _ _ _ h2) ?_
    · intro c
      by_cases hc : el.category = c
      · rw [hc, mapGet_mapSet_self, h1 c]
        have hb : (el.category == c) = true := by simpa using hc
        rw [List.filter_append, List.length_append]
        simp only [List.filter_cons, hb, if_true, List.filter_nil, List.length_singleton]
        by_cases hz : (seen.filter (fun e => e.category == c)).length = 0
        · rw [if_pos hz, hz]
          rfl
        · rw [if_neg hz]
          simp
      · rw [mapGet_mapSet_ne _ _ _ _ hc, h1 c]
        have hb : (el.category == c) = false := by simpa using hc
        rw [List.filter_append]
        simp [List.filter_cons, hb]
    · have := sum_mapSet summary el.category ((mapGet summary el.category).getD 0 + 1) h2
      rw [List.length_append, List.length_singleton]
      omega

/-- Claim C22: the value returned by discoverHiddenElements has total equal to the length
of elements; categories maps a category to the number of returned elements with that
category when that number is positive and has no entry for it otherwise; each category
is a key at most once, and the counts sum to total. -/
theorem discover_result_consistent (b : Browser) (w : World) :
    (discoverHiddenElements b w).1.total = (discoverHiddenElements b w).1.elements.length ∧
    (∀ c : String, mapGet (discoverHiddenElements b w).1.categories c =
      if ((discoverHiddenElements b w).1.elements.filter (fun e => e.category == c)).length = 0
      then none
      else some ((discoverHiddenElements b w).1.elements.filter
        (fun e => e.category == c)).length) ∧
    (mapKeys (discoverHiddenElements b w).1.categories).Nodup ∧
    ((discoverHiddenElements b w).1.categories.map (fun kv => kv.2)).sum =
      (discoverHiddenElements b w).1.total := by
  have h := summary_fold (discoverHiddenElements b w).1.elements [] []
    (fun c => rfl) List.nodup_nil rfl
  rw [List.nil_append] at h
  exact ⟨rfl, h.1, h.2.1, h.2.2⟩

/-! ## Revealed ids have a snapshot -/

theorem mapHas_mapDelete {α : Type} (m : List (String × α)) (k j : String) :
    mapHas (mapDelete m k) j = (j != k && mapHas m j) := by
  by_cases h : j = k
  · rw [h, mapHas_mapDelete_self]
    simp
  · rw [mapHas_mapDelete_ne m k j h]
    simp [h]

theorem revealElement_covered (b : Browser) (j : String) (w : World)
    (h : ∀ k, mapHas w.zen.revealedElements k = true → mapHas w.zen.originalStates k = true) :
    ∀ k, mapHas (revealElement b j w).2.zen.revealedElements k = true →
      mapHas (revealElement b j w).2.zen.originalStates k = true := by
  intro k hk
  rw [revealElement_member] at hk
  cases hf : findElement w.zen j with
  | none =>
    have hs : (revealElement b j w).1.success = false := by
      unfold revealElement
      rw [hf]
    have hw : (revealElement b j w).2 = w := by
      unfold revealElement
      rw [hf]
    rw [hs] at hk
    rw [hw]
    exact h k (by simpa using hk)
  | some elementData =>
    rw [revealElement_originalStates b w j elementData hf, mapHas_mapSet]
    by_cases hjk : j = k
    · simp [hjk]
    · rw [if_neg (fun hh => hjk hh.1)] at hk
      simp [h k hk]

theorem restoreElement_covered (j : String) (w : World)
    (h : ∀ k, mapHas w.zen.revealedElements k = true → mapHas w.zen.originalStates k = true) :
    ∀ k, mapHas (restoreElement j w).2.zen.revealedElements k = true →
      mapHas (restoreElement j w).2.zen.originalStates k = true := by
  intro k
  unfold restoreElement
  cases hg : mapGet w.zen.originalStates j with
  | none => exact h k
  | some originalState =>
    cases hf : findElement w.zen j with
    | none => exact h k
    | some elementData =>
      simp only [mapHas_mapDelete]
      intro hk
      have hk2 : (k != j) = true ∧ mapHas w.zen.revealedElements k = true := by
        simpa using hk
      rw [hk2.1, h k hk2.2]
      rfl

theorem revealLoop_covered (b : Browser) (elements : List ElementData) :
    ∀ (acc : List RevealResult) (w : World),
      (∀ k, mapHas w.zen.revealedElements k = true → mapHas w.zen.originalStates k = true) →
      ∀ k, mapHas (revealLoop b elements (acc, w)).2.zen.revealedElements k = true →
        mapHas (revealLoop b elements (acc, w)).2.zen.originalStates k = true := by
  induction elements with
  | nil => intro acc w h; exact h
  | cons elementData rest ih =>
    intro acc w h
    unfold revealLoop
    exact ih _ _ (revealElement_covered b elementData.id w h)

theorem discover_originalStates (b : Browser) (w : World) :
    (discoverHiddenElements b w).2.zen.originalStates = w.zen.originalStates := by
  unfold discoverHiddenElements
  simp only
  rw [(categorizeElements_revealed b w.document _ _).2]

theorem step_covered (b : Browser) (w : World) (op : Op)
    (h : ∀ k, mapHas w.zen.revealedElements k = true → mapHas w.zen.originalStates k = true) :
    ∀ k, mapHas (step b w op).zen.revealedElements k = true →
      mapHas (step b w op).zen.originalStates k = true := by
  cases op with
  | discover =>
    intro k
    show mapHas (discoverHiddenElements b w).2.zen.revealedElements k = true →
      mapHas (discoverHiddenElements b w).2.zen.originalStates k = true
    rw [discover_revealed, discover_originalStates]
    exact h k
  | reveal elementId => exact revealElement_covered b elementId w h
  | restore elementId => exact restoreElement_covered elementId w h
  | revealAll => exact revealLoop_covered b w.zen.discoveredElements [] w h
  | restoreAll =>
    intro k hk
    have : mapHas ([] : List (String × ElementData)) k = true := hk
    simp [mapHas] at this
  | page change => exact h

theorem run_covered (b : Browser) (ops : List Op) :
    ∀ w : World,
      (∀ k, mapHas w.zen.revealedElements k = true → mapHas w.zen.originalStates k = true) →
      ∀ k, mapHas (run b ops w).zen.revealedElements k = true →
        mapHas (run b ops w).zen.originalStates k = true := by
  induction ops with
  | nil => intro w h; exact h
  | cons op rest ih =>
    intro w h
    exact ih (step b w op) (step_covered b w op h)

/-- Claim C29: in every engine state reached from the initial state on any document by
any sequence of discover, revealElement, restoreElement, revealAll and restoreAll calls
(and changes the page makes in between), every id in the revealed set is a key of the
snapshot map; the converse fails, since after a reveal that failed the id has a snapshot
and is not in the revealed set. -/
theorem revealed_ids_have_snapshot :
    (∀ (b : Browser) (ops : List Op) (d : Document) (elementId : String),
      mapHas (run b ops (freshWorld d)).zen.revealedElements elementId = true →
      mapHas (run b ops (freshWorld d)).zen.originalStates elementId = true) ∧
    (∃ (ops : List Op) (d : Document) (elementId : String),
      mapHas (run sampleBrowser ops (freshWorld d)).zen.originalStates elementId = true ∧
      mapHas (run sampleBrowser ops (freshWorld d)).zen.revealedElements elementId = false) := by
  refine ⟨?_, [Op.discover, Op.reveal "zen-element-0"], pageLocked, "zen-element-0", by decide,
    by decide⟩
  intro b ops d elementId
  refine run_covered b ops (freshWorld d) ?_ elementId
  intro k hk
  have : mapHas ([] : List (String × ElementData)) k = true := hk
  simp [mapHas] at this

/-- Witness for C29: after a scan, a reveal, a second scan and a revealAll on the page
with two banners, the id zen-element-1 is in the revealed set and has a snapshot. -/
theorem revealed_ids_have_snapshot_witness :
    mapHas (run sampleBrowser [Op.discover, Op.reveal "zen-element-1", Op.discover, Op.revealAll]
      (freshWorld pageTwo)).zen.revealedElements "zen-element-1" = true ∧
    mapHas (run sampleBrowser [Op.discover, Op.reveal "zen-element-1", Op.discover, Op.revealAll]
      (freshWorld pageTwo)).zen.originalStates "zen-element-1" = true :=
  ⟨by decide,
   revealed_ids_have_snapshot.1 sampleBrowser
     [Op.discover, Op.reveal "zen-element-1", Op.discover, Op.revealAll] pageTwo "zen-element-1"
     (by decide)⟩

/-! ## The reported hiding method -/

theorem methods_table : ∀ a1 a2 a3 a4 a5 a6 : Bool,
    ((if String.intercalate ", "
          ((if a1 then ["display:none"] else []) ++ (if a2 then ["visibility:hidden"] else []) ++
            (if a3 then ["opacity:0"] else []) ++ (if a4 then ["position:absolute"] else []) ++
            (if a5 then ["height:0"] else []) ++ (if a6 then ["clip-path"] else [])) ≠ ""
        then String.intercalate ", "
          ((if a1 then ["display:none"] else []) ++ (if a2 then ["visibility:hidden"] else []) ++
            (if a3 then ["opacity:0"] else []) ++ (if a4 then ["position:absolute"] else []) ++
            (if a5 then ["height:0"] else []) ++ (if a6 then ["clip-path"] else []))
        else "unknown") = "unknown" ↔
      (a1 = false ∧ a2 = false ∧ a3 = false ∧ a4 = false ∧ a5 = false ∧ a6 = false)) ∧
    (a6 = true →
      includes (if String.intercalate ", "
          ((if a1 then ["display:none"] else []) ++ (if a2 then ["visibility:hidden"] else []) ++
            (if a3 then ["opacity:0"] else []) ++ (if a4 then ["position:absolute"] else []) ++
            (if a5 then ["height:0"] else []) ++ (if a6 then ["clip-path"] else [])) ≠ ""
        then String.intercalate ", "
          ((if a1 then ["display:none"] else []) ++ (if a2 then ["visibility:hidden"] else []) ++
            (if a3 then ["opacity:0"] else []) ++ (if a4 then ["position:absolute"] else []) ++
            (if a5 then ["height:0"] else []) ++ (if a6 then ["clip-path"] else []))
        else "unknown") "clip-path" = true) := by
  decide

theorem analyzeHidingMethod_eq (b : Browser) (d : Document) (element : Nat) :
    analyzeHidingMethod b d element =
      (if String.intercalate ", "
          ((if decide ((b.getComputedStyle d element).display = "none") then ["display:none"] else []) ++
            (if decide ((b.getComputedStyle d element).visibility = "hidden")
              then ["visibility:hidden"] else []) ++
            (if decide ((b.getComputedStyle d element).opacity = "0") then ["opacity:0"] else []) ++
            (if decide ((b.getComputedStyle d element).position = "absolute" ∧
                  ltNum (b.parseInt (b.getComputedStyle d element).left) (-9000) = true)
              then ["position:absolute"] else []) ++
            (if decide ((b.getComputedStyle d element).height = "0px") then ["height:0"] else []) ++
            (if decide ((b.getComputedStyle d element).clipPath ≠ "") then ["clip-path"] else [])) ≠ ""
        then String.intercalate ", "
          ((if decide ((b.getComputedStyle d element).display = "none") then ["display:none"] else []) ++
            (if decide ((b.getComputedStyle d element).visibility = "hidden")
              then ["visibility:hidden"] else []) ++
            (if decide ((b.getComputedStyle d element).opacity = "0") then ["opacity:0"] else []) ++
            (if decide ((b.getComputedStyle d element).position = "absolute" ∧
                  ltNum (b.parseInt (b.getComputedStyle d element).left) (-9000) = true)
              then ["position:absolute"] else []) ++
            (if decide ((b.getComputedStyle d element).height = "0px") then ["height:0"] else []) ++
            (if decide ((b.getComputedStyle d element).clipPath ≠ "") then ["clip-path"] else []))
        else "unknown") := by
  unfold analyzeHidingMethod
  simp only [decide_eq_true_eq]

/-- Claim C30: analyzeHidingMethod names clip-path for every element whose computed
clip-path is a non-empty string, so the reported method is then not unknown; when that
clip-path is the default none, the clip-path test of isElementHidden does not fire; and
unknown is returned exactly when none of the six checks matches. -/
theorem hiding_method_names_clip_path (b : Browser) (d : Document) (element : Nat) :
    ((b.getComputedStyle d element).clipPath ≠ "" →
      includes (analyzeHidingMethod b d element) "clip-path" = true ∧
        analyzeHidingMethod b d element ≠ "unknown") ∧
    ((b.getComputedStyle d element).clipPath = "none" → clipPathCollapsed b d element = false) ∧
    (analyzeHidingMethod b d element = "unknown" ↔
      ((b.getComputedStyle d element).display ≠ "none" ∧
        (b.getComputedStyle d element).visibility ≠ "hidden" ∧
        (b.getComputedStyle d element).opacity ≠ "0" ∧
        ¬ ((b.getComputedStyle d element).position = "absolute" ∧
            ltNum (b.parseInt (b.getComputedStyle d element).left) (-9000) = true) ∧
        (b.getComputedStyle d element).height ≠ "0px" ∧
        (b.getComputedStyle d element).clipPath = "")) := by
  have table := methods_table
    (decide ((b.getComputedStyle d element).display = "none"))
    (decide ((b.getComputedStyle d element).visibility = "hidden"))
    (decide ((b.getComputedStyle d element).opacity = "0"))
    (decide ((b.getComputedStyle d element).position = "absolute" ∧
      ltNum (b.parseInt (b.getComputedStyle d element).left) (-9000) = true))
    (decide ((b.getComputedStyle d element).height = "0px"))
    (decide ((b.getComputedStyle d element).clipPath ≠ ""))
  rw [← analyzeHidingMethod_eq] at table
  refine ⟨?_, ?_, ?_⟩
  · intro hclip
    have h6 : decide ((b.getComputedStyle d element).clipPath ≠ "") = true :=
      decide_eq_true hclip
    refine ⟨table.2 h6, ?_⟩
    intro hu
    have := (table.1.mp hu).2.2.2.2.2
    rw [h6] at this
    cases this
  · intro hnone
    unfold clipPathCollapsed
    rw [hnone]
    decide
  · rw [table.1]
    simp only [decide_eq_false_iff_not, ne_eq, not_not]

/-- Witness for C30: the transparent banner of the sample page has the default clip-path
none; its reported method names clip-path although the clip-path test does not fire. -/
theorem hiding_method_names_clip_path_witness :
    (sampleBrowser.getComputedStyle pageBanner 2).clipPath = "none" ∧
    analyzeHidingMethod sampleBrowser pageBanner 2 = "opacity:0, clip-path" ∧
    (includes (analyzeHidingMethod sampleBrowser pageBanner 2) "clip-path" = true ∧
      analyzeHidingMethod sampleBrowser pageBanner 2 ≠ "unknown") ∧
    clipPathCollapsed sampleBrowser pageBanner 2 = false :=
  ⟨by decide, by decide,
   (hiding_method_names_clip_path sampleBrowser pageBanner 2).1 (by decide),
   (hiding_method_names_clip_path sampleBrowser pageBanner 2).2.1 (by decide)⟩

end Zen
